import Mathlib

/-!
hipSOLVER on the rocSOLVER side: workspace sizing and buffer layout.

A shallow embedding of `library/src/hcc_detail/hipsolver.cpp`.

* C `int` values are `Int`; `int` arithmetic that can leave the 32-bit range is
  written with `wrapInt` (two's-complement wrap, what the hardware multiply
  produces; the language leaves signed overflow undefined).
* `size_t` values are `Nat` below `2 ^ 64`; `size_t` arithmetic is reduced
  modulo `2 ^ 64`, and an `int` converted to `size_t` goes through `toSizeT`.
* The wrapped library (rocBLAS / rocSOLVER) is a parameter: a record `RocLib σ`
  of transition functions over an arbitrary library state `σ`.  Every call
  into it is appended to a log, so that "no call was made" and "this call was
  made with these arguments" are statements about the log.
-/

namespace HipSolver

/-! ## Machine integers -/

/-- The largest `int`. -/
def INT_MAX : Int := 2147483647

/-- The modulus of `size_t` arithmetic. -/
def SIZE_T_MOD : Nat := 18446744073709551616

/-- An `int` result reduced to the signed 32-bit range. -/
def wrapInt (x : Int) : Int := (x + 2147483648) % 4294967296 - 2147483648

/-- The product `a * b` of two `int` operands, computed in `int`. -/
def imul (a b : Int) : Int := wrapInt (a * b)

/-- Conversion of an `int` to `size_t`. -/
def toSizeT (x : Int) : Nat := (x % 18446744073709551616).toNat

/-- The product of two `size_t` operands. -/
def smul (a b : Nat) : Nat := (a * b) % SIZE_T_MOD

/-- The sum of two `size_t` operands. -/
def sadd (a b : Nat) : Nat := (a + b) % SIZE_T_MOD

/-- The function `min(m, n)` of `<algorithm>` on `int`. -/
def cmin (m n : Int) : Int := if n < m then n else m

/-- The function `max(m, n)` of `<algorithm>` on `int`. -/
def cmax (m n : Int) : Int := if m < n then n else m

/-! ## Scalar types -/

/-- The four working scalar types: `float`, `double`, `rocblas_float_complex`,
`rocblas_double_complex`; they select the `S`, `D`, `C`, `Z` entry points. -/
inductive Scalar
  | S | D | C | Z
  deriving DecidableEq, Repr

/-- Bytes of the real type that goes with a scalar type: `sizeof(float)` for
`S` and `C`, `sizeof(double)` for `D` and `Z`. -/
def sizeofReal : Scalar → Nat
  | .S => 4
  | .D => 8
  | .C => 4
  | .Z => 8

/-- Bytes of the working scalar type itself. -/
def sizeofT : Scalar → Nat
  | .S => 4
  | .D => 8
  | .C => 8
  | .Z => 16

/-! ## Status codes and enumerations -/

/-- The status codes of hipSOLVER that the file returns. -/
inductive hipsolverStatus_t
  | HIPSOLVER_STATUS_SUCCESS
  | HIPSOLVER_STATUS_NOT_INITIALIZED
  | HIPSOLVER_STATUS_ALLOC_FAILED
  | HIPSOLVER_STATUS_INVALID_VALUE
  | HIPSOLVER_STATUS_INTERNAL_ERROR
  | HIPSOLVER_STATUS_NOT_SUPPORTED
  | HIPSOLVER_STATUS_INVALID_ENUM
  | HIPSOLVER_STATUS_UNKNOWN
  | HIPSOLVER_STATUS_HANDLE_IS_NULLPTR
  deriving DecidableEq, Repr

/-- The status codes of rocBLAS; `other` stands for every code that
`rocblas2hip_status` does not list. -/
inductive rocblas_status_
  | rocblas_status_success
  | rocblas_status_invalid_handle
  | rocblas_status_not_implemented
  | rocblas_status_invalid_pointer
  | rocblas_status_invalid_size
  | rocblas_status_memory_error
  | rocblas_status_internal_error
  | rocblas_status_size_increased
  | rocblas_status_size_unchanged
  | rocblas_status_invalid_value
  | other (code : Int)
  deriving DecidableEq, Repr

/-- Values of `hipsolverOperation_t`; `invalid` is any value that is not an
enumerator. -/
inductive hipsolverOperation_t
  | HIPSOLVER_OP_N | HIPSOLVER_OP_T | HIPSOLVER_OP_C | invalid (raw : Int)
  deriving DecidableEq, Repr

/-- Values of `hipsolverFillMode_t`. -/
inductive hipsolverFillMode_t
  | HIPSOLVER_FILL_MODE_UPPER | HIPSOLVER_FILL_MODE_LOWER | invalid (raw : Int)
  deriving DecidableEq, Repr

/-- Values of `hipsolverSideMode_t`. -/
inductive hipsolverSideMode_t
  | HIPSOLVER_SIDE_LEFT | HIPSOLVER_SIDE_RIGHT | invalid (raw : Int)
  deriving DecidableEq, Repr

/-- Values of `hipsolverEigMode_t`. -/
inductive hipsolverEigMode_t
  | HIPSOLVER_EIG_MODE_NOVECTOR | HIPSOLVER_EIG_MODE_VECTOR | invalid (raw : Int)
  deriving DecidableEq, Repr

/-- Values of `hipsolverEigType_t`. -/
inductive hipsolverEigType_t
  | HIPSOLVER_EIG_TYPE_1 | HIPSOLVER_EIG_TYPE_2 | HIPSOLVER_EIG_TYPE_3 | invalid (raw : Int)
  deriving DecidableEq, Repr

/-- Values of `rocblas_operation_`. -/
inductive rocblas_operation_
  | rocblas_operation_none | rocblas_operation_transpose
  | rocblas_operation_conjugate_transpose | invalid (raw : Int)
  deriving DecidableEq, Repr

/-- Values of `rocblas_fill_`. -/
inductive rocblas_fill_
  | rocblas_fill_upper | rocblas_fill_lower | invalid (raw : Int)
  deriving DecidableEq, Repr

/-- Values of `rocblas_side_`. -/
inductive rocblas_side_
  | rocblas_side_left | rocblas_side_right | invalid (raw : Int)
  deriving DecidableEq, Repr

/-- Values of `rocblas_evect_`. -/
inductive rocblas_evect_
  | rocblas_evect_none | rocblas_evect_original | invalid (raw : Int)
  deriving DecidableEq, Repr

/-- Values of `rocblas_eform_`. -/
inductive rocblas_eform_
  | rocblas_eform_ax | rocblas_eform_abx | rocblas_eform_bax | invalid (raw : Int)
  deriving DecidableEq, Repr

/-- Values of `rocblas_storev_`. -/
inductive rocblas_storev_
  | rocblas_column_wise | rocblas_row_wise
  deriving DecidableEq, Repr

/-- Values of `rocblas_svect_`. -/
inductive rocblas_svect_
  | rocblas_svect_all | rocblas_svect_singular | rocblas_svect_overwrite | rocblas_svect_none
  deriving DecidableEq, Repr

/-- Values of `rocblas_workmode`. -/
inductive rocblas_workmode
  | rocblas_outofplace | rocblas_inplace
  deriving DecidableEq, Repr

open hipsolverStatus_t rocblas_status_

/-! ## Helpers (lines 127-350)

A helper that ends in `throw s` returns `Except.error s`. -/

def hip2rocblas_operation : hipsolverOperation_t → Except hipsolverStatus_t rocblas_operation_
  | .HIPSOLVER_OP_N => .ok .rocblas_operation_none
  | .HIPSOLVER_OP_T => .ok .rocblas_operation_transpose
  | .HIPSOLVER_OP_C => .ok .rocblas_operation_conjugate_transpose
  | .invalid _ => .error HIPSOLVER_STATUS_INVALID_ENUM

def rocblas2hip_operation : rocblas_operation_ → Except hipsolverStatus_t hipsolverOperation_t
  | .rocblas_operation_none => .ok .HIPSOLVER_OP_N
  | .rocblas_operation_transpose => .ok .HIPSOLVER_OP_T
  | .rocblas_operation_conjugate_transpose => .ok .HIPSOLVER_OP_C
  | .invalid _ => .error HIPSOLVER_STATUS_INVALID_ENUM

def hip2rocblas_fill : hipsolverFillMode_t → Except hipsolverStatus_t rocblas_fill_
  | .HIPSOLVER_FILL_MODE_UPPER => .ok .rocblas_fill_upper
  | .HIPSOLVER_FILL_MODE_LOWER => .ok .rocblas_fill_lower
  | .invalid _ => .error HIPSOLVER_STATUS_INVALID_ENUM

def rocblas2hip_fill : rocblas_fill_ → Except hipsolverStatus_t hipsolverFillMode_t
  | .rocblas_fill_upper => .ok .HIPSOLVER_FILL_MODE_UPPER
  | .rocblas_fill_lower => .ok .HIPSOLVER_FILL_MODE_LOWER
  | .invalid _ => .error HIPSOLVER_STATUS_INVALID_ENUM

def hip2rocblas_side : hipsolverSideMode_t → Except hipsolverStatus_t rocblas_side_
  | .HIPSOLVER_SIDE_LEFT => .ok .rocblas_side_left
  | .HIPSOLVER_SIDE_RIGHT => .ok .rocblas_side_right
  | .invalid _ => .error HIPSOLVER_STATUS_INVALID_ENUM

def rocblas2hip_side : rocblas_side_ → Except hipsolverStatus_t hipsolverSideMode_t
  | .rocblas_side_left => .ok .HIPSOLVER_SIDE_LEFT
  | .rocblas_side_right => .ok .HIPSOLVER_SIDE_RIGHT
  | .invalid _ => .error HIPSOLVER_STATUS_INVALID_ENUM

def hip2rocblas_evect : hipsolverEigMode_t → Except hipsolverStatus_t rocblas_evect_
  | .HIPSOLVER_EIG_MODE_NOVECTOR => .ok .rocblas_evect_none
  | .HIPSOLVER_EIG_MODE_VECTOR => .ok .rocblas_evect_original
  | .invalid _ => .error HIPSOLVER_STATUS_INVALID_ENUM

def rocblas2hip_evect : rocblas_evect_ → Except hipsolverStatus_t hipsolverEigMode_t
  | .rocblas_evect_none => .ok .HIPSOLVER_EIG_MODE_NOVECTOR
  | .rocblas_evect_original => .ok .HIPSOLVER_EIG_MODE_VECTOR
  | .invalid _ => .error HIPSOLVER_STATUS_INVALID_ENUM

def hip2rocblas_eform : hipsolverEigType_t → Except hipsolverStatus_t rocblas_eform_
  | .HIPSOLVER_EIG_TYPE_1 => .ok .rocblas_eform_ax
  | .HIPSOLVER_EIG_TYPE_2 => .ok .rocblas_eform_abx
  | .HIPSOLVER_EIG_TYPE_3 => .ok .rocblas_eform_bax
  | .invalid _ => .error HIPSOLVER_STATUS_INVALID_ENUM

def rocblas2hip_eform : rocblas_eform_ → Except hipsolverStatus_t hipsolverEigType_t
  | .rocblas_eform_ax => .ok .HIPSOLVER_EIG_TYPE_1
  | .rocblas_eform_abx => .ok .HIPSOLVER_EIG_TYPE_2
  | .rocblas_eform_bax => .ok .HIPSOLVER_EIG_TYPE_3
  | .invalid _ => .error HIPSOLVER_STATUS_INVALID_ENUM

def hip2rocblas_side2storev : hipsolverSideMode_t → Except hipsolverStatus_t rocblas_storev_
  | .HIPSOLVER_SIDE_LEFT => .ok .rocblas_column_wise
  | .HIPSOLVER_SIDE_RIGHT => .ok .rocblas_row_wise
  | .invalid _ => .error HIPSOLVER_STATUS_INVALID_ENUM

def hip2rocblas_evect2svect (eig : hipsolverEigMode_t) (econ : Int) :
    Except hipsolverStatus_t rocblas_svect_ :=
  match eig with
  | .HIPSOLVER_EIG_MODE_NOVECTOR => .ok .rocblas_svect_none
  | .HIPSOLVER_EIG_MODE_VECTOR =>
    if econ ≠ 0 then .ok .rocblas_svect_singular else .ok .rocblas_svect_all
  | .invalid _ => .error HIPSOLVER_STATUS_INVALID_ENUM

/-- The argument is the value of the `signed char`: 78 is the letter N, 65 is A,
83 is S and 79 is O. -/
def char2rocblas_svect (svect : Int) : Except hipsolverStatus_t rocblas_svect_ :=
  if svect = 78 then .ok .rocblas_svect_none
  else if svect = 65 then .ok .rocblas_svect_all
  else if svect = 83 then .ok .rocblas_svect_singular
  else if svect = 79 then .ok .rocblas_svect_overwrite
  else .error HIPSOLVER_STATUS_INVALID_VALUE

def rocblas2hip_status : rocblas_status_ → hipsolverStatus_t
  | rocblas_status_size_unchanged => HIPSOLVER_STATUS_SUCCESS
  | rocblas_status_size_increased => HIPSOLVER_STATUS_SUCCESS
  | rocblas_status_success => HIPSOLVER_STATUS_SUCCESS
  | rocblas_status_invalid_handle => HIPSOLVER_STATUS_NOT_INITIALIZED
  | rocblas_status_not_implemented => HIPSOLVER_STATUS_NOT_SUPPORTED
  | rocblas_status_invalid_pointer => HIPSOLVER_STATUS_INVALID_VALUE
  | rocblas_status_invalid_size => HIPSOLVER_STATUS_INVALID_VALUE
  | rocblas_status_invalid_value => HIPSOLVER_STATUS_INVALID_VALUE
  | rocblas_status_memory_error => HIPSOLVER_STATUS_ALLOC_FAILED
  | rocblas_status_internal_error => HIPSOLVER_STATUS_INTERNAL_ERROR
  | .other _ => HIPSOLVER_STATUS_UNKNOWN

/-- Modelled from the spec: `exceptions.hpp` is not among the sources.  The
spec says that an enum-mapping failure is signalled as a thrown status value,
caught at each public entry point and converted to a status code; the
argument is the thrown value. -/
def exception2hip_status (thrown : hipsolverStatus_t) : hipsolverStatus_t := thrown

/-! ## The wrapped library

The routines of rocBLAS and rocSOLVER are outside this file.  A call is
described by its name and its arguments in source order (the handle, always
the first argument, is left out); what the call does is given by a `RocLib`. -/

/-- The rocSOLVER / rocBLAS computational routines that the file calls; the
leading precision letter is carried by the `Scalar` next to it. -/
inductive Routine
  | orgbr | ungbr | orgqr | ungqr | orgtr | ungtr | ormqr | unmqr | ormtr | unmtr
  | gebrd | gels | gels_outofplace | geqrf | gesv | gesv_outofplace
  | gesvd | gesvd_strided_batched | getrf | getrf_npvt | getrs
  | potrf | potrf_batched | potri | potrs | potrs_batched
  | syevd | heevd | syevd_strided_batched | heevd_strided_batched
  | sygvd | hegvd | sytrd | hetrd | sytrf
  | geam | geam_strided_batched
  deriving DecidableEq, Repr

/-- The caller's pointer parameters that are handed through unchanged. -/
inductive Param
  | A | B | C | D | S | U | V | X | tau | devIpiv | devInfo | rwork | niters
  | E | tauq | taup | ipiv
  deriving DecidableEq, Repr

/-- A device pointer as the file forms it. -/
inductive DevPtr
  /-- The null pointer. -/
  | nullptr
  /-- The caller's argument of that name, whatever its value. -/
  | param (p : Param)
  /-- The caller's `work` pointer advanced by that many bytes. -/
  | work (offset : Int)
  /-- Block `i` of the scoped allocation `mem`. -/
  | mem (i : Nat)
  deriving DecidableEq, Repr

/-- One argument of a routine call. -/
inductive Arg
  | int (v : Int)
  | operation (v : rocblas_operation_)
  | fill (v : rocblas_fill_)
  | side (v : rocblas_side_)
  | evect (v : rocblas_evect_)
  | eform (v : rocblas_eform_)
  | storev (v : rocblas_storev_)
  | svect (v : rocblas_svect_)
  | workmode (v : rocblas_workmode)
  | ptr (p : DevPtr)
  /-- The address of the local constant `one`. -/
  | one
  /-- The address of the local constant `zero`. -/
  | zero
  deriving DecidableEq, Repr

/-- A call of a computational routine: `rocsolver_<t><name>(handle, args...)`. -/
structure RoutineCall where
  name : Routine
  scalar : Scalar
  args : List Arg
  deriving DecidableEq, Repr

/-- A call into the wrapped library, as a call-counting stub would see it. -/
inductive Call
  | start_device_memory_size_query
  | stop_device_memory_size_query
  | set_optimal_device_memory_size (sizes : List Nat)
  | routine (c : RoutineCall)
  | set_workspace (addr : DevPtr) (size : Nat)
  | is_user_managing_device_memory
  | get_device_memory_size
  | set_device_memory_size (size : Nat)
  | device_malloc (sizes : List Nat)
  deriving DecidableEq, Repr

/-- A handle is a pointer; `none` is the null handle. -/
abbrev hipsolverHandle_t := Option Nat

/-- The behaviour of the wrapped library over its state `σ`.  Results that the
file ignores (the status of the size-query calls) are not part of it. -/
structure RocLib (σ : Type) where
  start_device_memory_size_query : hipsolverHandle_t → σ → σ
  /-- Returns the value stored in `sz`. -/
  stop_device_memory_size_query : hipsolverHandle_t → σ → Nat × σ
  set_optimal_device_memory_size : hipsolverHandle_t → List Nat → σ → σ
  routine : hipsolverHandle_t → RoutineCall → σ → rocblas_status_ × σ
  set_workspace : hipsolverHandle_t → DevPtr → Nat → σ → rocblas_status_ × σ
  is_user_managing_device_memory : hipsolverHandle_t → σ → Bool
  /-- Returns the value of `current_size` after the call (it starts at 0). -/
  get_device_memory_size : hipsolverHandle_t → σ → Nat
  set_device_memory_size : hipsolverHandle_t → Nat → σ → rocblas_status_ × σ
  /-- The scoped allocation; `true` when the allocation succeeded. -/
  device_malloc : hipsolverHandle_t → List Nat → σ → Bool × σ

/-- The library state together with the log of the calls made so far. -/
structure World (σ : Type) where
  st : σ
  log : List Call

variable {σ : Type}

/-- Append a call to the log and move to the state it produced. -/
def World.record (w : World σ) (c : Call) (s : σ) : World σ := ⟨s, w.log ++ [c]⟩

def rocblas_start_device_memory_size_query (lib : RocLib σ) (h : hipsolverHandle_t)
    (w : World σ) : World σ :=
  w.record .start_device_memory_size_query (lib.start_device_memory_size_query h w.st)

def rocblas_stop_device_memory_size_query (lib : RocLib σ) (h : hipsolverHandle_t)
    (w : World σ) : Nat × World σ :=
  ((lib.stop_device_memory_size_query h w.st).1,
   w.record .stop_device_memory_size_query (lib.stop_device_memory_size_query h w.st).2)

def rocblas_set_optimal_device_memory_size (lib : RocLib σ) (h : hipsolverHandle_t)
    (sizes : List Nat) (w : World σ) : World σ :=
  w.record (.set_optimal_device_memory_size sizes)
    (lib.set_optimal_device_memory_size h sizes w.st)

/-- A call of a computational routine. -/
def rocsolver (lib : RocLib σ) (h : hipsolverHandle_t) (c : RoutineCall)
    (w : World σ) : rocblas_status_ × World σ :=
  ((lib.routine h c w.st).1, w.record (.routine c) (lib.routine h c w.st).2)

def rocblas_set_workspace (lib : RocLib σ) (h : hipsolverHandle_t) (addr : DevPtr)
    (size : Nat) (w : World σ) : rocblas_status_ × World σ :=
  ((lib.set_workspace h addr size w.st).1,
   w.record (.set_workspace addr size) (lib.set_workspace h addr size w.st).2)

def rocblas_is_user_managing_device_memory (lib : RocLib σ) (h : hipsolverHandle_t)
    (w : World σ) : Bool × World σ :=
  (lib.is_user_managing_device_memory h w.st,
   w.record .is_user_managing_device_memory w.st)

def rocblas_get_device_memory_size (lib : RocLib σ) (h : hipsolverHandle_t)
    (w : World σ) : Nat × World σ :=
  (lib.get_device_memory_size h w.st, w.record .get_device_memory_size w.st)

def rocblas_set_device_memory_size (lib : RocLib σ) (h : hipsolverHandle_t)
    (size : Nat) (w : World σ) : rocblas_status_ × World σ :=
  ((lib.set_device_memory_size h size w.st).1,
   w.record (.set_device_memory_size size) (lib.set_device_memory_size h size w.st).2)

def rocblas_device_malloc (lib : RocLib σ) (h : hipsolverHandle_t)
    (sizes : List Nat) (w : World σ) : Bool × World σ :=
  ((lib.device_malloc h sizes w.st).1,
   w.record (.device_malloc sizes) (lib.device_malloc h sizes w.st).2)

/-- The helper `hipsolverManageWorkspace` (lines 337-350). -/
def hipsolverManageWorkspace (lib : RocLib σ) (handle : hipsolverHandle_t)
    (new_size : Nat) (w : World σ) : rocblas_status_ × World σ :=
  if new_size < 0 then (rocblas_status_memory_error, w)
  else
    let q := rocblas_is_user_managing_device_memory lib handle w
    let g := if q.1 then rocblas_get_device_memory_size lib handle q.2 else (0, q.2)
    if new_size > g.1 then rocblas_set_device_memory_size lib handle new_size g.2
    else (rocblas_status_success, g.2)

/-! ## The public arguments -/

/-- The arguments of the public entry points, one field per parameter name of
the source; an entry point reads the fields its signature has.  For a pointer
parameter only what the file tests is kept: `true` means non-null. -/
structure Args where
  side : hipsolverSideMode_t
  uplo : hipsolverFillMode_t
  trans : hipsolverOperation_t
  itype : hipsolverEigType_t
  jobz : hipsolverEigMode_t
  jobu : Int
  jobv : Int
  econ : Int
  m : Int
  n : Int
  k : Int
  nrhs : Int
  lda : Int
  ldb : Int
  ldc : Int
  ldu : Int
  ldv : Int
  ldx : Int
  batch_count : Int
  /-- The pointer `V` is non-null. -/
  V : Bool
  /-- The pointer `rwork` is non-null. -/
  rwork : Bool
  /-- The pointer `work` is non-null. -/
  work : Bool
  /-- The `int lwork` of the execute entry points. -/
  lwork : Int
  /-- The pointers `B` and `X` are equal. -/
  B_eq_X : Bool
  /-- The pointer `devIpiv` is non-null. -/
  devIpiv : Bool
  deriving DecidableEq, Repr

/-- The 26 routine families; with a `Scalar` each names one `_bufferSize`
entry point and one execute entry point (for `C` and `Z` the `or`/`sy` families
are spelled `un`/`he`, and gels and gesv double the precision letter). -/
inductive Family
  | orgbr | orgqr | orgtr | ormqr | ormtr | gebrd | gels | geqrf | gesv
  | gesvd | gesvdj | gesvdjBatched | getrf | getrs
  | potrf | potrfBatched | potri | potrs | potrsBatched
  | syevd | syevj | syevjBatched | sygvd | sygvj | sytrd | sytrf
  deriving DecidableEq, Repr

/-- Choice of the routine name by scalar type: the first for `S` and `D`, the
second for `C` and `Z`. -/
def byScalar (T : Scalar) (r c : Routine) : Routine :=
  match T with
  | .S => r
  | .D => r
  | .C => c
  | .Z => c

/-! ## Sizes of the auxiliary arrays in the `_bufferSize` entry points -/

/-- Line 3415 and its three copies:
`size_E = min(m, n) > 0 ? sizeof(real) * min(m, n) : 0`. -/
def gesvd_size_E (T : Scalar) (m n : Int) : Nat :=
  if cmin m n > 0 then smul (sizeofReal T) (toSizeT (cmin m n)) else 0

/-- Line 3899 and its copies (gesvdj). -/
def gesvdj_size_E (T : Scalar) (m n : Int) : Nat :=
  if cmin m n > 0 then smul (sizeofReal T) (toSizeT (cmin m n)) else 0

/-- Line 3902: `use_V_copy = min(m, n) > 0 && jobz != HIPSOLVER_EIG_MODE_NOVECTOR`. -/
def use_V_copy (jobz : hipsolverEigMode_t) (m n : Int) : Bool :=
  decide (cmin m n > 0) && decide (jobz ≠ .HIPSOLVER_EIG_MODE_NOVECTOR)

/-- Line 3903 and its copies:
`size_V_copy = use_V_copy ? sizeof(T) * (econ ? min(m, n) : n) * n : 0`. -/
def gesvdj_size_V_copy (T : Scalar) (jobz : hipsolverEigMode_t) (econ m n : Int) : Nat :=
  if use_V_copy jobz m n then
    smul (smul (sizeofT T) (toSizeT (if econ ≠ 0 then cmin m n else n))) (toSizeT n)
  else 0

/-- Line 4600 and its copies:
`size_E = min(m, n) > 0 ? sizeof(real) * min(m, n) * batch_count : 0`. -/
def gesvdjBatched_size_E (T : Scalar) (m n batch_count : Int) : Nat :=
  if cmin m n > 0 then
    smul (smul (sizeofReal T) (toSizeT (cmin m n))) (toSizeT batch_count)
  else 0

/-- Line 4604 and its copies:
`size_V_copy = use_V_copy ? sizeof(T) * n * n * batch_count : 0`. -/
def gesvdjBatched_size_V_copy (T : Scalar) (jobz : hipsolverEigMode_t)
    (m n batch_count : Int) : Nat :=
  if use_V_copy jobz m n then
    smul (smul (smul (sizeofT T) (toSizeT n)) (toSizeT n)) (toSizeT batch_count)
  else 0

/-- The line `size_E = n > 0 ? sizeof(real) * n : 0` of syevd/heevd,
syevj/heevj, sygvd/hegvd and sygvj/hegvj. -/
def syevd_size_E (T : Scalar) (n : Int) : Nat :=
  if n > 0 then smul (sizeofReal T) (toSizeT n) else 0

/-- Line 8134 and its copies:
`size_E = n * batch_count > 0 ? sizeof(real) * n * batch_count : 0`; the
condition is an `int` product, the size a `size_t` product. -/
def syevjBatched_size_E (T : Scalar) (n batch_count : Int) : Nat :=
  if imul n batch_count > 0 then
    smul (smul (sizeofReal T) (toSizeT n)) (toSizeT batch_count)
  else 0

/-- The sizes that a `_bufferSize` entry point passes to
`rocblas_set_optimal_device_memory_size` after the dry-run size `sz`; `none`
for the families that have no second size-query bracket. -/
def auxSizes (fam : Family) (T : Scalar) (a : Args) : Option (List Nat) :=
  match fam with
  | .gesvd => some [gesvd_size_E T a.m a.n]
  | .gesvdj => some [gesvdj_size_E T a.m a.n, gesvdj_size_V_copy T a.jobz a.econ a.m a.n]
  | .gesvdjBatched =>
    some [gesvdjBatched_size_E T a.m a.n a.batch_count,
          gesvdjBatched_size_V_copy T a.jobz a.m a.n a.batch_count]
  | .syevd => some [syevd_size_E T a.n]
  | .syevj => some [syevd_size_E T a.n]
  | .syevjBatched => some [syevjBatched_size_E T a.n a.batch_count]
  | .sygvd => some [syevd_size_E T a.n]
  | .sygvj => some [syevd_size_E T a.n]
  | _ => none

/-! ## The `_bufferSize` entry points -/

/-- The dry-run calls between the first `rocblas_start_device_memory_size_query`
and `rocblas_stop_device_memory_size_query` of a `_bufferSize` entry point: the
call whose status is kept and, for gels, gesv and getrf, a second call whose
status is dropped.  The translation of the enum arguments of the first call can
throw; the second call has no argument that is translated. -/
def dryRunCalls (fam : Family) (T : Scalar) (a : Args) :
    Except hipsolverStatus_t (RoutineCall × Option RoutineCall) :=
  let null := Arg.ptr .nullptr
  match fam with
  | .orgbr => do
    let sv ← hip2rocblas_side2storev a.side
    pure (⟨byScalar T .orgbr .ungbr, T,
      [.storev sv, .int a.m, .int a.n, .int a.k, null, .int a.lda, null]⟩, none)
  | .orgqr =>
    pure (⟨byScalar T .orgqr .ungqr, T,
      [.int a.m, .int a.n, .int a.k, null, .int a.lda, null]⟩, none)
  | .orgtr => do
    let f ← hip2rocblas_fill a.uplo
    pure (⟨byScalar T .orgtr .ungtr, T, [.fill f, .int a.n, null, .int a.lda, null]⟩, none)
  | .ormqr => do
    let sd ← hip2rocblas_side a.side
    let op ← hip2rocblas_operation a.trans
    pure (⟨byScalar T .ormqr .unmqr, T,
      [.side sd, .operation op, .int a.m, .int a.n, .int a.k, null, .int a.lda, null, null,
       .int a.ldc]⟩, none)
  | .ormtr => do
    let sd ← hip2rocblas_side a.side
    let f ← hip2rocblas_fill a.uplo
    let op ← hip2rocblas_operation a.trans
    pure (⟨byScalar T .ormtr .unmtr, T,
      [.side sd, .fill f, .operation op, .int a.m, .int a.n, null, .int a.lda, null, null,
       .int a.ldc]⟩, none)
  | .gebrd =>
    pure (⟨.gebrd, T, [.int a.m, .int a.n, null, .int a.m, null, null, null, null]⟩, none)
  | .gels =>
    pure (⟨.gels_outofplace, T,
      [.operation .rocblas_operation_none, .int a.m, .int a.n, .int a.nrhs, null, .int a.lda,
       null, .int a.ldb, null, .int a.ldx, null]⟩,
      some ⟨.gels, T,
      [.operation .rocblas_operation_none, .int a.m, .int a.n, .int a.nrhs, null, .int a.lda,
       null, .int a.ldb, null]⟩)
  | .geqrf =>
    pure (⟨.geqrf, T, [.int a.m, .int a.n, null, .int a.lda, null]⟩, none)
  | .gesv =>
    pure (⟨.gesv_outofplace, T,
      [.int a.n, .int a.nrhs, null, .int a.lda, null, null, .int a.ldb, null, .int a.ldx,
       null]⟩,
      some ⟨.gesv, T,
      [.int a.n, .int a.nrhs, null, .int a.lda, null, null, .int a.ldb, null]⟩)
  | .gesvd => do
    let ju ← char2rocblas_svect a.jobu
    let jv ← char2rocblas_svect a.jobv
    pure (⟨.gesvd, T,
      [.svect ju, .svect jv, .int a.m, .int a.n, null, .int a.m, null, null,
       .int (cmax a.m 1), null, .int (cmax a.n 1), null, .workmode .rocblas_outofplace,
       null]⟩, none)
  | .gesvdj => do
    let sv ← hip2rocblas_evect2svect a.jobz a.econ
    pure (⟨.gesvd, T,
      [.svect sv, .svect sv, .int a.m, .int a.n, null, .int a.lda, null, null, .int a.ldu,
       null, .int a.ldv, null, .workmode .rocblas_outofplace, null]⟩, none)
  | .gesvdjBatched => do
    let sv ← hip2rocblas_evect2svect a.jobz 0
    pure (⟨.gesvd_strided_batched, T,
      [.svect sv, .svect sv, .int a.m, .int a.n, null, .int a.lda, .int (imul a.lda a.n),
       null, .int (cmin a.m a.n), null, .int a.ldu, .int (imul a.ldu a.m), null, .int a.ldv,
       .int (imul a.ldv a.n), null, .int (cmin a.m a.n), .workmode .rocblas_outofplace, null,
       .int a.batch_count]⟩, none)
  | .getrf =>
    pure (⟨.getrf, T, [.int a.m, .int a.n, null, .int a.lda, null, null]⟩,
      some ⟨.getrf_npvt, T, [.int a.m, .int a.n, null, .int a.lda, null]⟩)
  | .getrs => do
    let op ← hip2rocblas_operation a.trans
    pure (⟨.getrs, T,
      [.operation op, .int a.n, .int a.nrhs, null, .int a.lda, null, null, .int a.ldb]⟩, none)
  | .potrf => do
    let f ← hip2rocblas_fill a.uplo
    pure (⟨.potrf, T, [.fill f, .int a.n, null, .int a.lda, null]⟩, none)
  | .potrfBatched => do
    let f ← hip2rocblas_fill a.uplo
    pure (⟨.potrf_batched, T,
      [.fill f, .int a.n, null, .int a.lda, null, .int a.batch_count]⟩, none)
  | .potri => do
    let f ← hip2rocblas_fill a.uplo
    pure (⟨.potri, T, [.fill f, .int a.n, null, .int a.lda, null]⟩, none)
  | .potrs => do
    let f ← hip2rocblas_fill a.uplo
    pure (⟨.potrs, T,
      [.fill f, .int a.n, .int a.nrhs, null, .int a.lda, null, .int a.ldb]⟩, none)
  | .potrsBatched => do
    let f ← hip2rocblas_fill a.uplo
    pure (⟨.potrs_batched, T,
      [.fill f, .int a.n, .int a.nrhs, null, .int a.lda, null, .int a.ldb,
       .int a.batch_count]⟩, none)
  | .syevd => do
    let ev ← hip2rocblas_evect a.jobz
    let f ← hip2rocblas_fill a.uplo
    pure (⟨byScalar T .syevd .heevd, T,
      [.evect ev, .fill f, .int a.n, null, .int a.lda, null, null, null]⟩, none)
  | .syevj => do
    let ev ← hip2rocblas_evect a.jobz
    let f ← hip2rocblas_fill a.uplo
    pure (⟨byScalar T .syevd .heevd, T,
      [.evect ev, .fill f, .int a.n, null, .int a.lda, null, null, null]⟩, none)
  | .syevjBatched => do
    let ev ← hip2rocblas_evect a.jobz
    let f ← hip2rocblas_fill a.uplo
    pure (⟨byScalar T .syevd_strided_batched .heevd_strided_batched, T,
      [.evect ev, .fill f, .int a.n, null, .int a.lda, .int (imul a.lda a.n), null,
       .int a.n, null, .int a.n, null, .int a.batch_count]⟩, none)
  | .sygvd => do
    let ef ← hip2rocblas_eform a.itype
    let ev ← hip2rocblas_evect a.jobz
    let f ← hip2rocblas_fill a.uplo
    pure (⟨byScalar T .sygvd .hegvd, T,
      [.eform ef, .evect ev, .fill f, .int a.n, null, .int a.lda, null, .int a.ldb, null,
       null, null]⟩, none)
  | .sygvj => do
    let ef ← hip2rocblas_eform a.itype
    let ev ← hip2rocblas_evect a.jobz
    let f ← hip2rocblas_fill a.uplo
    pure (⟨byScalar T .sygvd .hegvd, T,
      [.eform ef, .evect ev, .fill f, .int a.n, null, .int a.lda, null, .int a.ldb, null,
       null, null]⟩, none)
  | .sytrd => do
    let f ← hip2rocblas_fill a.uplo
    pure (⟨byScalar T .sytrd .hetrd, T,
      [.fill f, .int a.n, null, .int a.lda, null, null, null]⟩, none)
  | .sytrf =>
    pure (⟨.sytrf, T, [.fill .rocblas_fill_upper, .int a.n, null, .int a.lda, null, null]⟩,
      none)

/-- What a `_bufferSize` call leaves behind: the returned status, the last
value stored through `lwork` (`none` when nothing was stored) and the world. -/
structure SizeResult (σ : Type) where
  status : hipsolverStatus_t
  lwork : Option Nat
  world : World σ

/-- The body of a `_bufferSize` entry point from the first
`rocblas_start_device_memory_size_query` to the last
`rocblas_stop_device_memory_size_query`: the dry run and, for the families
with auxiliary arrays, the second bracket that adds their sizes.  The result
is the local `status`, the final value of the local `sz` and the world; when a
translation throws, the thrown status and the world at the throw. -/
def sizeQuery (lib : RocLib σ) (fam : Family) (T : Scalar) (handle : hipsolverHandle_t)
    (a : Args) (w : World σ) :
    Except (hipsolverStatus_t × World σ) (hipsolverStatus_t × Nat × World σ) :=
  let w1 := rocblas_start_device_memory_size_query lib handle w
  match dryRunCalls fam T a with
  | .error e => .error (e, w1)
  | .ok (c1, c2) =>
    let r1 := rocsolver lib handle c1 w1
    let status := rocblas2hip_status r1.1
    let w2 := match c2 with
      | none => r1.2
      | some c => (rocsolver lib handle c r1.2).2
    let s1 := rocblas_stop_device_memory_size_query lib handle w2
    match auxSizes fam T a with
    | none => .ok (status, s1.1, s1.2)
    | some sizes =>
      let w3 := rocblas_start_device_memory_size_query lib handle s1.2
      let w4 := rocblas_set_optimal_device_memory_size lib handle (s1.1 :: sizes) w3
      let s2 := rocblas_stop_device_memory_size_query lib handle w4
      .ok (status, s2.1, s2.2)

/-- The 104 entry points `hipsolver<T><family>_bufferSize`; `lwork` tells
whether the output pointer is non-null.  gels stores `sz` without looking at
the status, gesv stores it after the status check, every other family has an
`int* lwork` and checks `sz > INT_MAX` first. -/
def bufferSize (lib : RocLib σ) (fam : Family) (T : Scalar) (handle : hipsolverHandle_t)
    (lwork : Bool) (a : Args) (w : World σ) : SizeResult σ :=
  if handle = none then ⟨HIPSOLVER_STATUS_NOT_INITIALIZED, none, w⟩
  else if lwork = false then ⟨HIPSOLVER_STATUS_INVALID_VALUE, none, w⟩
  else if fam = .gesvdj ∧ a.ldv < a.n then ⟨HIPSOLVER_STATUS_INVALID_VALUE, none, w⟩
  else
    match sizeQuery lib fam T handle a w with
    | .error (e, w1) => ⟨exception2hip_status e, some 0, w1⟩
    | .ok (status, sz, w1) =>
      match fam with
      | .gels => ⟨status, some sz, w1⟩
      | .gesv =>
        if status ≠ HIPSOLVER_STATUS_SUCCESS then ⟨status, some 0, w1⟩
        else ⟨status, some sz, w1⟩
      | _ =>
        if status ≠ HIPSOLVER_STATUS_SUCCESS then ⟨status, some 0, w1⟩
        else if (sz : Int) > INT_MAX then ⟨HIPSOLVER_STATUS_INTERNAL_ERROR, some 0, w1⟩
        else ⟨status, some sz, w1⟩

/-! ## The execute entry points of the families with auxiliary arrays -/

/-- Modelled from the spec: the macro `CHECK_ROCBLAS_ERROR` of
`error_macros.hpp` is not among the sources.  The spec says that every call
into the underlying library is check-and-propagate, the first non-success
status ending the call; `some s` means that the entry point returns `s`. -/
def CHECK_ROCBLAS_ERROR (status : rocblas_status_) : Option hipsolverStatus_t :=
  if status ≠ rocblas_status_success then some (rocblas2hip_status status) else none

/-- Modelled from the spec: the macro `CHECK_HIPSOLVER_ERROR` of
`error_macros.hpp` is not among the sources; the same policy for a status of
this layer. -/
def CHECK_HIPSOLVER_ERROR (status : hipsolverStatus_t) : Option hipsolverStatus_t :=
  if status ≠ HIPSOLVER_STATUS_SUCCESS then some status else none

/-- The statement `return rocblas2hip_status(rocsolver_...(handle, args...))`;
the translation of an argument can throw before the call is made. -/
def returnRoutine (lib : RocLib σ) (handle : hipsolverHandle_t)
    (call : Except hipsolverStatus_t RoutineCall) (w : World σ) :
    hipsolverStatus_t × World σ :=
  match call with
  | .error e => (exception2hip_status e, w)
  | .ok c => (rocblas2hip_status (rocsolver lib handle c w).1, (rocsolver lib handle c w).2)

/-- The value of the local `int lwork` after `_bufferSize` was called with
`&lwork`. -/
def lworkAfter (a : Args) (r : SizeResult σ) : Int :=
  match r.lwork with
  | some v => (v : Int)
  | none => a.lwork

/-- The else-branch shared by the execute entry points with one auxiliary
array `E`: `_bufferSize`, `hipsolverManageWorkspace` with `manage` bytes, the
scoped allocation of `alloc` bytes, then the continuation with `E = mem[0]`. -/
def managedPath (lib : RocLib σ) (fam : Family) (T : Scalar) (handle : hipsolverHandle_t)
    (a : Args) (manage : Int → Nat) (alloc : Nat)
    (k : DevPtr → World σ → hipsolverStatus_t × World σ) (w : World σ) :
    hipsolverStatus_t × World σ :=
  let b := bufferSize lib fam T handle true a w
  match CHECK_HIPSOLVER_ERROR b.status with
  | some s => (s, b.world)
  | none =>
    let g := hipsolverManageWorkspace lib handle (manage (lworkAfter a b)) b.world
    match CHECK_ROCBLAS_ERROR g.1 with
    | some s => (s, g.2)
    | none =>
      let mem := rocblas_device_malloc lib handle [alloc] g.2
      if mem.1 = false then (HIPSOLVER_STATUS_ALLOC_FAILED, mem.2)
      else k (.mem 0) mem.2

/-- The then-branch of the same entry points: `E = work`, `work` advanced by
`carved` bytes, `rocblas_set_workspace(handle, work, lwork)`, then the
continuation with `E`. -/
def callerPath (lib : RocLib σ) (handle : hipsolverHandle_t) (a : Args) (carved : Int)
    (k : DevPtr → World σ → hipsolverStatus_t × World σ) (w : World σ) :
    hipsolverStatus_t × World σ :=
  let r := rocblas_set_workspace lib handle (.work carved) (toSizeT a.lwork) w
  match CHECK_ROCBLAS_ERROR r.1 with
  | some s => (s, r.2)
  | none => k (.work 0) r.2

/-- The computational call of syevd/heevd and syevj/heevj. -/
def syevd_call (T : Scalar) (a : Args) (E : DevPtr) : Except hipsolverStatus_t RoutineCall := do
  let ev ← hip2rocblas_evect a.jobz
  let f ← hip2rocblas_fill a.uplo
  pure ⟨byScalar T .syevd .heevd, T,
    [.evect ev, .fill f, .int a.n, .ptr (.param .A), .int a.lda, .ptr (.param .D), .ptr E,
     .ptr (.param .devInfo)]⟩

/-- The computational call of syevjBatched/heevjBatched. -/
def syevjBatched_call (T : Scalar) (a : Args) (E : DevPtr) :
    Except hipsolverStatus_t RoutineCall := do
  let ev ← hip2rocblas_evect a.jobz
  let f ← hip2rocblas_fill a.uplo
  pure ⟨byScalar T .syevd_strided_batched .heevd_strided_batched, T,
    [.evect ev, .fill f, .int a.n, .ptr (.param .A), .int a.lda, .int (imul a.lda a.n),
     .ptr (.param .D), .int a.n, .ptr E, .int a.n, .ptr (.param .devInfo),
     .int a.batch_count]⟩

/-- The computational call of sygvd/hegvd and sygvj/hegvj. -/
def sygvd_call (T : Scalar) (a : Args) (E : DevPtr) : Except hipsolverStatus_t RoutineCall := do
  let ef ← hip2rocblas_eform a.itype
  let ev ← hip2rocblas_evect a.jobz
  let f ← hip2rocblas_fill a.uplo
  pure ⟨byScalar T .sygvd .hegvd, T,
    [.eform ef, .evect ev, .fill f, .int a.n, .ptr (.param .A), .int a.lda, .ptr (.param .B),
     .int a.ldb, .ptr (.param .D), .ptr E, .ptr (.param .devInfo)]⟩

/-- Bytes by which `work = E + n` under `if(n > 0)` advances the caller's
pointer (`E` points to the real type). -/
def syevd_carved (T : Scalar) (n : Int) : Int :=
  if n > 0 then (sizeofReal T : Int) * n else 0

/-- Bytes by which `work = E + n * batch_count` under `if(n * batch_count > 0)`
advances the caller's pointer; the product is an `int` product. -/
def syevjBatched_carved (T : Scalar) (n batch_count : Int) : Int :=
  if imul n batch_count > 0 then (sizeofReal T : Int) * imul n batch_count else 0

/-- The entry points hipsolverSsyevd, hipsolverDsyevd, hipsolverCheevd and
hipsolverZheevd (lines 7482-7680). -/
def hipsolverXsyevd (lib : RocLib σ) (T : Scalar) (handle : hipsolverHandle_t) (a : Args)
    (w : World σ) : hipsolverStatus_t × World σ :=
  if a.work = true ∧ a.lwork ≠ 0 then
    callerPath lib handle a (syevd_carved T a.n)
      (fun E w1 => returnRoutine lib handle (syevd_call T a E) w1) w
  else
    managedPath lib .syevd T handle a (fun lwork => toSizeT lwork)
      (smul (sizeofReal T) (toSizeT a.n))
      (fun E w1 => returnRoutine lib handle (syevd_call T a E) w1) w

/-- The entry points hipsolverDnSsyevj, hipsolverDnDsyevj, hipsolverDnCheevj and
hipsolverDnZheevj (lines 7891-8093). -/
def hipsolverDnXsyevj (lib : RocLib σ) (T : Scalar) (handle : hipsolverHandle_t) (a : Args)
    (w : World σ) : hipsolverStatus_t × World σ :=
  if a.work = true ∧ a.lwork ≠ 0 then
    callerPath lib handle a (syevd_carved T a.n)
      (fun E w1 => returnRoutine lib handle (syevd_call T a E) w1) w
  else
    managedPath lib .syevj T handle a (fun lwork => toSizeT lwork)
      (smul (sizeofReal T) (toSizeT a.n))
      (fun E w1 => returnRoutine lib handle (syevd_call T a E) w1) w

/-- The entry points hipsolverDnSsyevjBatched, hipsolverDnDsyevjBatched,
hipsolverDnCheevjBatched and hipsolverDnZheevjBatched (lines 8328-8550). -/
def hipsolverDnXsyevjBatched (lib : RocLib σ) (T : Scalar) (handle : hipsolverHandle_t)
    (a : Args) (w : World σ) : hipsolverStatus_t × World σ :=
  if a.work = true ∧ a.lwork ≠ 0 then
    callerPath lib handle a (syevjBatched_carved T a.n a.batch_count)
      (fun E w1 => returnRoutine lib handle (syevjBatched_call T a E) w1) w
  else
    managedPath lib .syevjBatched T handle a (fun lwork => toSizeT lwork)
      (smul (smul (sizeofReal T) (toSizeT a.n)) (toSizeT a.batch_count))
      (fun E w1 => returnRoutine lib handle (syevjBatched_call T a E) w1) w

/-- The entry points hipsolverSsygvd, hipsolverDsygvd, hipsolverChegvd and
hipsolverZhegvd (lines 8781-9003). -/
def hipsolverXsygvd (lib : RocLib σ) (T : Scalar) (handle : hipsolverHandle_t) (a : Args)
    (w : World σ) : hipsolverStatus_t × World σ :=
  if a.work = true ∧ a.lwork ≠ 0 then
    callerPath lib handle a (syevd_carved T a.n)
      (fun E w1 => returnRoutine lib handle (sygvd_call T a E) w1) w
  else
    managedPath lib .sygvd T handle a (fun lwork => toSizeT lwork)
      (smul (sizeofReal T) (toSizeT a.n))
      (fun E w1 => returnRoutine lib handle (sygvd_call T a E) w1) w

/-- The entry points hipsolverDnSsygvj, hipsolverDnDsygvj, hipsolverDnChegvj and
hipsolverDnZhegvj (lines 9238-9468); the reservation request is
`lwork + sizeof(real) * n`. -/
def hipsolverDnXsygvj (lib : RocLib σ) (T : Scalar) (handle : hipsolverHandle_t) (a : Args)
    (w : World σ) : hipsolverStatus_t × World σ :=
  if a.work = true ∧ a.lwork ≠ 0 then
    callerPath lib handle a (syevd_carved T a.n)
      (fun E w1 => returnRoutine lib handle (sygvd_call T a E) w1) w
  else
    managedPath lib .sygvj T handle a
      (fun lwork => sadd (toSizeT lwork) (smul (sizeofReal T) (toSizeT a.n)))
      (smul (sizeofReal T) (toSizeT a.n))
      (fun E w1 => returnRoutine lib handle (sygvd_call T a E) w1) w

/-- Bytes by which `work = rwork + min(m, n)` under
`if(!rwork && min(m, n) > 1)` advances the caller's pointer in gesvd. -/
def gesvd_carved (T : Scalar) (a : Args) : Int :=
  if a.rwork = false ∧ cmin a.m a.n > 1 then (sizeofReal T : Int) * cmin a.m a.n else 0

/-- The computational call of gesvd. -/
def gesvd_call (T : Scalar) (a : Args) (rwork : DevPtr) :
    Except hipsolverStatus_t RoutineCall := do
  let ju ← char2rocblas_svect a.jobu
  let jv ← char2rocblas_svect a.jobv
  pure ⟨.gesvd, T,
    [.svect ju, .svect jv, .int a.m, .int a.n, .ptr (.param .A), .int a.lda, .ptr (.param .S),
     .ptr (.param .U), .int a.ldu, .ptr (.param .V), .int a.ldv, .ptr rwork,
     .workmode .rocblas_outofplace, .ptr (.param .devInfo)]⟩

/-- The entry points hipsolverSgesvd, hipsolverDgesvd, hipsolverCgesvd and
hipsolverZgesvd (lines 3588-3850). -/
def hipsolverXgesvd (lib : RocLib σ) (T : Scalar) (handle : hipsolverHandle_t) (a : Args)
    (w : World σ) : hipsolverStatus_t × World σ :=
  if a.work = true ∧ a.lwork ≠ 0 then
    let rwork := if a.rwork = false ∧ cmin a.m a.n > 1 then DevPtr.work 0 else .param .rwork
    let r := rocblas_set_workspace lib handle (.work (gesvd_carved T a)) (toSizeT a.lwork) w
    match CHECK_ROCBLAS_ERROR r.1 with
    | some s => (s, r.2)
    | none => returnRoutine lib handle (gesvd_call T a rwork) r.2
  else
    let b := bufferSize lib .gesvd T handle true a w
    match CHECK_HIPSOLVER_ERROR b.status with
    | some s => (s, b.world)
    | none =>
      let g := hipsolverManageWorkspace lib handle (toSizeT (lworkAfter a b)) b.world
      match CHECK_ROCBLAS_ERROR g.1 with
      | some s => (s, g.2)
      | none =>
        if a.rwork = false ∧ cmin a.m a.n > 1 then
          let mem := rocblas_device_malloc lib handle
            [smul (sizeofReal T) (toSizeT (cmin a.m a.n))] g.2
          if mem.1 = false then (HIPSOLVER_STATUS_ALLOC_FAILED, mem.2)
          else returnRoutine lib handle (gesvd_call T a (.mem 0)) mem.2
        else returnRoutine lib handle (gesvd_call T a (.param .rwork)) g.2

/-- The local `ldv_copy` of gesvdj: 1, or `econ ? min(m, n) : n` when `V_copy`
is used. -/
def gesvdj_ldv_copy (a : Args) : Int :=
  if use_V_copy a.jobz a.m a.n then (if a.econ ≠ 0 then cmin a.m a.n else a.n) else 1

/-- The local `size_V_copy` of gesvdj: 0, or `sizeof(T) * ldv_copy * n`. -/
def gesvdj_exec_size_V_copy (T : Scalar) (a : Args) : Nat :=
  if use_V_copy a.jobz a.m a.n then
    smul (smul (sizeofT T) (toSizeT (gesvdj_ldv_copy a))) (toSizeT a.n)
  else 0

/-- Byte offset of `V_copy` in the caller's buffer: `E + min(m, n)` under
`if(min(m, n) > 0)`. -/
def gesvdj_V_copy_offset (T : Scalar) (a : Args) : Int :=
  if cmin a.m a.n > 0 then (sizeofReal T : Int) * cmin a.m a.n else 0

/-- Byte offset of the final `work`: `V_copy + ldv_copy * n` when `V_copy` is
used; the element count is an `int` product. -/
def gesvdj_work_offset (T : Scalar) (a : Args) : Int :=
  if use_V_copy a.jobz a.m a.n then
    gesvdj_V_copy_offset T a + (sizeofT T : Int) * imul (gesvdj_ldv_copy a) a.n
  else gesvdj_V_copy_offset T a

/-- The transpose passed to geam: plain for `S` and `D`, conjugate for `C`
and `Z`. -/
def geam_trans (T : Scalar) : rocblas_operation_ :=
  match T with
  | .S => .rocblas_operation_transpose
  | .D => .rocblas_operation_transpose
  | .C => .rocblas_operation_conjugate_transpose
  | .Z => .rocblas_operation_conjugate_transpose

/-- The computational call of gesvdj. -/
def gesvdj_call (T : Scalar) (a : Args) (E V_copy : DevPtr) :
    Except hipsolverStatus_t RoutineCall := do
  let sv ← hip2rocblas_evect2svect a.jobz a.econ
  pure ⟨.gesvd, T,
    [.svect sv, .svect sv, .int a.m, .int a.n, .ptr (.param .A), .int a.lda, .ptr (.param .S),
     .ptr (.param .U), .int a.ldu, .ptr V_copy, .int (gesvdj_ldv_copy a), .ptr E,
     .workmode .rocblas_outofplace, .ptr (.param .devInfo)]⟩

/-- The geam call that transposes `V_copy` into `V` in gesvdj. -/
def gesvdj_geam (T : Scalar) (a : Args) (V_copy : DevPtr) : RoutineCall :=
  ⟨.geam, T,
    [.operation (geam_trans T), .operation .rocblas_operation_none, .int a.n,
     .int (gesvdj_ldv_copy a), .one, .ptr V_copy, .int (gesvdj_ldv_copy a), .zero,
     .ptr V_copy, .int (gesvdj_ldv_copy a), .ptr (.param .V), .int a.ldv]⟩

/-- The part of gesvdj after the workspace is prepared: the computation and
the transpose of `V`. -/
def gesvdj_compute (lib : RocLib σ) (T : Scalar) (handle : hipsolverHandle_t) (a : Args)
    (E V_copy : DevPtr) (w : World σ) : hipsolverStatus_t × World σ :=
  match gesvdj_call T a E V_copy with
  | .error e => (exception2hip_status e, w)
  | .ok c =>
    let r := rocsolver lib handle c w
    match CHECK_ROCBLAS_ERROR r.1 with
    | some s => (s, r.2)
    | none =>
      if a.jobz ≠ .HIPSOLVER_EIG_MODE_NOVECTOR then
        let t := rocsolver lib handle (gesvdj_geam T a V_copy) r.2
        (rocblas2hip_status t.1, t.2)
      else (HIPSOLVER_STATUS_SUCCESS, r.2)

/-- The entry points hipsolverDnSgesvdj, hipsolverDnDgesvdj, hipsolverDnCgesvdj
and hipsolverDnZgesvdj (lines 4135-4547). -/
def hipsolverDnXgesvdj (lib : RocLib σ) (T : Scalar) (handle : hipsolverHandle_t) (a : Args)
    (w : World σ) : hipsolverStatus_t × World σ :=
  if handle = none then (HIPSOLVER_STATUS_NOT_INITIALIZED, w)
  else if use_V_copy a.jobz a.m a.n = true ∧ (a.ldv < a.n ∨ a.V = false) then
    (HIPSOLVER_STATUS_INVALID_VALUE, w)
  else if a.work = true ∧ a.lwork ≠ 0 then
    let r := rocblas_set_workspace lib handle (.work (gesvdj_work_offset T a))
      (toSizeT a.lwork) w
    match CHECK_ROCBLAS_ERROR r.1 with
    | some s => (s, r.2)
    | none => gesvdj_compute lib T handle a (.work 0) (.work (gesvdj_V_copy_offset T a)) r.2
  else
    let b := bufferSize lib .gesvdj T handle true a w
    match CHECK_HIPSOLVER_ERROR b.status with
    | some s => (s, b.world)
    | none =>
      let g := hipsolverManageWorkspace lib handle (toSizeT (lworkAfter a b)) b.world
      match CHECK_ROCBLAS_ERROR g.1 with
      | some s => (s, g.2)
      | none =>
        let mem := rocblas_device_malloc lib handle
          [smul (sizeofReal T) (toSizeT (cmin a.m a.n)), gesvdj_exec_size_V_copy T a] g.2
        if mem.1 = false then (HIPSOLVER_STATUS_ALLOC_FAILED, mem.2)
        else gesvdj_compute lib T handle a (.mem 0) (.mem 1) mem.2

/-- The local `ldv_copy` of gesvdjBatched: 1, or `n` when `V_copy` is used. -/
def gesvdjBatched_ldv_copy (a : Args) : Int :=
  if use_V_copy a.jobz a.m a.n then a.n else 1

/-- The local `size_V_copy` of gesvdjBatched: 0, or
`sizeof(T) * ldv_copy * n * batch_count`. -/
def gesvdjBatched_exec_size_V_copy (T : Scalar) (a : Args) : Nat :=
  if use_V_copy a.jobz a.m a.n then
    smul (smul (smul (sizeofT T) (toSizeT (gesvdjBatched_ldv_copy a))) (toSizeT a.n))
      (toSizeT a.batch_count)
  else 0

/-- Byte offset of `V_copy` in the caller's buffer:
`E + min(m, n) * batch_count` under `if(min(m, n) > 0)`. -/
def gesvdjBatched_V_copy_offset (T : Scalar) (a : Args) : Int :=
  if cmin a.m a.n > 0 then (sizeofReal T : Int) * imul (cmin a.m a.n) a.batch_count else 0

/-- Byte offset of the final `work`: `V_copy + ldv_copy * n * batch_count` when
`V_copy` is used. -/
def gesvdjBatched_work_offset (T : Scalar) (a : Args) : Int :=
  if use_V_copy a.jobz a.m a.n then
    gesvdjBatched_V_copy_offset T a
      + (sizeofT T : Int) * imul (imul (gesvdjBatched_ldv_copy a) a.n) a.batch_count
  else gesvdjBatched_V_copy_offset T a

/-- The computational call of gesvdjBatched. -/
def gesvdjBatched_call (T : Scalar) (a : Args) (E V_copy : DevPtr) :
    Except hipsolverStatus_t RoutineCall := do
  let sv ← hip2rocblas_evect2svect a.jobz 0
  pure ⟨.gesvd_strided_batched, T,
    [.svect sv, .svect sv, .int a.m, .int a.n, .ptr (.param .A), .int a.lda,
     .int (imul a.lda a.n), .ptr (.param .S), .int (cmin a.m a.n), .ptr (.param .U),
     .int a.ldu, .int (imul a.ldu a.m), .ptr V_copy, .int (gesvdjBatched_ldv_copy a),
     .int (imul (gesvdjBatched_ldv_copy a) a.n), .ptr E, .int (cmin a.m a.n),
     .workmode .rocblas_outofplace, .ptr (.param .devInfo), .int a.batch_count]⟩

/-- The geam call that transposes `V_copy` into `V` in gesvdjBatched. -/
def gesvdjBatched_geam (T : Scalar) (a : Args) (V_copy : DevPtr) : RoutineCall :=
  ⟨.geam_strided_batched, T,
    [.operation (geam_trans T), .operation .rocblas_operation_none, .int a.n,
     .int (gesvdjBatched_ldv_copy a), .one, .ptr V_copy, .int (gesvdjBatched_ldv_copy a),
     .int (imul (gesvdjBatched_ldv_copy a) a.n), .zero, .ptr V_copy,
     .int (gesvdjBatched_ldv_copy a), .int (imul (gesvdjBatched_ldv_copy a) a.n),
     .ptr (.param .V), .int a.ldv, .int (imul a.ldv a.n), .int a.batch_count]⟩

/-- The part of gesvdjBatched after the workspace is prepared. -/
def gesvdjBatched_compute (lib : RocLib σ) (T : Scalar) (handle : hipsolverHandle_t)
    (a : Args) (E V_copy : DevPtr) (w : World σ) : hipsolverStatus_t × World σ :=
  match gesvdjBatched_call T a E V_copy with
  | .error e => (exception2hip_status e, w)
  | .ok c =>
    let r := rocsolver lib handle c w
    match CHECK_ROCBLAS_ERROR r.1 with
    | some s => (s, r.2)
    | none =>
      if a.jobz ≠ .HIPSOLVER_EIG_MODE_NOVECTOR then
        let t := rocsolver lib handle (gesvdjBatched_geam T a V_copy) r.2
        (rocblas2hip_status t.1, t.2)
      else (HIPSOLVER_STATUS_SUCCESS, r.2)

/-- The entry points hipsolverDnSgesvdjBatched, hipsolverDnDgesvdjBatched,
hipsolverDnCgesvdjBatched and hipsolverDnZgesvdjBatched (lines 4846-5350). -/
def hipsolverDnXgesvdjBatched (lib : RocLib σ) (T : Scalar) (handle : hipsolverHandle_t)
    (a : Args) (w : World σ) : hipsolverStatus_t × World σ :=
  if handle = none then (HIPSOLVER_STATUS_NOT_INITIALIZED, w)
  else if use_V_copy a.jobz a.m a.n = true ∧ (a.ldv < a.n ∨ a.V = false) then
    (HIPSOLVER_STATUS_INVALID_VALUE, w)
  else if a.work = true ∧ a.lwork ≠ 0 then
    let r := rocblas_set_workspace lib handle (.work (gesvdjBatched_work_offset T a))
      (toSizeT a.lwork) w
    match CHECK_ROCBLAS_ERROR r.1 with
    | some s => (s, r.2)
    | none =>
      gesvdjBatched_compute lib T handle a (.work 0) (.work (gesvdjBatched_V_copy_offset T a))
        r.2
  else
    let b := bufferSize lib .gesvdjBatched T handle true a w
    match CHECK_HIPSOLVER_ERROR b.status with
    | some s => (s, b.world)
    | none =>
      let g := hipsolverManageWorkspace lib handle (toSizeT (lworkAfter a b)) b.world
      match CHECK_ROCBLAS_ERROR g.1 with
      | some s => (s, g.2)
      | none =>
        let mem := rocblas_device_malloc lib handle
          [smul (smul (sizeofReal T) (toSizeT (cmin a.m a.n))) (toSizeT a.batch_count),
           gesvdjBatched_exec_size_V_copy T a] g.2
        if mem.1 = false then (HIPSOLVER_STATUS_ALLOC_FAILED, mem.2)
        else gesvdjBatched_compute lib T handle a (.mem 0) (.mem 1) mem.2

/-! ## The eight families with auxiliary arrays, taken together -/

/-- The families whose execute entry point carves auxiliary arrays out of the
caller's buffer. -/
inductive AuxFamily
  | gesvd | gesvdj | gesvdjBatched | syevd | syevj | syevjBatched | sygvd | sygvj
  deriving DecidableEq, Repr

/-- The family of an `AuxFamily`. -/
def AuxFamily.family : AuxFamily → Family
  | .gesvd => .gesvd
  | .gesvdj => .gesvdj
  | .gesvdjBatched => .gesvdjBatched
  | .syevd => .syevd
  | .syevj => .syevj
  | .syevjBatched => .syevjBatched
  | .sygvd => .sygvd
  | .sygvj => .sygvj

/-- The execute entry point of an `AuxFamily`. -/
def executeAux (lib : RocLib σ) (f : AuxFamily) (T : Scalar) (handle : hipsolverHandle_t)
    (a : Args) (w : World σ) : hipsolverStatus_t × World σ :=
  match f with
  | .gesvd => hipsolverXgesvd lib T handle a w
  | .gesvdj => hipsolverDnXgesvdj lib T handle a w
  | .gesvdjBatched => hipsolverDnXgesvdjBatched lib T handle a w
  | .syevd => hipsolverXsyevd lib T handle a w
  | .syevj => hipsolverDnXsyevj lib T handle a w
  | .syevjBatched => hipsolverDnXsyevjBatched lib T handle a w
  | .sygvd => hipsolverXsygvd lib T handle a w
  | .sygvj => hipsolverDnXsygvj lib T handle a w

/-- Bytes carved from the front of the caller's buffer for `E` and `V_copy`:
the offset of the final `work` pointer of the then-branch. -/
def carvedBytes (f : AuxFamily) (T : Scalar) (a : Args) : Int :=
  match f with
  | .gesvd => gesvd_carved T a
  | .gesvdj => gesvdj_work_offset T a
  | .gesvdjBatched => gesvdjBatched_work_offset T a
  | .syevd => syevd_carved T a.n
  | .syevj => syevd_carved T a.n
  | .syevjBatched => syevjBatched_carved T a.n a.batch_count
  | .sygvd => syevd_carved T a.n
  | .sygvj => syevd_carved T a.n

/-- The checks that gesvdj and gesvdjBatched make before the workspace is
prepared let the call through; the other entry points have none. -/
def reachesWorkspace (f : AuxFamily) (handle : hipsolverHandle_t) (a : Args) : Prop :=
  match f with
  | .gesvdj =>
    handle ≠ none ∧ ¬ (use_V_copy a.jobz a.m a.n = true ∧ (a.ldv < a.n ∨ a.V = false))
  | .gesvdjBatched =>
    handle ≠ none ∧ ¬ (use_V_copy a.jobz a.m a.n = true ∧ (a.ldv < a.n ∨ a.V = false))
  | _ => True

/-- Number of auxiliary arrays of a family: `E`, and `V_copy` for gesvdj. -/
def auxCount : AuxFamily → Nat
  | .gesvdj => 2
  | .gesvdjBatched => 2
  | _ => 1

/-! ## A stub of the wrapped library

A small executable library to run the entry points on concrete inputs: it
follows the size-query protocol of rocBLAS (between start and stop a routine
only reports its need, and the handle keeps the largest request) and records
the reservation. -/

/-- State of the stub. -/
structure StubState where
  in_query : Bool
  queried : Nat
  reserved : Nat
  user_managed : Bool
  deriving DecidableEq, Repr

/-- Bytes that every routine of the stub asks for. -/
def stubNeed : Nat := 1024

/-- The stub library. -/
def stubLib : RocLib StubState where
  start_device_memory_size_query := fun _ s => ⟨true, 0, s.reserved, s.user_managed⟩
  stop_device_memory_size_query := fun _ s =>
    (s.queried, ⟨false, s.queried, s.reserved, s.user_managed⟩)
  set_optimal_device_memory_size := fun _ sizes s =>
    ⟨s.in_query, max s.queried sizes.sum, s.reserved, s.user_managed⟩
  routine := fun h _ s =>
    if h = none then (rocblas_status_invalid_handle, s)
    else if s.in_query then
      (if s.queried < stubNeed then rocblas_status_size_increased
       else rocblas_status_size_unchanged,
       ⟨s.in_query, max s.queried stubNeed, s.reserved, s.user_managed⟩)
    else (rocblas_status_success, s)
  set_workspace := fun h _ _ s =>
    if h = none then (rocblas_status_invalid_handle, s) else (rocblas_status_success, s)
  is_user_managing_device_memory := fun _ s => s.user_managed
  get_device_memory_size := fun _ s => s.reserved
  set_device_memory_size := fun h size s =>
    if h = none then (rocblas_status_invalid_handle, s)
    else (rocblas_status_success, ⟨s.in_query, s.queried, size, s.user_managed⟩)
  device_malloc := fun _ _ s => (true, s)

/-- The stub before any call. -/
def stubWorld : World StubState := ⟨⟨false, 0, 0, false⟩, []⟩

/-- Arguments with valid enum values and every number zero, to be updated
field by field. -/
def args0 : Args where
  side := .HIPSOLVER_SIDE_LEFT
  uplo := .HIPSOLVER_FILL_MODE_UPPER
  trans := .HIPSOLVER_OP_N
  itype := .HIPSOLVER_EIG_TYPE_1
  jobz := .HIPSOLVER_EIG_MODE_NOVECTOR
  jobu := 78
  jobv := 78
  econ := 0
  m := 0
  n := 0
  k := 0
  nrhs := 0
  lda := 1
  ldb := 1
  ldc := 1
  ldu := 1
  ldv := 1
  ldx := 1
  batch_count := 0
  V := true
  rwork := false
  work := false
  lwork := 0
  B_eq_X := false
  devIpiv := true

/-! ## The execute entry points of the families without auxiliary arrays -/

/-- The 18 families whose execute entry point has no auxiliary array. -/
inductive PlainFamily
  | orgbr | orgqr | orgtr | ormqr | ormtr | gebrd | gels | geqrf | gesv
  | getrf | getrs | potrf | potrfBatched | potri | potrs | potrsBatched | sytrd | sytrf
  deriving DecidableEq, Repr

/-- The family of a `PlainFamily`. -/
def PlainFamily.family : PlainFamily → Family
  | .orgbr => .orgbr
  | .orgqr => .orgqr
  | .orgtr => .orgtr
  | .ormqr => .ormqr
  | .ormtr => .ormtr
  | .gebrd => .gebrd
  | .gels => .gels
  | .geqrf => .geqrf
  | .gesv => .gesv
  | .getrf => .getrf
  | .getrs => .getrs
  | .potrf => .potrf
  | .potrfBatched => .potrfBatched
  | .potri => .potri
  | .potrs => .potrs
  | .potrsBatched => .potrsBatched
  | .sytrd => .sytrd
  | .sytrf => .sytrf

/-- The computational call of an execute entry point of the 18 families
without auxiliary arrays.  gels and gesv choose the routine by `B == X`, getrf
by `devIpiv != nullptr`; the translation of an enum argument can throw. -/
def computeCall (fam : PlainFamily) (T : Scalar) (a : Args) :
    Except hipsolverStatus_t RoutineCall :=
  let p := fun (x : Param) => Arg.ptr (.param x)
  match fam with
  | .orgbr => do
    let sv ← hip2rocblas_side2storev a.side
    pure ⟨byScalar T .orgbr .ungbr, T,
      [.storev sv, .int a.m, .int a.n, .int a.k, p .A, .int a.lda, p .tau]⟩
  | .orgqr =>
    pure ⟨byScalar T .orgqr .ungqr, T,
      [.int a.m, .int a.n, .int a.k, p .A, .int a.lda, p .tau]⟩
  | .orgtr => do
    let f ← hip2rocblas_fill a.uplo
    pure ⟨byScalar T .orgtr .ungtr, T, [.fill f, .int a.n, p .A, .int a.lda, p .tau]⟩
  | .ormqr => do
    let sd ← hip2rocblas_side a.side
    let op ← hip2rocblas_operation a.trans
    pure ⟨byScalar T .ormqr .unmqr, T,
      [.side sd, .operation op, .int a.m, .int a.n, .int a.k, p .A, .int a.lda, p .tau, p .C,
       .int a.ldc]⟩
  | .ormtr => do
    let sd ← hip2rocblas_side a.side
    let f ← hip2rocblas_fill a.uplo
    let op ← hip2rocblas_operation a.trans
    pure ⟨byScalar T .ormtr .unmtr, T,
      [.side sd, .fill f, .operation op, .int a.m, .int a.n, p .A, .int a.lda, p .tau, p .C,
       .int a.ldc]⟩
  | .gebrd =>
    pure ⟨.gebrd, T,
      [.int a.m, .int a.n, p .A, .int a.lda, p .D, p .E, p .tauq, p .taup]⟩
  | .gels =>
    if a.B_eq_X = true then
      pure ⟨.gels, T,
        [.operation .rocblas_operation_none, .int a.m, .int a.n, .int a.nrhs, p .A,
         .int a.lda, p .B, .int a.ldb, p .devInfo]⟩
    else
      pure ⟨.gels_outofplace, T,
        [.operation .rocblas_operation_none, .int a.m, .int a.n, .int a.nrhs, p .A,
         .int a.lda, p .B, .int a.ldb, p .X, .int a.ldx, p .devInfo]⟩
  | .geqrf =>
    pure ⟨.geqrf, T, [.int a.m, .int a.n, p .A, .int a.lda, p .tau]⟩
  | .gesv =>
    if a.B_eq_X = true then
      pure ⟨.gesv, T,
        [.int a.n, .int a.nrhs, p .A, .int a.lda, p .devIpiv, p .B, .int a.ldb, p .devInfo]⟩
    else
      pure ⟨.gesv_outofplace, T,
        [.int a.n, .int a.nrhs, p .A, .int a.lda, p .devIpiv, p .B, .int a.ldb, p .X,
         .int a.ldx, p .devInfo]⟩
  | .getrf =>
    if a.devIpiv = true then
      pure ⟨.getrf, T, [.int a.m, .int a.n, p .A, .int a.lda, p .devIpiv, p .devInfo]⟩
    else
      pure ⟨.getrf_npvt, T, [.int a.m, .int a.n, p .A, .int a.lda, p .devInfo]⟩
  | .getrs => do
    let op ← hip2rocblas_operation a.trans
    pure ⟨.getrs, T,
      [.operation op, .int a.n, .int a.nrhs, p .A, .int a.lda, p .devIpiv, p .B, .int a.ldb]⟩
  | .potrf => do
    let f ← hip2rocblas_fill a.uplo
    pure ⟨.potrf, T, [.fill f, .int a.n, p .A, .int a.lda, p .devInfo]⟩
  | .potrfBatched => do
    let f ← hip2rocblas_fill a.uplo
    pure ⟨.potrf_batched, T,
      [.fill f, .int a.n, p .A, .int a.lda, p .devInfo, .int a.batch_count]⟩
  | .potri => do
    let f ← hip2rocblas_fill a.uplo
    pure ⟨.potri, T, [.fill f, .int a.n, p .A, .int a.lda, p .devInfo]⟩
  | .potrs => do
    let f ← hip2rocblas_fill a.uplo
    pure ⟨.potrs, T, [.fill f, .int a.n, .int a.nrhs, p .A, .int a.lda, p .B, .int a.ldb]⟩
  | .potrsBatched => do
    let f ← hip2rocblas_fill a.uplo
    pure ⟨.potrs_batched, T,
      [.fill f, .int a.n, .int a.nrhs, p .A, .int a.lda, p .B, .int a.ldb,
       .int a.batch_count]⟩
  | .sytrd => do
    let f ← hip2rocblas_fill a.uplo
    pure ⟨byScalar T .sytrd .hetrd, T,
      [.fill f, .int a.n, p .A, .int a.lda, p .D, p .E, p .tau]⟩
  | .sytrf => do
    let f ← hip2rocblas_fill a.uplo
    pure ⟨.sytrf, T, [.fill f, .int a.n, p .A, .int a.lda, p .ipiv, p .devInfo]⟩

/-- The execute entry points of the 18 families without auxiliary arrays
(orgbr/ungbr ... sytrf): `rocblas_set_workspace` with the caller's buffer when
`work && lwork`, else the matching `_bufferSize` and
`hipsolverManageWorkspace`; then the computational call.  For gels and gesv
`lwork` is a `size_t`. -/
def executePlain (lib : RocLib σ) (fam : PlainFamily) (T : Scalar) (handle : hipsolverHandle_t)
    (a : Args) (w : World σ) : hipsolverStatus_t × World σ :=
  if a.work = true ∧ a.lwork ≠ 0 then
    let r := rocblas_set_workspace lib handle (.work 0) (toSizeT a.lwork) w
    match CHECK_ROCBLAS_ERROR r.1 with
    | some s => (s, r.2)
    | none => returnRoutine lib handle (computeCall fam T a) r.2
  else
    let b := bufferSize lib fam.family T handle true a w
    match CHECK_HIPSOLVER_ERROR b.status with
    | some s => (s, b.world)
    | none =>
      let g := hipsolverManageWorkspace lib handle (toSizeT (lworkAfter a b)) b.world
      match CHECK_ROCBLAS_ERROR g.1 with
      | some s => (s, g.2)
      | none => returnRoutine lib handle (computeCall fam T a) g.2

/-- The 104 execute entry points `hipsolver<T><family>`. -/
def execute (lib : RocLib σ) (fam : Family) (T : Scalar) (handle : hipsolverHandle_t)
    (a : Args) (w : World σ) : hipsolverStatus_t × World σ :=
  match fam with
  | .orgbr => executePlain lib .orgbr T handle a w
  | .orgqr => executePlain lib .orgqr T handle a w
  | .orgtr => executePlain lib .orgtr T handle a w
  | .ormqr => executePlain lib .ormqr T handle a w
  | .ormtr => executePlain lib .ormtr T handle a w
  | .gebrd => executePlain lib .gebrd T handle a w
  | .gels => executePlain lib .gels T handle a w
  | .geqrf => executePlain lib .geqrf T handle a w
  | .gesv => executePlain lib .gesv T handle a w
  | .gesvd => hipsolverXgesvd lib T handle a w
  | .gesvdj => hipsolverDnXgesvdj lib T handle a w
  | .gesvdjBatched => hipsolverDnXgesvdjBatched lib T handle a w
  | .getrf => executePlain lib .getrf T handle a w
  | .getrs => executePlain lib .getrs T handle a w
  | .potrf => executePlain lib .potrf T handle a w
  | .potrfBatched => executePlain lib .potrfBatched T handle a w
  | .potri => executePlain lib .potri T handle a w
  | .potrs => executePlain lib .potrs T handle a w
  | .potrsBatched => executePlain lib .potrsBatched T handle a w
  | .syevd => hipsolverXsyevd lib T handle a w
  | .syevj => hipsolverDnXsyevj lib T handle a w
  | .syevjBatched => hipsolverDnXsyevjBatched lib T handle a w
  | .sygvd => hipsolverXsygvd lib T handle a w
  | .sygvj => hipsolverDnXsygvj lib T handle a w
  | .sytrd => executePlain lib .sytrd T handle a w
  | .sytrf => executePlain lib .sytrf T handle a w

/-! ## The scoped allocation, by family -/

/-- The byte count that the execute entry point of an `AuxFamily` passes to
`hipsolverManageWorkspace`, given the value of `lwork` after `_bufferSize`:
`lwork`, and `lwork + sizeof(real) * n` for sygvj. -/
def manageRequest (f : AuxFamily) (T : Scalar) (a : Args) (lwork : Int) : Nat :=
  match f with
  | .sygvj => sadd (toSizeT lwork) (smul (sizeofReal T) (toSizeT a.n))
  | _ => toSizeT lwork

/-- The sizes that the execute entry point of an `AuxFamily` passes to
`rocblas_device_malloc`: the bytes of `E`, and of `V_copy` for gesvdj. -/
def allocSizes (f : AuxFamily) (T : Scalar) (a : Args) : List Nat :=
  match f with
  | .gesvd => [smul (sizeofReal T) (toSizeT (cmin a.m a.n))]
  | .gesvdj => [smul (sizeofReal T) (toSizeT (cmin a.m a.n)), gesvdj_exec_size_V_copy T a]
  | .gesvdjBatched =>
    [smul (smul (sizeofReal T) (toSizeT (cmin a.m a.n))) (toSizeT a.batch_count),
     gesvdjBatched_exec_size_V_copy T a]
  | .syevjBatched => [smul (smul (sizeofReal T) (toSizeT a.n)) (toSizeT a.batch_count)]
  | _ => [smul (sizeofReal T) (toSizeT a.n)]

/-- The execute entry point allocates in its else-branch: always, except gesvd,
which allocates under `if(!rwork && min(m, n) > 1)`. -/
def allocates (f : AuxFamily) (a : Args) : Prop :=
  match f with
  | .gesvd => a.rwork = false ∧ cmin a.m a.n > 1
  | _ => True

/-- A stub library whose scoped allocation always fails. -/
def stubLibNoMem : RocLib StubState :=
  { stubLib with device_malloc := fun _ _ s => (false, s) }

/-! ## The order of the regions in the caller's buffer -/

/-- The computational call of the execute entry point of an `AuxFamily`, given
the pointers `E` and `V_copy` (the latter only for gesvdj and gesvdjBatched;
for gesvd `E` is the pointer passed as `rwork`). -/
def auxCall (f : AuxFamily) (T : Scalar) (a : Args) (E V_copy : DevPtr) :
    Except hipsolverStatus_t RoutineCall :=
  match f with
  | .gesvd => gesvd_call T a E
  | .gesvdj => gesvdj_call T a E V_copy
  | .gesvdjBatched => gesvdjBatched_call T a E V_copy
  | .syevd => syevd_call T a E
  | .syevj => syevd_call T a E
  | .syevjBatched => syevjBatched_call T a E
  | .sygvd => sygvd_call T a E
  | .sygvj => sygvd_call T a E

/-- Byte offset in the caller's buffer at which `E` ends: where `V_copy` starts
for gesvdj and gesvdjBatched, and where the workspace starts for the families
with `E` alone. -/
def E_end (f : AuxFamily) (T : Scalar) (a : Args) : Int :=
  match f with
  | .gesvdj => gesvdj_V_copy_offset T a
  | .gesvdjBatched => gesvdjBatched_V_copy_offset T a
  | .gesvd => gesvd_carved T a
  | .syevd => syevd_carved T a.n
  | .syevj => syevd_carved T a.n
  | .syevjBatched => syevjBatched_carved T a.n a.batch_count
  | .sygvd => syevd_carved T a.n
  | .sygvj => syevd_carved T a.n

/-! ## Which calls an execute entry point makes -/

/-- The call is `rocblas_set_workspace`. -/
def Call.isSetWorkspace : Call → Bool
  | .set_workspace _ _ => true
  | _ => false

/-- The call is a computational routine. -/
def Call.isRoutine : Call → Bool
  | .routine _ => true
  | _ => false

/-- The call is a computational routine or `rocblas_device_malloc`. -/
def Call.isRoutineOrMalloc : Call → Bool
  | .routine _ => true
  | .device_malloc _ => true
  | _ => false

/-- The checks that an execute entry point makes before `if(work && lwork)` let
the call through: gesvdj and gesvdjBatched test the handle and, when V is
computed, `ldv < n || !V`; the other entry points have none. -/
def entryChecksPass (fam : Family) (handle : hipsolverHandle_t) (a : Args) : Prop :=
  match fam with
  | .gesvdj =>
    handle ≠ none ∧ ¬ (use_V_copy a.jobz a.m a.n = true ∧ (a.ldv < a.n ∨ a.V = false))
  | .gesvdjBatched =>
    handle ≠ none ∧ ¬ (use_V_copy a.jobz a.m a.n = true ∧ (a.ldv < a.n ∨ a.V = false))
  | _ => True

/-- The byte count that an execute entry point passes to
`hipsolverManageWorkspace`, given the value of `lwork` after `_bufferSize`:
`lwork`, and `lwork + sizeof(real) * n` for sygvj. -/
def reservationRequest (fam : Family) (T : Scalar) (a : Args) (lwork : Int) : Nat :=
  match fam with
  | .sygvj => sadd (toSizeT lwork) (smul (sizeofReal T) (toSizeT a.n))
  | _ => toSizeT lwork

/-! ## The parameter stubs of gesvdj and syevj (lines 435-572)

An info object is a pointer to a dummy `int`; a pointer argument is given by
what it points to, `none` for a null pointer, and each function returns, next
to its status, what its pointer arguments point to after the call.  A `double`
is never inspected, so its type `δ` is a parameter. -/

def hipsolverDnXgesvdjSetMaxSweeps (info : Option Int) (_max_sweeps : Int) :
    hipsolverStatus_t × Option Int :=
  (HIPSOLVER_STATUS_NOT_SUPPORTED, info)

def hipsolverDnXgesvdjSetSortEig (info : Option Int) (_sort_eig : Int) :
    hipsolverStatus_t × Option Int :=
  (HIPSOLVER_STATUS_NOT_SUPPORTED, info)

def hipsolverDnXgesvdjSetTolerance {δ : Type} (info : Option Int) (_tolerance : δ) :
    hipsolverStatus_t × Option Int :=
  (HIPSOLVER_STATUS_NOT_SUPPORTED, info)

def hipsolverDnXgesvdjGetResidual {δ : Type} (_handle : hipsolverHandle_t)
    (info : Option Int) (residual : Option δ) : hipsolverStatus_t × Option Int × Option δ :=
  (HIPSOLVER_STATUS_NOT_SUPPORTED, info, residual)

def hipsolverDnXgesvdjGetSweeps (_handle : hipsolverHandle_t) (info : Option Int)
    (executed_sweeps : Option Int) : hipsolverStatus_t × Option Int × Option Int :=
  (HIPSOLVER_STATUS_NOT_SUPPORTED, info, executed_sweeps)

def hipsolverDnXsyevjSetMaxSweeps (info : Option Int) (_max_sweeps : Int) :
    hipsolverStatus_t × Option Int :=
  (HIPSOLVER_STATUS_NOT_SUPPORTED, info)

def hipsolverDnXsyevjSetSortEig (info : Option Int) (_sort_eig : Int) :
    hipsolverStatus_t × Option Int :=
  (HIPSOLVER_STATUS_NOT_SUPPORTED, info)

def hipsolverDnXsyevjSetTolerance {δ : Type} (info : Option Int) (_tolerance : δ) :
    hipsolverStatus_t × Option Int :=
  (HIPSOLVER_STATUS_NOT_SUPPORTED, info)

def hipsolverDnXsyevjGetResidual {δ : Type} (_handle : hipsolverHandle_t)
    (info : Option Int) (residual : Option δ) : hipsolverStatus_t × Option Int × Option δ :=
  (HIPSOLVER_STATUS_NOT_SUPPORTED, info, residual)

def hipsolverDnXsyevjGetSweeps (_handle : hipsolverHandle_t) (info : Option Int)
    (executed_sweeps : Option Int) : hipsolverStatus_t × Option Int × Option Int :=
  (HIPSOLVER_STATUS_NOT_SUPPORTED, info, executed_sweeps)

/-! ## Arithmetic of the machine integers -/

theorem toSizeT_of_nonneg (x : Int) (h0 : 0 ≤ x) (h1 : x < 18446744073709551616) :
    (toSizeT x : Int) = x := by
  unfold toSizeT
  omega

theorem imul_of_fits (a b : Int) (h0 : -2147483648 ≤ a * b) (h1 : a * b ≤ 2147483647) :
    imul a b = a * b := by
  unfold imul wrapInt
  omega

theorem smul_of_fits (a b : Nat) (h : a * b < 18446744073709551616) : smul a b = a * b := by
  unfold smul SIZE_T_MOD
  exact Nat.mod_eq_of_lt h

/-! ## Null checks of the `_bufferSize` entry points -/

/-- C6: for each of the 26 families and 4 scalar types (the 104 `_bufferSize`
entry points), a null handle gives HIPSOLVER_STATUS_NOT_INITIALIZED whether or
not `lwork` is null; nothing is stored through `lwork` and the world, with its
log of library calls, is the one the call started from. -/
theorem bufferSize_null_handle (lib : RocLib σ) (fam : Family) (T : Scalar) (lwork : Bool)
    (a : Args) (w : World σ) :
    (bufferSize lib fam T none lwork a w).status = HIPSOLVER_STATUS_NOT_INITIALIZED
      ∧ (bufferSize lib fam T none lwork a w).lwork = none
      ∧ (bufferSize lib fam T none lwork a w).world = w := by
  simp [bufferSize]

/-- C7: for each of the 104 `_bufferSize` entry points, a non-null handle with
a null `lwork` gives HIPSOLVER_STATUS_INVALID_VALUE; nothing is stored, no
library call is logged (the world is unchanged), and the outcome is the same
for any other arguments. -/
theorem bufferSize_null_lwork (lib : RocLib σ) (fam : Family) (T : Scalar) (h : Nat)
    (a b : Args) (w : World σ) :
    (bufferSize lib fam T (some h) false a w).status = HIPSOLVER_STATUS_INVALID_VALUE
      ∧ (bufferSize lib fam T (some h) false a w).lwork = none
      ∧ (bufferSize lib fam T (some h) false a w).world = w
      ∧ bufferSize lib fam T (some h) false a w = bufferSize lib fam T (some h) false b w := by
  simp [bufferSize]

/-! ## The range check on the reported size -/

/-- C8: with non-null handle and `lwork`, no rejected argument and a dry run
whose status is success, let `sz` be the final 64-bit size.  An entry point
with an `int* lwork` (every family but gels and gesv) returns
HIPSOLVER_STATUS_INTERNAL_ERROR with `*lwork == 0` when `sz > INT_MAX` and
success with `*lwork == sz` otherwise; gels and gesv, whose `lwork` is a
`size_t*`, report `sz` whatever its value. -/
theorem bufferSize_range_check (lib : RocLib σ) (fam : Family) (T : Scalar) (h : Nat)
    (a : Args) (w w1 : World σ) (sz : Nat)
    (hv : ¬ (fam = .gesvdj ∧ a.ldv < a.n))
    (hq : sizeQuery lib fam T (some h) a w = .ok (HIPSOLVER_STATUS_SUCCESS, sz, w1)) :
    (fam ≠ .gels → fam ≠ .gesv →
        bufferSize lib fam T (some h) true a w
          = if (sz : Int) > INT_MAX then ⟨HIPSOLVER_STATUS_INTERNAL_ERROR, some 0, w1⟩
            else ⟨HIPSOLVER_STATUS_SUCCESS, some sz, w1⟩)
      ∧ (fam = .gels ∨ fam = .gesv →
        bufferSize lib fam T (some h) true a w = ⟨HIPSOLVER_STATUS_SUCCESS, some sz, w1⟩) := by
  constructor
  · intro h1 h2
    cases fam <;> simp_all [bufferSize]
  · intro h1
    rcases h1 with h1 | h1 <;> subst h1 <;> simp_all [bufferSize]

/-- Witness of `bufferSize_range_check`: hipsolverSgeqrf_bufferSize on the stub,
whose dry run reports 1024 bytes. -/
theorem bufferSize_range_check_witness :
    sizeQuery stubLib .geqrf .S (some 1) args0 stubWorld
        = .ok (HIPSOLVER_STATUS_SUCCESS, 1024,
            ⟨⟨false, 1024, 0, false⟩,
             [.start_device_memory_size_query,
              .routine ⟨.geqrf, .S,
                [.int 0, .int 0, .ptr .nullptr, .int 1, .ptr .nullptr]⟩,
              .stop_device_memory_size_query]⟩)
      ∧ bufferSize stubLib .geqrf .S (some 1) true args0 stubWorld
        = (if ((1024 : Nat) : Int) > INT_MAX then
            ⟨HIPSOLVER_STATUS_INTERNAL_ERROR, some 0,
             ⟨⟨false, 1024, 0, false⟩,
              [.start_device_memory_size_query,
               .routine ⟨.geqrf, .S,
                 [.int 0, .int 0, .ptr .nullptr, .int 1, .ptr .nullptr]⟩,
               .stop_device_memory_size_query]⟩⟩
          else
            ⟨HIPSOLVER_STATUS_SUCCESS, some 1024,
             ⟨⟨false, 1024, 0, false⟩,
              [.start_device_memory_size_query,
               .routine ⟨.geqrf, .S,
                 [.int 0, .int 0, .ptr .nullptr, .int 1, .ptr .nullptr]⟩,
               .stop_device_memory_size_query]⟩⟩) :=
  ⟨rfl, (bufferSize_range_check stubLib .geqrf .S 1 args0 stubWorld _ 1024 (by decide) rfl).1
    (by decide) (by decide)⟩

/-! ## The `V_copy` contribution of gesvdj -/

theorem smul_smul (a b c : Nat) : smul (smul a b) c = (a * b * c) % SIZE_T_MOD := by
  unfold smul
  rw [Nat.mod_mul_mod]

theorem smul_smul_smul (a b c d : Nat) :
    smul (smul (smul a b) c) d = (a * b * c * d) % SIZE_T_MOD := by
  rw [smul_smul]
  unfold smul
  rw [Nat.mul_assoc (a * b % SIZE_T_MOD) c d, Nat.mod_mul_mod, ← Nat.mul_assoc]

theorem toSizeT_eq_toNat (x : Int) (h0 : 0 ≤ x) (h1 : x ≤ INT_MAX) : toSizeT x = x.toNat := by
  unfold INT_MAX at h1
  unfold toSizeT
  omega

/-- The local `size_V_copy` of the gesvdj size queries: 0 for NOVECTOR, and for
VECTOR with 32-bit m, n (batch_count) >= 1 the byte count reduced modulo
`2^64`. -/
theorem size_V_copy_values (T : Scalar) (econ m n batch_count : Int) :
    gesvdj_size_V_copy T .HIPSOLVER_EIG_MODE_NOVECTOR econ m n = 0
      ∧ gesvdjBatched_size_V_copy T .HIPSOLVER_EIG_MODE_NOVECTOR m n batch_count = 0
      ∧ (1 ≤ m → m ≤ INT_MAX → 1 ≤ n → n ≤ INT_MAX →
          gesvdj_size_V_copy T .HIPSOLVER_EIG_MODE_VECTOR econ m n
              = (sizeofT T * (if econ ≠ 0 then cmin m n else n).toNat * n.toNat) % 2 ^ 64
            ∧ (0 < gesvdj_size_V_copy T .HIPSOLVER_EIG_MODE_VECTOR econ m n
                ↔ ¬ 2 ^ 64 ∣ sizeofT T * (if econ ≠ 0 then cmin m n else n).toNat * n.toNat)
            ∧ (sizeofT T * (if econ ≠ 0 then cmin m n else n).toNat * n.toNat < 2 ^ 64 →
                0 < gesvdj_size_V_copy T .HIPSOLVER_EIG_MODE_VECTOR econ m n))
      ∧ (1 ≤ m → m ≤ INT_MAX → 1 ≤ n → n ≤ INT_MAX → 1 ≤ batch_count →
          batch_count ≤ INT_MAX →
          gesvdjBatched_size_V_copy T .HIPSOLVER_EIG_MODE_VECTOR m n batch_count
              = (sizeofT T * n.toNat * n.toNat * batch_count.toNat) % 2 ^ 64
            ∧ (0 < gesvdjBatched_size_V_copy T .HIPSOLVER_EIG_MODE_VECTOR m n batch_count
                ↔ ¬ 2 ^ 64 ∣ sizeofT T * n.toNat * n.toNat * batch_count.toNat)
            ∧ (sizeofT T * n.toNat * n.toNat * batch_count.toNat < 2 ^ 64 →
                0 < gesvdjBatched_size_V_copy T .HIPSOLVER_EIG_MODE_VECTOR m n batch_count)) := by
  refine ⟨by simp [gesvdj_size_V_copy, use_V_copy],
    by simp [gesvdjBatched_size_V_copy, use_V_copy], ?_, ?_⟩
  · intro hm1 hm2 hn1 hn2
    have hmin : cmin m n > 0 := by unfold cmin; split <;> omega
    have hl0 : 0 ≤ (if econ ≠ 0 then cmin m n else n) := by
      unfold cmin; split <;> (try split) <;> omega
    have hl1 : (if econ ≠ 0 then cmin m n else n) ≤ INT_MAX := by
      unfold cmin; split <;> (try split) <;> omega
    have hval : gesvdj_size_V_copy T .HIPSOLVER_EIG_MODE_VECTOR econ m n
        = (sizeofT T * (if econ ≠ 0 then cmin m n else n).toNat * n.toNat) % 2 ^ 64 := by
      have hu : use_V_copy .HIPSOLVER_EIG_MODE_VECTOR m n = true := by
        simp [use_V_copy, hmin]
      unfold gesvdj_size_V_copy
      rw [if_pos hu, smul_smul, toSizeT_eq_toNat _ hl0 hl1,
        toSizeT_eq_toNat n (by omega) hn2]
      rfl
    refine ⟨hval, ?_, ?_⟩
    · rw [hval, Nat.pos_iff_ne_zero, Ne, ← Nat.dvd_iff_mod_eq_zero]
    · intro hlt
      rw [hval, Nat.mod_eq_of_lt hlt]
      have h1 : 0 < sizeofT T := by cases T <;> decide
      have h2 : 0 < (if econ ≠ 0 then cmin m n else n).toNat := by
        unfold cmin; split <;> (try split) <;> omega
      have h3 : 0 < n.toNat := by omega
      exact Nat.mul_pos (Nat.mul_pos h1 h2) h3
  · intro hm1 hm2 hn1 hn2 hb1 hb2
    have hmin : cmin m n > 0 := by unfold cmin; split <;> omega
    have hval : gesvdjBatched_size_V_copy T .HIPSOLVER_EIG_MODE_VECTOR m n batch_count
        = (sizeofT T * n.toNat * n.toNat * batch_count.toNat) % 2 ^ 64 := by
      have hu : use_V_copy .HIPSOLVER_EIG_MODE_VECTOR m n = true := by
        simp [use_V_copy, hmin]
      unfold gesvdjBatched_size_V_copy
      rw [if_pos hu, smul_smul_smul, toSizeT_eq_toNat n (by omega) hn2,
        toSizeT_eq_toNat batch_count (by omega) hb2]
      rfl
    refine ⟨hval, ?_, ?_⟩
    · rw [hval, Nat.pos_iff_ne_zero, Ne, ← Nat.dvd_iff_mod_eq_zero]
    · intro hlt
      rw [hval, Nat.mod_eq_of_lt hlt]
      have h1 : 0 < sizeofT T := by cases T <;> decide
      have h3 : 0 < n.toNat := by omega
      have h4 : 0 < batch_count.toNat := by omega
      exact Nat.mul_pos (Nat.mul_pos (Nat.mul_pos h1 h3) h3) h4

/-! ## How the log grows -/

theorem returnRoutine_log (lib : RocLib σ) (handle : hipsolverHandle_t)
    (call : Except hipsolverStatus_t RoutineCall) (w : World σ) :
    ∃ rest, (returnRoutine lib handle call w).2.log = w.log ++ rest := by
  cases call with
  | error e => exact ⟨[], by simp [returnRoutine]⟩
  | ok c => exact ⟨[.routine c], by simp [returnRoutine, rocsolver, World.record]⟩

theorem gesvdj_compute_log (lib : RocLib σ) (T : Scalar) (handle : hipsolverHandle_t)
    (a : Args) (E V_copy : DevPtr) (w : World σ) :
    ∃ rest, (gesvdj_compute lib T handle a E V_copy w).2.log = w.log ++ rest := by
  unfold gesvdj_compute
  cases gesvdj_call T a E V_copy with
  | error e => exact ⟨[], by simp⟩
  | ok c =>
    dsimp only
    cases CHECK_ROCBLAS_ERROR (rocsolver lib handle c w).1 with
    | some s => exact ⟨[.routine c], by simp [rocsolver, World.record]⟩
    | none =>
      dsimp only
      split
      · exact ⟨[.routine c, .routine (gesvdj_geam T a V_copy)],
          by simp [rocsolver, World.record]⟩
      · exact ⟨[.routine c], by simp [rocsolver, World.record]⟩

theorem gesvdjBatched_compute_log (lib : RocLib σ) (T : Scalar) (handle : hipsolverHandle_t)
    (a : Args) (E V_copy : DevPtr) (w : World σ) :
    ∃ rest, (gesvdjBatched_compute lib T handle a E V_copy w).2.log = w.log ++ rest := by
  unfold gesvdjBatched_compute
  cases gesvdjBatched_call T a E V_copy with
  | error e => exact ⟨[], by simp⟩
  | ok c =>
    dsimp only
    cases CHECK_ROCBLAS_ERROR (rocsolver lib handle c w).1 with
    | some s => exact ⟨[.routine c], by simp [rocsolver, World.record]⟩
    | none =>
      dsimp only
      split
      · exact ⟨[.routine c, .routine (gesvdjBatched_geam T a V_copy)],
          by simp [rocsolver, World.record]⟩
      · exact ⟨[.routine c], by simp [rocsolver, World.record]⟩

/-- In the then-branch the first call logged is `rocblas_set_workspace` at the
carved offset, with the caller's `lwork` as the size. -/
theorem callerPath_log (lib : RocLib σ) (handle : hipsolverHandle_t) (a : Args) (carved : Int)
    (k : DevPtr → World σ → hipsolverStatus_t × World σ) (w : World σ)
    (hk : ∀ E w1, ∃ rest, (k E w1).2.log = w1.log ++ rest) :
    ∃ rest, (callerPath lib handle a carved k w).2.log
      = w.log ++ Call.set_workspace (.work carved) (toSizeT a.lwork) :: rest := by
  unfold callerPath
  dsimp only
  cases CHECK_ROCBLAS_ERROR
      (rocblas_set_workspace lib handle (.work carved) (toSizeT a.lwork) w).1 with
  | some s => exact ⟨[], by simp [rocblas_set_workspace, World.record]⟩
  | none =>
    obtain ⟨rest, hrest⟩ := hk (.work 0)
      (rocblas_set_workspace lib handle (.work carved) (toSizeT a.lwork) w).2
    exact ⟨rest, by rw [hrest]; simp [rocblas_set_workspace, World.record]⟩

/-! ## The bytes carved for `E` in gesvd -/

/-- The bytes carved for `E` by gesvd against the local `size_E` of its size
query. -/
theorem gesvd_carved_of_size_E (T : Scalar) (a : Args)
    (hm0 : 0 ≤ a.m) (hm1 : a.m ≤ INT_MAX) (hn0 : 0 ≤ a.n) (hn1 : a.n ≤ INT_MAX)
    (hr : a.rwork = false) :
    (cmin a.m a.n ≠ 1 →
        gesvd_carved T a = (gesvd_size_E T a.m a.n : Int)
          ∧ (gesvd_size_E T a.m a.n : Int) = (sizeofReal T : Int) * cmin a.m a.n
          ∧ ∀ (lib : RocLib σ) (handle : hipsolverHandle_t) (w : World σ),
              a.work = true → a.lwork ≠ 0 →
              ∃ rest, (hipsolverXgesvd lib T handle a w).2.log
                = w.log ++ Call.set_workspace (.work (gesvd_size_E T a.m a.n : Int))
                    (toSizeT a.lwork) :: rest)
      ∧ (cmin a.m a.n = 1 →
        gesvd_carved T a = 0 ∧ gesvd_size_E T a.m a.n = sizeofReal T) := by
  have hc0 : 0 ≤ cmin a.m a.n := by unfold cmin; split <;> omega
  have hc1 : cmin a.m a.n ≤ INT_MAX := by unfold cmin; split <;> omega
  have hs : sizeofReal T ≤ 8 := by cases T <;> decide
  have hE : (gesvd_size_E T a.m a.n : Int) = (sizeofReal T : Int) * cmin a.m a.n := by
    unfold gesvd_size_E
    split
    · rw [toSizeT_eq_toNat _ hc0 hc1, smul_of_fits]
      · push_cast
        rw [Int.toNat_of_nonneg hc0]
      · unfold INT_MAX at hc1
        have : (cmin a.m a.n).toNat ≤ 2147483647 := by omega
        calc sizeofReal T * (cmin a.m a.n).toNat ≤ 8 * 2147483647 := Nat.mul_le_mul hs this
          _ < 18446744073709551616 := by decide
    · have : cmin a.m a.n = 0 := by omega
      simp [this]
  constructor
  · intro hne
    have hcar : gesvd_carved T a = (gesvd_size_E T a.m a.n : Int) := by
      rw [hE]
      unfold gesvd_carved
      split
      · rfl
      · have : cmin a.m a.n = 0 := by
          rename_i h
          simp only [hr, true_and, not_lt] at h
          omega
        simp [this]
    refine ⟨hcar, hE, ?_⟩
    intro lib handle w hw hl
    rw [← hcar]
    unfold hipsolverXgesvd
    rw [if_pos ⟨hw, hl⟩]
    dsimp only
    cases CHECK_ROCBLAS_ERROR
        (rocblas_set_workspace lib handle (.work (gesvd_carved T a)) (toSizeT a.lwork) w).1 with
    | some s => exact ⟨[], by simp [rocblas_set_workspace, World.record]⟩
    | none =>
      obtain ⟨rest, hrest⟩ := returnRoutine_log lib handle
        (gesvd_call T a
          (if a.rwork = false ∧ cmin a.m a.n > 1 then DevPtr.work 0 else .param .rwork))
        (rocblas_set_workspace lib handle (.work (gesvd_carved T a)) (toSizeT a.lwork) w).2
      exact ⟨rest, by rw [hrest]; simp [rocblas_set_workspace, World.record]⟩
  · intro h1
    constructor
    · unfold gesvd_carved
      rw [if_neg]
      omega
    · have := hE
      rw [h1] at this
      omega

/-! ## The region installed in the caller-buffer path -/

/-- C1, as stated, fails: hipsolverSsyevd with n = 2 and a caller buffer of
lwork = 64 bytes installs the region that starts at byte 8 with length 64, so
the region ends at byte 72 of a 64-byte buffer. -/
theorem installed_region_exceeds_buffer :
    (executeAux stubLib .syevd .S (some 1)
        { args0 with n := 2, work := true, lwork := 64 } stubWorld).2.log.head?
        = some (Call.set_workspace (.work 8) 64)
      ∧ ¬ ((8 : Int) + 64 ≤ 64) := by
  decide

/-- C1, amended: in the caller-buffer path of gesvd, gesvdj, gesvdjBatched,
syevd/heevd, syevj, syevjBatched, sygvd and sygvj (once the checks of gesvdj
that precede the workspace let the call through), the first library call is
`rocblas_set_workspace` with the caller's pointer advanced by the bytes carved
for E and V_copy and with the length `lwork` itself; so offset + length is
lwork + carved, which is at most lwork only when nothing is carved. -/
theorem caller_path_installs_lwork (lib : RocLib σ) (f : AuxFamily) (T : Scalar)
    (handle : hipsolverHandle_t) (a : Args) (w : World σ)
    (hw : a.work = true) (hl : a.lwork ≠ 0) (hp : reachesWorkspace f handle a) :
    (∃ rest, (executeAux lib f T handle a w).2.log
        = w.log ++ Call.set_workspace (.work (carvedBytes f T a)) (toSizeT a.lwork) :: rest)
      ∧ (0 < a.lwork → a.lwork ≤ INT_MAX →
          carvedBytes f T a + (toSizeT a.lwork : Int) = a.lwork + carvedBytes f T a
            ∧ (carvedBytes f T a + (toSizeT a.lwork : Int) ≤ a.lwork
                ↔ carvedBytes f T a ≤ 0)) := by
  constructor
  · cases f with
    | gesvd =>
      simp only [executeAux, carvedBytes, hipsolverXgesvd]
      rw [if_pos ⟨hw, hl⟩]
      cases CHECK_ROCBLAS_ERROR
          (rocblas_set_workspace lib handle (.work (gesvd_carved T a)) (toSizeT a.lwork) w).1 with
      | some s => exact ⟨[], by simp [rocblas_set_workspace, World.record]⟩
      | none =>
        obtain ⟨rest, hrest⟩ := returnRoutine_log lib handle
          (gesvd_call T a
            (if a.rwork = false ∧ cmin a.m a.n > 1 then DevPtr.work 0 else .param .rwork))
          (rocblas_set_workspace lib handle (.work (gesvd_carved T a)) (toSizeT a.lwork) w).2
        exact ⟨rest, by rw [hrest]; simp [rocblas_set_workspace, World.record]⟩
    | gesvdj =>
      obtain ⟨hh, hrej⟩ := hp
      simp only [executeAux, carvedBytes, hipsolverDnXgesvdj]
      rw [if_neg hh, if_neg hrej, if_pos ⟨hw, hl⟩]
      cases CHECK_ROCBLAS_ERROR
          (rocblas_set_workspace lib handle (.work (gesvdj_work_offset T a))
            (toSizeT a.lwork) w).1 with
      | some s => exact ⟨[], by simp [rocblas_set_workspace, World.record]⟩
      | none =>
        obtain ⟨rest, hrest⟩ := gesvdj_compute_log lib T handle a (.work 0)
          (.work (gesvdj_V_copy_offset T a))
          (rocblas_set_workspace lib handle (.work (gesvdj_work_offset T a))
            (toSizeT a.lwork) w).2
        exact ⟨rest, by rw [hrest]; simp [rocblas_set_workspace, World.record]⟩
    | gesvdjBatched =>
      obtain ⟨hh, hrej⟩ := hp
      simp only [executeAux, carvedBytes, hipsolverDnXgesvdjBatched]
      rw [if_neg hh, if_neg hrej, if_pos ⟨hw, hl⟩]
      cases CHECK_ROCBLAS_ERROR
          (rocblas_set_workspace lib handle (.work (gesvdjBatched_work_offset T a))
            (toSizeT a.lwork) w).1 with
      | some s => exact ⟨[], by simp [rocblas_set_workspace, World.record]⟩
      | none =>
        obtain ⟨rest, hrest⟩ := gesvdjBatched_compute_log lib T handle a (.work 0)
          (.work (gesvdjBatched_V_copy_offset T a))
          (rocblas_set_workspace lib handle (.work (gesvdjBatched_work_offset T a))
            (toSizeT a.lwork) w).2
        exact ⟨rest, by rw [hrest]; simp [rocblas_set_workspace, World.record]⟩
    | syevd =>
      simp only [executeAux, carvedBytes, hipsolverXsyevd]
      rw [if_pos ⟨hw, hl⟩]
      exact callerPath_log lib handle a _ _ w (fun E w1 => returnRoutine_log lib handle _ w1)
    | syevj =>
      simp only [executeAux, carvedBytes, hipsolverDnXsyevj]
      rw [if_pos ⟨hw, hl⟩]
      exact callerPath_log lib handle a _ _ w (fun E w1 => returnRoutine_log lib handle _ w1)
    | syevjBatched =>
      simp only [executeAux, carvedBytes, hipsolverDnXsyevjBatched]
      rw [if_pos ⟨hw, hl⟩]
      exact callerPath_log lib handle a _ _ w (fun E w1 => returnRoutine_log lib handle _ w1)
    | sygvd =>
      simp only [executeAux, carvedBytes, hipsolverXsygvd]
      rw [if_pos ⟨hw, hl⟩]
      exact callerPath_log lib handle a _ _ w (fun E w1 => returnRoutine_log lib handle _ w1)
    | sygvj =>
      simp only [executeAux, carvedBytes, hipsolverDnXsygvj]
      rw [if_pos ⟨hw, hl⟩]
      exact callerPath_log lib handle a _ _ w (fun E w1 => returnRoutine_log lib handle _ w1)
  · intro h0 h1
    have := toSizeT_of_nonneg a.lwork (by omega) (by unfold INT_MAX at h1; omega)
    constructor <;> omega

/-- Witness of `caller_path_installs_lwork`: hipsolverDnDsyevj with n = 4 and a
caller buffer of 4096 bytes installs the region that starts at byte 32 with
length 4096. -/
theorem caller_path_installs_lwork_witness :
    ∃ rest, (executeAux stubLib .syevj .D (some 1)
        { args0 with n := 4, work := true, lwork := 4096 } stubWorld).2.log
      = stubWorld.log ++ Call.set_workspace
          (.work (carvedBytes .syevj .D { args0 with n := 4, work := true, lwork := 4096 }))
          (toSizeT 4096) :: rest :=
  (caller_path_installs_lwork stubLib .syevj .D (some 1)
    { args0 with n := 4, work := true, lwork := 4096 } stubWorld rfl (by decide) trivial).1

/-! ## Byte counts without overflow -/

theorem toSizeT_natCast (x : Nat) (h : x < 18446744073709551616) : toSizeT (x : Int) = x := by
  unfold toSizeT
  omega

theorem cast_smul1 (s : Nat) (hs : s ≤ 16) (x : Int) (hx0 : 0 ≤ x) (hx1 : x ≤ INT_MAX) :
    (smul s (toSizeT x) : Int) = (s : Int) * x := by
  unfold INT_MAX at hx1
  lift x to ℕ using hx0
  have hx : x ≤ 2147483647 := by omega
  rw [toSizeT_natCast x (by omega), smul_of_fits]
  · push_cast
    rfl
  · calc s * x ≤ 16 * 2147483647 := Nat.mul_le_mul hs hx
      _ < 18446744073709551616 := by decide

theorem cast_smul2 (s : Nat) (hs : s ≤ 16) (x y : Int) (hx0 : 0 ≤ x) (hx1 : x ≤ INT_MAX)
    (hy0 : 0 ≤ y) (hy1 : y ≤ INT_MAX) (hxy : x * y ≤ INT_MAX) :
    (smul (smul s (toSizeT x)) (toSizeT y) : Int) = (s : Int) * (x * y) := by
  unfold INT_MAX at hx1 hy1 hxy
  lift x to ℕ using hx0
  lift y to ℕ using hy0
  have hxy' : x * y ≤ 2147483647 := by exact_mod_cast hxy
  rw [toSizeT_natCast x (by omega), toSizeT_natCast y (by omega), smul_smul]
  unfold SIZE_T_MOD
  rw [Nat.mod_eq_of_lt]
  · push_cast
    ring
  · calc s * x * y = s * (x * y) := Nat.mul_assoc s x y
      _ ≤ 16 * 2147483647 := Nat.mul_le_mul hs hxy'
      _ < 18446744073709551616 := by decide

theorem cast_smul3 (s : Nat) (hs : s ≤ 16) (x y z : Int) (hx0 : 0 ≤ x) (hx1 : x ≤ INT_MAX)
    (hy0 : 0 ≤ y) (hy1 : y ≤ INT_MAX) (hz0 : 0 ≤ z) (hz1 : z ≤ INT_MAX)
    (hxyz : x * y * z ≤ INT_MAX) :
    (smul (smul (smul s (toSizeT x)) (toSizeT y)) (toSizeT z) : Int)
      = (s : Int) * (x * y * z) := by
  unfold INT_MAX at hx1 hy1 hz1 hxyz
  lift x to ℕ using hx0
  lift y to ℕ using hy0
  lift z to ℕ using hz0
  have hxyz' : x * y * z ≤ 2147483647 := by exact_mod_cast hxyz
  rw [toSizeT_natCast x (by omega), toSizeT_natCast y (by omega),
    toSizeT_natCast z (by omega), smul_smul_smul]
  unfold SIZE_T_MOD
  rw [Nat.mod_eq_of_lt]
  · push_cast
    ring
  · calc s * x * y * z = s * (x * y * z) := by ring
      _ ≤ 16 * 2147483647 := Nat.mul_le_mul hs hxyz'
      _ < 18446744073709551616 := by decide

theorem imul_nonneg_fits (x y : Int) (hx0 : 0 ≤ x) (hy0 : 0 ≤ y) (hxy : x * y ≤ INT_MAX) :
    imul x y = x * y := by
  unfold INT_MAX at hxy
  have : 0 ≤ x * y := Int.mul_nonneg hx0 hy0
  exact imul_of_fits x y (by omega) hxy

theorem imul_imul_nonneg_fits (x y z : Int) (hx0 : 0 ≤ x) (hy0 : 0 ≤ y) (hz0 : 0 ≤ z)
    (hxyz : x * y * z ≤ INT_MAX) : imul (imul x y) z = x * y * z := by
  have hxy0 : 0 ≤ x * y := Int.mul_nonneg hx0 hy0
  rcases lt_or_ge 0 z with hz | hz
  · have hle : x * y ≤ x * y * z := by nlinarith
    rw [imul_nonneg_fits x y hx0 hy0 (le_trans hle hxyz)]
    exact imul_nonneg_fits (x * y) z hxy0 hz0 hxyz
  · have hz' : z = 0 := by omega
    subst hz'
    simp [imul, wrapInt]

theorem sizeofReal_le (T : Scalar) : sizeofReal T ≤ 16 := by cases T <;> decide

theorem sizeofT_le (T : Scalar) : sizeofT T ≤ 16 := by cases T <;> decide

theorem cmin_nonneg (m n : Int) (hm : 0 ≤ m) (hn : 0 ≤ n) : 0 ≤ cmin m n := by
  unfold cmin
  split <;> omega

theorem cmin_le_max (m n : Int) (hm : m ≤ INT_MAX) (hn : n ≤ INT_MAX) : cmin m n ≤ INT_MAX := by
  unfold cmin
  split <;> omega

/-! ## gesvdj: the offsets used when slicing are the sizes used when sizing -/

theorem gesvdj_V_copy_offset_eq (T : Scalar) (a : Args)
    (hm0 : 0 ≤ a.m) (hm1 : a.m ≤ INT_MAX) (hn0 : 0 ≤ a.n) (hn1 : a.n ≤ INT_MAX) :
    gesvdj_V_copy_offset T a = (gesvdj_size_E T a.m a.n : Int) := by
  unfold gesvdj_V_copy_offset gesvdj_size_E
  split
  · rw [cast_smul1 _ (sizeofReal_le T) _ (cmin_nonneg _ _ hm0 hn0) (cmin_le_max _ _ hm1 hn1)]
  · rfl

theorem gesvdj_work_offset_eq (T : Scalar) (a : Args)
    (hm0 : 0 ≤ a.m) (hm1 : a.m ≤ INT_MAX) (hn0 : 0 ≤ a.n) (hn1 : a.n ≤ INT_MAX)
    (hfit : gesvdj_ldv_copy a * a.n ≤ INT_MAX) :
    gesvdj_work_offset T a
      = ((gesvdj_size_E T a.m a.n + gesvdj_size_V_copy T a.jobz a.econ a.m a.n : Nat) : Int) := by
  have hE := gesvdj_V_copy_offset_eq T a hm0 hm1 hn0 hn1
  unfold gesvdj_work_offset gesvdj_size_V_copy
  rw [hE]
  by_cases hu : use_V_copy a.jobz a.m a.n = true
  · have hl : gesvdj_ldv_copy a = (if a.econ ≠ 0 then cmin a.m a.n else a.n) := by
      unfold gesvdj_ldv_copy
      rw [if_pos hu]
    have hl0 : 0 ≤ (if a.econ ≠ 0 then cmin a.m a.n else a.n) := by
      split
      · exact cmin_nonneg _ _ hm0 hn0
      · exact hn0
    have hl1 : (if a.econ ≠ 0 then cmin a.m a.n else a.n) ≤ INT_MAX := by
      split
      · exact cmin_le_max _ _ hm1 hn1
      · exact hn1
    rw [hl] at hfit ⊢
    rw [if_pos hu, if_pos hu, imul_nonneg_fits _ _ hl0 hn0 hfit]
    push_cast
    rw [cast_smul2 _ (sizeofT_le T) _ _ hl0 hl1 hn0 hn1 hfit]
  · rw [if_neg hu, if_neg hu]
    simp

theorem gesvdjBatched_V_copy_offset_eq (T : Scalar) (a : Args)
    (hm0 : 0 ≤ a.m) (hm1 : a.m ≤ INT_MAX) (hn0 : 0 ≤ a.n) (hn1 : a.n ≤ INT_MAX)
    (hb0 : 0 ≤ a.batch_count) (hb1 : a.batch_count ≤ INT_MAX)
    (hfitE : cmin a.m a.n * a.batch_count ≤ INT_MAX) :
    gesvdjBatched_V_copy_offset T a = (gesvdjBatched_size_E T a.m a.n a.batch_count : Int) := by
  unfold gesvdjBatched_V_copy_offset gesvdjBatched_size_E
  split
  · rw [cast_smul2 _ (sizeofReal_le T) _ _ (cmin_nonneg _ _ hm0 hn0) (cmin_le_max _ _ hm1 hn1)
      hb0 hb1 hfitE, imul_nonneg_fits _ _ (cmin_nonneg _ _ hm0 hn0) hb0 hfitE]
  · rfl

theorem gesvdjBatched_work_offset_eq (T : Scalar) (a : Args)
    (hm0 : 0 ≤ a.m) (hm1 : a.m ≤ INT_MAX) (hn0 : 0 ≤ a.n) (hn1 : a.n ≤ INT_MAX)
    (hb0 : 0 ≤ a.batch_count) (hb1 : a.batch_count ≤ INT_MAX)
    (hfitE : cmin a.m a.n * a.batch_count ≤ INT_MAX)
    (hfitV : gesvdjBatched_ldv_copy a * a.n * a.batch_count ≤ INT_MAX) :
    gesvdjBatched_work_offset T a
      = ((gesvdjBatched_size_E T a.m a.n a.batch_count
          + gesvdjBatched_size_V_copy T a.jobz a.m a.n a.batch_count : Nat) : Int) := by
  have hE := gesvdjBatched_V_copy_offset_eq T a hm0 hm1 hn0 hn1 hb0 hb1 hfitE
  unfold gesvdjBatched_work_offset gesvdjBatched_size_V_copy
  rw [hE]
  by_cases hu : use_V_copy a.jobz a.m a.n = true
  · have hl : gesvdjBatched_ldv_copy a = a.n := by
      unfold gesvdjBatched_ldv_copy
      rw [if_pos hu]
    rw [hl] at hfitV ⊢
    rw [if_pos hu, if_pos hu, imul_imul_nonneg_fits _ _ _ hn0 hn0 hb0 hfitV]
    push_cast
    rw [cast_smul3 _ (sizeofT_le T) _ _ _ hn0 hn1 hn0 hn1 hb0 hb1 hfitV]
  · rw [if_neg hu, if_neg hu]
    simp

/-- The carve offsets of gesvdj and gesvdjBatched against the local `size_E`
and `size_V_copy` of their size queries. -/
theorem gesvdj_offsets_of_sizes (T : Scalar) (a : Args)
    (hm0 : 0 ≤ a.m) (hm1 : a.m ≤ INT_MAX) (hn0 : 0 ≤ a.n) (hn1 : a.n ≤ INT_MAX) :
    (gesvdj_ldv_copy a * a.n ≤ INT_MAX →
        gesvdj_V_copy_offset T a = (gesvdj_size_E T a.m a.n : Int)
          ∧ gesvdj_work_offset T a
              = ((gesvdj_size_E T a.m a.n
                  + gesvdj_size_V_copy T a.jobz a.econ a.m a.n : Nat) : Int)
          ∧ ∀ (lib : RocLib σ) (h : Nat) (w : World σ), a.work = true → a.lwork ≠ 0 →
              ¬ (use_V_copy a.jobz a.m a.n = true ∧ (a.ldv < a.n ∨ a.V = false)) →
              hipsolverDnXgesvdj lib T (some h) a w
                = match CHECK_ROCBLAS_ERROR (rocblas_set_workspace lib (some h)
                      (.work ((gesvdj_size_E T a.m a.n
                        + gesvdj_size_V_copy T a.jobz a.econ a.m a.n : Nat) : Int))
                      (toSizeT a.lwork) w).1 with
                  | some s => (s, (rocblas_set_workspace lib (some h)
                      (.work ((gesvdj_size_E T a.m a.n
                        + gesvdj_size_V_copy T a.jobz a.econ a.m a.n : Nat) : Int))
                      (toSizeT a.lwork) w).2)
                  | none => gesvdj_compute lib T (some h) a (.work 0)
                      (.work (gesvdj_size_E T a.m a.n : Int))
                      (rocblas_set_workspace lib (some h)
                        (.work ((gesvdj_size_E T a.m a.n
                          + gesvdj_size_V_copy T a.jobz a.econ a.m a.n : Nat) : Int))
                        (toSizeT a.lwork) w).2)
      ∧ (0 ≤ a.batch_count → a.batch_count ≤ INT_MAX →
          cmin a.m a.n * a.batch_count ≤ INT_MAX →
          gesvdjBatched_ldv_copy a * a.n * a.batch_count ≤ INT_MAX →
        gesvdjBatched_V_copy_offset T a
            = (gesvdjBatched_size_E T a.m a.n a.batch_count : Int)
          ∧ gesvdjBatched_work_offset T a
              = ((gesvdjBatched_size_E T a.m a.n a.batch_count
                  + gesvdjBatched_size_V_copy T a.jobz a.m a.n a.batch_count : Nat) : Int)
          ∧ ∀ (lib : RocLib σ) (h : Nat) (w : World σ), a.work = true → a.lwork ≠ 0 →
              ¬ (use_V_copy a.jobz a.m a.n = true ∧ (a.ldv < a.n ∨ a.V = false)) →
              hipsolverDnXgesvdjBatched lib T (some h) a w
                = match CHECK_ROCBLAS_ERROR (rocblas_set_workspace lib (some h)
                      (.work ((gesvdjBatched_size_E T a.m a.n a.batch_count
                        + gesvdjBatched_size_V_copy T a.jobz a.m a.n a.batch_count : Nat) : Int))
                      (toSizeT a.lwork) w).1 with
                  | some s => (s, (rocblas_set_workspace lib (some h)
                      (.work ((gesvdjBatched_size_E T a.m a.n a.batch_count
                        + gesvdjBatched_size_V_copy T a.jobz a.m a.n a.batch_count : Nat) : Int))
                      (toSizeT a.lwork) w).2)
                  | none => gesvdjBatched_compute lib T (some h) a (.work 0)
                      (.work (gesvdjBatched_size_E T a.m a.n a.batch_count : Int))
                      (rocblas_set_workspace lib (some h)
                        (.work ((gesvdjBatched_size_E T a.m a.n a.batch_count
                          + gesvdjBatched_size_V_copy T a.jobz a.m a.n a.batch_count : Nat)
                            : Int))
                        (toSizeT a.lwork) w).2) := by
  constructor
  · intro hfit
    have h1 := gesvdj_V_copy_offset_eq T a hm0 hm1 hn0 hn1
    have h2 := gesvdj_work_offset_eq T a hm0 hm1 hn0 hn1 hfit
    refine ⟨h1, h2, ?_⟩
    intro lib h w hw hl hrej
    rw [← h1, ← h2]
    unfold hipsolverDnXgesvdj
    rw [if_neg (by simp), if_neg hrej, if_pos ⟨hw, hl⟩]
  · intro hb0 hb1 hfitE hfitV
    have h1 := gesvdjBatched_V_copy_offset_eq T a hm0 hm1 hn0 hn1 hb0 hb1 hfitE
    have h2 := gesvdjBatched_work_offset_eq T a hm0 hm1 hn0 hn1 hb0 hb1 hfitE hfitV
    refine ⟨h1, h2, ?_⟩
    intro lib h w hw hl hrej
    rw [← h1, ← h2]
    unfold hipsolverDnXgesvdjBatched
    rw [if_neg (by simp), if_neg hrej, if_pos ⟨hw, hl⟩]

/-! ## The bytes of `E` in the symmetric and Hermitian eigen families -/

/-- C4, as stated, fails: for hipsolverDnSsyevjBatched with n = 65536 and
batch_count = 65536 the `int` product n * batch_count wraps to 0, so the
caller-buffer path carves 0 bytes and `_bufferSize` computes size_E = 0, while
the scoped allocation, whose product is formed in `size_t`, asks for
4 * 65536 * 65536 = 17179869184 bytes. -/
theorem syevjBatched_E_bytes_differ :
    (hipsolverDnXsyevjBatched stubLib .S (some 1)
        { args0 with n := 65536, batch_count := 65536, work := true, lwork := 64 }
        stubWorld).2.log.head? = some (Call.set_workspace (.work 0) 64)
      ∧ auxSizes .syevjBatched .S { args0 with n := 65536, batch_count := 65536 } = some [0]
      ∧ Call.device_malloc [17179869184] ∈
          (hipsolverDnXsyevjBatched stubLib .S (some 1)
            { args0 with n := 65536, batch_count := 65536 } stubWorld).2.log := by
  decide

theorem syevd_carved_eq (T : Scalar) (n : Int) (hn0 : 0 ≤ n) :
    syevd_carved T n = ((sizeofReal T * n.toNat : Nat) : Int) := by
  unfold syevd_carved
  lift n to ℕ using hn0
  split
  · push_cast
    rfl
  · have : n = 0 := by omega
    subst this
    simp

theorem syevd_alloc_eq (T : Scalar) (n : Int) (hn0 : 0 ≤ n) (hn1 : n ≤ INT_MAX) :
    smul (sizeofReal T) (toSizeT n) = sizeofReal T * n.toNat := by
  have h := cast_smul1 _ (sizeofReal_le T) n hn0 hn1
  lift n to ℕ using hn0
  have h2 : ((smul (sizeofReal T) (toSizeT (n : Int)) : Nat) : Int)
      = ((sizeofReal T * n : Nat) : Int) := by
    rw [h]
    push_cast
    rfl
  exact_mod_cast h2

theorem syevd_size_E_eq (T : Scalar) (n : Int) (hn0 : 0 ≤ n) (hn1 : n ≤ INT_MAX) :
    syevd_size_E T n = sizeofReal T * n.toNat := by
  unfold syevd_size_E
  split
  · exact syevd_alloc_eq T n hn0 hn1
  · have : n = 0 := by omega
    subst this
    simp

theorem syevjBatched_alloc_eq (T : Scalar) (n b : Int) (hn0 : 0 ≤ n) (hn1 : n ≤ INT_MAX)
    (hb0 : 0 ≤ b) (hb1 : b ≤ INT_MAX) (hfit : n * b ≤ INT_MAX) :
    smul (smul (sizeofReal T) (toSizeT n)) (toSizeT b) = sizeofReal T * (n * b).toNat := by
  have h := cast_smul2 _ (sizeofReal_le T) n b hn0 hn1 hb0 hb1 hfit
  lift n to ℕ using hn0
  lift b to ℕ using hb0
  have h2 : ((smul (smul (sizeofReal T) (toSizeT (n : Int))) (toSizeT (b : Int)) : Nat) : Int)
      = ((sizeofReal T * ((n : Int) * (b : Int)).toNat : Nat) : Int) := by
    rw [h]
    push_cast
    rw [Int.toNat_of_nonneg (by positivity)]
  exact_mod_cast h2

theorem syevjBatched_carved_eq (T : Scalar) (n b : Int) (hn0 : 0 ≤ n) (hb0 : 0 ≤ b)
    (hfit : n * b ≤ INT_MAX) :
    syevjBatched_carved T n b = ((sizeofReal T * (n * b).toNat : Nat) : Int) := by
  have hnb : 0 ≤ n * b := Int.mul_nonneg hn0 hb0
  unfold syevjBatched_carved
  rw [imul_nonneg_fits n b hn0 hb0 hfit]
  split
  · push_cast
    rw [Int.toNat_of_nonneg hnb]
  · have : n * b = 0 := by omega
    rw [this]
    simp

theorem syevjBatched_size_E_eq (T : Scalar) (n b : Int) (hn0 : 0 ≤ n) (hn1 : n ≤ INT_MAX)
    (hb0 : 0 ≤ b) (hb1 : b ≤ INT_MAX) (hfit : n * b ≤ INT_MAX) :
    syevjBatched_size_E T n b = sizeofReal T * (n * b).toNat := by
  have hnb : 0 ≤ n * b := Int.mul_nonneg hn0 hb0
  unfold syevjBatched_size_E
  rw [imul_nonneg_fits n b hn0 hb0 hfit]
  split
  · exact syevjBatched_alloc_eq T n b hn0 hn1 hb0 hb1 hfit
  · have : n * b = 0 := by omega
    rw [this]
    simp

/-- C4, amended: for syevd/heevd, syevj/heevj, sygvd/hegvd and sygvj/hegvj and
every 32-bit n >= 0, the bytes carved for E from a caller buffer, the bytes
asked of the scoped allocator for E and size_E of the matching `_bufferSize`
are the same number sizeof(real) * n; for syevjBatched/heevjBatched the three
are the same number sizeof(real) * n * batch_count when n, batch_count >= 0 and
the product n * batch_count fits in an `int`. -/
theorem eig_E_bytes_agree (T : Scalar) (a : Args) (hn0 : 0 ≤ a.n) (hn1 : a.n ≤ INT_MAX) :
    (auxSizes .syevd T a = some [sizeofReal T * a.n.toNat]
        ∧ auxSizes .syevj T a = some [sizeofReal T * a.n.toNat]
        ∧ auxSizes .sygvd T a = some [sizeofReal T * a.n.toNat]
        ∧ auxSizes .sygvj T a = some [sizeofReal T * a.n.toNat]
        ∧ ∀ (lib : RocLib σ) (handle : hipsolverHandle_t) (w : World σ),
            hipsolverXsyevd lib T handle a w
                = (if a.work = true ∧ a.lwork ≠ 0 then
                    callerPath lib handle a ((sizeofReal T * a.n.toNat : Nat) : Int)
                      (fun E w1 => returnRoutine lib handle (syevd_call T a E) w1) w
                  else
                    managedPath lib .syevd T handle a (fun lwork => toSizeT lwork)
                      (sizeofReal T * a.n.toNat)
                      (fun E w1 => returnRoutine lib handle (syevd_call T a E) w1) w)
              ∧ hipsolverDnXsyevj lib T handle a w
                = (if a.work = true ∧ a.lwork ≠ 0 then
                    callerPath lib handle a ((sizeofReal T * a.n.toNat : Nat) : Int)
                      (fun E w1 => returnRoutine lib handle (syevd_call T a E) w1) w
                  else
                    managedPath lib .syevj T handle a (fun lwork => toSizeT lwork)
                      (sizeofReal T * a.n.toNat)
                      (fun E w1 => returnRoutine lib handle (syevd_call T a E) w1) w)
              ∧ hipsolverXsygvd lib T handle a w
                = (if a.work = true ∧ a.lwork ≠ 0 then
                    callerPath lib handle a ((sizeofReal T * a.n.toNat : Nat) : Int)
                      (fun E w1 => returnRoutine lib handle (sygvd_call T a E) w1) w
                  else
                    managedPath lib .sygvd T handle a (fun lwork => toSizeT lwork)
                      (sizeofReal T * a.n.toNat)
                      (fun E w1 => returnRoutine lib handle (sygvd_call T a E) w1) w)
              ∧ hipsolverDnXsygvj lib T handle a w
                = (if a.work = true ∧ a.lwork ≠ 0 then
                    callerPath lib handle a ((sizeofReal T * a.n.toNat : Nat) : Int)
                      (fun E w1 => returnRoutine lib handle (sygvd_call T a E) w1) w
                  else
                    managedPath lib .sygvj T handle a
                      (fun lwork => sadd (toSizeT lwork) (sizeofReal T * a.n.toNat))
                      (sizeofReal T * a.n.toNat)
                      (fun E w1 => returnRoutine lib handle (sygvd_call T a E) w1) w))
      ∧ (0 ≤ a.batch_count → a.batch_count ≤ INT_MAX → a.n * a.batch_count ≤ INT_MAX →
          auxSizes .syevjBatched T a = some [sizeofReal T * (a.n * a.batch_count).toNat]
            ∧ ∀ (lib : RocLib σ) (handle : hipsolverHandle_t) (w : World σ),
              hipsolverDnXsyevjBatched lib T handle a w
                = (if a.work = true ∧ a.lwork ≠ 0 then
                    callerPath lib handle a
                      ((sizeofReal T * (a.n * a.batch_count).toNat : Nat) : Int)
                      (fun E w1 => returnRoutine lib handle (syevjBatched_call T a E) w1) w
                  else
                    managedPath lib .syevjBatched T handle a (fun lwork => toSizeT lwork)
                      (sizeofReal T * (a.n * a.batch_count).toNat)
                      (fun E w1 => returnRoutine lib handle (syevjBatched_call T a E) w1) w)) := by
  have hc := syevd_carved_eq T a.n hn0
  have ha := syevd_alloc_eq T a.n hn0 hn1
  have hs := syevd_size_E_eq T a.n hn0 hn1
  refine ⟨⟨by simp [auxSizes, hs], by simp [auxSizes, hs], by simp [auxSizes, hs],
    by simp [auxSizes, hs], ?_⟩, ?_⟩
  · intro lib handle w
    unfold hipsolverXsyevd hipsolverDnXsyevj hipsolverXsygvd hipsolverDnXsygvj
    rw [hc, ha]
    exact ⟨rfl, rfl, rfl, rfl⟩
  · intro hb0 hb1 hfit
    have hcb := syevjBatched_carved_eq T a.n a.batch_count hn0 hb0 hfit
    have hab := syevjBatched_alloc_eq T a.n a.batch_count hn0 hn1 hb0 hb1 hfit
    have hsb := syevjBatched_size_E_eq T a.n a.batch_count hn0 hn1 hb0 hb1 hfit
    refine ⟨by simp [auxSizes, hsb], ?_⟩
    intro lib handle w
    unfold hipsolverDnXsyevjBatched
    rw [hcb, hab]

/-- Witness of `eig_E_bytes_agree`: for hipsolverZheevd with n = 3 the size
query adds 24 bytes for E, and for hipsolverDnZheevjBatched with
batch_count = 2 it adds 48. -/
theorem eig_E_bytes_agree_witness :
    auxSizes .syevd .Z { args0 with n := 3, batch_count := 2 } = some [24]
      ∧ auxSizes .syevjBatched .Z { args0 with n := 3, batch_count := 2 } = some [48] :=
  ⟨(@eig_E_bytes_agree StubState .Z { args0 with n := 3, batch_count := 2 }
      (by decide) (by decide)).1.1,
   ((@eig_E_bytes_agree StubState .Z { args0 with n := 3, batch_count := 2 }
      (by decide) (by decide)).2 (by decide) (by decide) (by decide)).1⟩

/-! ## The reservation request of sygvj -/

/-- C5, the code at the failing input: hipsolverDnSsygvj_bufferSize with n = 3
reports 1036 bytes on the stub (1024 for the routine and 12 for E), and
hipsolverDnSsygvj without a caller buffer then asks the handle for 1048 bytes,
the reported size plus sizeof(float) * n once more; hipsolverSsygvd on the same
input asks for the reported 1036 bytes. -/
theorem sygvj_requests_lwork_plus_E :
    (bufferSize stubLib .sygvj .S (some 1) true
        { args0 with n := 3, lda := 3, ldb := 3 } stubWorld).lwork = some 1036
      ∧ Call.set_device_memory_size 1048 ∈
          (hipsolverDnXsygvj stubLib .S (some 1)
            { args0 with n := 3, lda := 3, ldb := 3 } stubWorld).2.log
      ∧ Call.set_device_memory_size 1036 ∉
          (hipsolverDnXsygvj stubLib .S (some 1)
            { args0 with n := 3, lda := 3, ldb := 3 } stubWorld).2.log
      ∧ (bufferSize stubLib .sygvd .S (some 1) true
        { args0 with n := 3, lda := 3, ldb := 3 } stubWorld).lwork = some 1036
      ∧ Call.set_device_memory_size 1036 ∈
          (hipsolverXsygvd stubLib .S (some 1)
            { args0 with n := 3, lda := 3, ldb := 3 } stubWorld).2.log := by
  decide

/-! ## Zero dimensions in the size query -/

theorem sizeQuery_aux (lib : RocLib σ) (fam : Family) (T : Scalar)
    (handle : hipsolverHandle_t) (a : Args) (w : World σ) (c : RoutineCall) (sizes : List Nat)
    (hc : dryRunCalls fam T a = .ok (c, none)) (hs : auxSizes fam T a = some sizes) :
    sizeQuery lib fam T handle a w
      = .ok (rocblas2hip_status
              (rocsolver lib handle c (rocblas_start_device_memory_size_query lib handle w)).1,
          (rocblas_stop_device_memory_size_query lib handle
            (rocblas_set_optimal_device_memory_size lib handle
              ((rocblas_stop_device_memory_size_query lib handle
                  (rocsolver lib handle c
                    (rocblas_start_device_memory_size_query lib handle w)).2).1 :: sizes)
              (rocblas_start_device_memory_size_query lib handle
                (rocblas_stop_device_memory_size_query lib handle
                  (rocsolver lib handle c
                    (rocblas_start_device_memory_size_query lib handle w)).2).2))).1,
          (rocblas_stop_device_memory_size_query lib handle
            (rocblas_set_optimal_device_memory_size lib handle
              ((rocblas_stop_device_memory_size_query lib handle
                  (rocsolver lib handle c
                    (rocblas_start_device_memory_size_query lib handle w)).2).1 :: sizes)
              (rocblas_start_device_memory_size_query lib handle
                (rocblas_stop_device_memory_size_query lib handle
                  (rocsolver lib handle c
                    (rocblas_start_device_memory_size_query lib handle w)).2).2))).2) := by
  unfold sizeQuery
  simp only [hc, hs]

theorem bufferSize_of_sizeQuery (lib : RocLib σ) (fam : Family) (T : Scalar) (h : Nat)
    (a : Args) (w w1 : World σ) (status : hipsolverStatus_t) (sz : Nat)
    (hv : ¬ (fam = .gesvdj ∧ a.ldv < a.n)) (h1 : fam ≠ .gels) (h2 : fam ≠ .gesv)
    (hq : sizeQuery lib fam T (some h) a w = .ok (status, sz, w1)) :
    bufferSize lib fam T (some h) true a w
      = if status ≠ HIPSOLVER_STATUS_SUCCESS then ⟨status, some 0, w1⟩
        else if (sz : Int) > INT_MAX then ⟨HIPSOLVER_STATUS_INTERNAL_ERROR, some 0, w1⟩
        else ⟨status, some sz, w1⟩ := by
  cases fam <;> simp_all [bufferSize]

/-- C10: for the `_bufferSize` entry points of gesvd, gesvdj, gesvdjBatched
(m == 0 or n == 0) and of syevd, syevj, syevjBatched, sygvd, sygvj (n == 0),
called with non-null handle and `lwork` and arguments that pass the ldv check
of gesvdj and the enum translation: every auxiliary size is 0 whatever jobz and
econ are; the calls made are exactly start, the dry run `c`, stop, start,
`rocblas_set_optimal_device_memory_size(sz, 0[, 0])`, stop; and on success the
size reported is the one that the last stop returned for the base dry-run size
`sz` with zero auxiliary bytes. -/
theorem zero_dim_bufferSize (lib : RocLib σ) (f : AuxFamily) (T : Scalar) (h : Nat)
    (a : Args) (w : World σ) (c : RoutineCall)
    (hz : a.n = 0 ∨ (a.m = 0 ∧ (f = .gesvd ∨ f = .gesvdj ∨ f = .gesvdjBatched)))
    (hv : ¬ (f = .gesvdj ∧ a.ldv < a.n))
    (hc : dryRunCalls f.family T a = .ok (c, none)) :
    auxSizes f.family T a = some (List.replicate (auxCount f) 0)
      ∧ (bufferSize lib f.family T (some h) true a w).world.log
          = w.log ++ [.start_device_memory_size_query, .routine c,
              .stop_device_memory_size_query, .start_device_memory_size_query,
              .set_optimal_device_memory_size
                ((rocblas_stop_device_memory_size_query lib (some h)
                    (rocsolver lib (some h) c
                      (rocblas_start_device_memory_size_query lib (some h) w)).2).1
                  :: List.replicate (auxCount f) 0),
              .stop_device_memory_size_query]
      ∧ ((bufferSize lib f.family T (some h) true a w).status = HIPSOLVER_STATUS_SUCCESS →
          (bufferSize lib f.family T (some h) true a w).lwork
            = some (rocblas_stop_device_memory_size_query lib (some h)
                (rocblas_set_optimal_device_memory_size lib (some h)
                  ((rocblas_stop_device_memory_size_query lib (some h)
                      (rocsolver lib (some h) c
                        (rocblas_start_device_memory_size_query lib (some h) w)).2).1
                    :: List.replicate (auxCount f) 0)
                  (rocblas_start_device_memory_size_query lib (some h)
                    (rocblas_stop_device_memory_size_query lib (some h)
                      (rocsolver lib (some h) c
                        (rocblas_start_device_memory_size_query lib (some h) w)).2).2))).1) := by
  have hmin : (a.n = 0 ∨ a.m = 0) → ¬ (cmin a.m a.n > 0) := by
    intro h0
    unfold cmin
    split <;> omega
  have haux : auxSizes f.family T a = some (List.replicate (auxCount f) 0) := by
    cases f
    case gesvd =>
      have := hmin (by rcases hz with h1 | h1; exact Or.inl h1; exact Or.inr h1.1)
      simp [auxSizes, AuxFamily.family, auxCount, gesvd_size_E, this, List.replicate]
    case gesvdj =>
      have := hmin (by rcases hz with h1 | h1; exact Or.inl h1; exact Or.inr h1.1)
      simp [auxSizes, AuxFamily.family, auxCount, gesvdj_size_E, gesvdj_size_V_copy,
        use_V_copy, this, List.replicate]
    case gesvdjBatched =>
      have := hmin (by rcases hz with h1 | h1; exact Or.inl h1; exact Or.inr h1.1)
      simp [auxSizes, AuxFamily.family, auxCount, gesvdjBatched_size_E,
        gesvdjBatched_size_V_copy, use_V_copy, this, List.replicate]
    case syevjBatched =>
      have hn : a.n = 0 := by
        rcases hz with h1 | ⟨_, h1 | h1 | h1⟩ <;> first | exact h1 | cases h1
      simp [auxSizes, AuxFamily.family, auxCount, syevjBatched_size_E, imul, wrapInt, hn,
        List.replicate]
    all_goals
      have hn : a.n = 0 := by
        rcases hz with h1 | ⟨_, h1 | h1 | h1⟩ <;> first | exact h1 | cases h1
      simp [auxSizes, AuxFamily.family, auxCount, syevd_size_E, hn, List.replicate]
  have hfam1 : f.family ≠ .gels := by cases f <;> simp [AuxFamily.family]
  have hfam2 : f.family ≠ .gesv := by cases f <;> simp [AuxFamily.family]
  have hv2 : ¬ (f.family = .gesvdj ∧ a.ldv < a.n) := by
    intro hcon
    apply hv
    refine ⟨?_, hcon.2⟩
    cases f <;> simp_all [AuxFamily.family]
  have hq := sizeQuery_aux lib f.family T (some h) a w c _ hc haux
  have hb := bufferSize_of_sizeQuery lib f.family T h a w _ _ _ hv2 hfam1 hfam2 hq
  refine ⟨haux, ?_, ?_⟩
  · rw [hb]
    split
    · simp [rocblas_stop_device_memory_size_query, rocblas_start_device_memory_size_query,
        rocblas_set_optimal_device_memory_size, rocsolver, World.record]
    · split <;>
      simp [rocblas_stop_device_memory_size_query, rocblas_start_device_memory_size_query,
        rocblas_set_optimal_device_memory_size, rocsolver, World.record]
  · rw [hb]
    split
    · intro hs
      rename_i hne
      exact absurd hs hne
    · split
      · intro hs
        cases hs
      · intro _
        rfl

/-- Witness of `zero_dim_bufferSize`: hipsolverDnSgesvdj_bufferSize with
jobz = VECTOR and m = n = 0 on the stub negotiates `[1024, 0, 0]` after the dry
run. -/
theorem zero_dim_bufferSize_witness :
    auxSizes .gesvdj .S { args0 with jobz := .HIPSOLVER_EIG_MODE_VECTOR } = some [0, 0]
      ∧ (bufferSize stubLib .gesvdj .S (some 1) true
          { args0 with jobz := .HIPSOLVER_EIG_MODE_VECTOR } stubWorld).world.log
        = stubWorld.log ++ [.start_device_memory_size_query,
            .routine ⟨.gesvd, .S,
              [.svect .rocblas_svect_all, .svect .rocblas_svect_all, .int 0, .int 0,
               .ptr .nullptr, .int 1, .ptr .nullptr, .ptr .nullptr, .int 1, .ptr .nullptr,
               .int 1, .ptr .nullptr, .workmode .rocblas_outofplace, .ptr .nullptr]⟩,
            .stop_device_memory_size_query, .start_device_memory_size_query,
            .set_optimal_device_memory_size [1024, 0, 0],
            .stop_device_memory_size_query] :=
  ⟨(zero_dim_bufferSize stubLib .gesvdj .S 1
      { args0 with jobz := .HIPSOLVER_EIG_MODE_VECTOR } stubWorld
      ⟨.gesvd, .S,
        [.svect .rocblas_svect_all, .svect .rocblas_svect_all, .int 0, .int 0,
         .ptr .nullptr, .int 1, .ptr .nullptr, .ptr .nullptr, .int 1, .ptr .nullptr,
         .int 1, .ptr .nullptr, .workmode .rocblas_outofplace, .ptr .nullptr]⟩
      (Or.inl rfl) (by decide) rfl).1,
   (zero_dim_bufferSize stubLib .gesvdj .S 1
      { args0 with jobz := .HIPSOLVER_EIG_MODE_VECTOR } stubWorld
      ⟨.gesvd, .S,
        [.svect .rocblas_svect_all, .svect .rocblas_svect_all, .int 0, .int 0,
         .ptr .nullptr, .int 1, .ptr .nullptr, .ptr .nullptr, .int 1, .ptr .nullptr,
         .int 1, .ptr .nullptr, .workmode .rocblas_outofplace, .ptr .nullptr]⟩
      (Or.inl rfl) (by decide) rfl).2.1⟩

/-! ## The enum mappings -/

/-- C18: for each of the five two-way mappings (operation, fill, side,
eigen-mode, eigen-type), translating a listed hipSOLVER value to rocBLAS and
back gives the value again, and translating a listed rocBLAS value to hipSOLVER
and back gives the value again; so each `hip2rocblas_X` is a bijection between
the two listed domains, with `rocblas2hip_X` as its inverse. -/
theorem enum_round_trip :
    (∀ x y, hip2rocblas_operation x = .ok y → rocblas2hip_operation y = .ok x)
      ∧ (∀ y x, rocblas2hip_operation y = .ok x → hip2rocblas_operation x = .ok y)
      ∧ (∀ x y, hip2rocblas_fill x = .ok y → rocblas2hip_fill y = .ok x)
      ∧ (∀ y x, rocblas2hip_fill y = .ok x → hip2rocblas_fill x = .ok y)
      ∧ (∀ x y, hip2rocblas_side x = .ok y → rocblas2hip_side y = .ok x)
      ∧ (∀ y x, rocblas2hip_side y = .ok x → hip2rocblas_side x = .ok y)
      ∧ (∀ x y, hip2rocblas_evect x = .ok y → rocblas2hip_evect y = .ok x)
      ∧ (∀ y x, rocblas2hip_evect y = .ok x → hip2rocblas_evect x = .ok y)
      ∧ (∀ x y, hip2rocblas_eform x = .ok y → rocblas2hip_eform y = .ok x)
      ∧ (∀ y x, rocblas2hip_eform y = .ok x → hip2rocblas_eform x = .ok y) := by
  refine ⟨?_, ?_, ?_, ?_, ?_, ?_, ?_, ?_, ?_, ?_⟩ <;>
    (intro x y hxy
     cases x <;> cases y <;>
       simp_all [hip2rocblas_operation, rocblas2hip_operation, hip2rocblas_fill,
         rocblas2hip_fill, hip2rocblas_side, rocblas2hip_side, hip2rocblas_evect,
         rocblas2hip_evect, hip2rocblas_eform, rocblas2hip_eform])

/-- Witness of `enum_round_trip`: HIPSOLVER_OP_C goes to
rocblas_operation_conjugate_transpose and back, and rocblas_eform_bax goes to
HIPSOLVER_EIG_TYPE_3 and back. -/
theorem enum_round_trip_witness :
    hip2rocblas_operation .HIPSOLVER_OP_C = .ok .rocblas_operation_conjugate_transpose
      ∧ rocblas2hip_operation .rocblas_operation_conjugate_transpose = .ok .HIPSOLVER_OP_C
      ∧ rocblas2hip_eform .rocblas_eform_bax = .ok .HIPSOLVER_EIG_TYPE_3
      ∧ hip2rocblas_eform .HIPSOLVER_EIG_TYPE_3 = .ok .rocblas_eform_bax :=
  ⟨rfl, enum_round_trip.1 .HIPSOLVER_OP_C .rocblas_operation_conjugate_transpose rfl, rfl,
   enum_round_trip.2.2.2.2.2.2.2.2.2 .rocblas_eform_bax .HIPSOLVER_EIG_TYPE_3 rfl⟩

/-- C19: each of the twelve enum mappings signals HIPSOLVER_STATUS_INVALID_ENUM
for every input value that is not one of its listed cases (for
`hip2rocblas_evect2svect` whatever `econ` is); it returns no output for such a
value, and it signals nothing but HIPSOLVER_STATUS_INVALID_ENUM. -/
theorem enum_unlisted_is_invalid_enum (raw econ : Int) :
    hip2rocblas_operation (.invalid raw) = .error HIPSOLVER_STATUS_INVALID_ENUM
      ∧ rocblas2hip_operation (.invalid raw) = .error HIPSOLVER_STATUS_INVALID_ENUM
      ∧ hip2rocblas_fill (.invalid raw) = .error HIPSOLVER_STATUS_INVALID_ENUM
      ∧ rocblas2hip_fill (.invalid raw) = .error HIPSOLVER_STATUS_INVALID_ENUM
      ∧ hip2rocblas_side (.invalid raw) = .error HIPSOLVER_STATUS_INVALID_ENUM
      ∧ rocblas2hip_side (.invalid raw) = .error HIPSOLVER_STATUS_INVALID_ENUM
      ∧ hip2rocblas_evect (.invalid raw) = .error HIPSOLVER_STATUS_INVALID_ENUM
      ∧ rocblas2hip_evect (.invalid raw) = .error HIPSOLVER_STATUS_INVALID_ENUM
      ∧ hip2rocblas_eform (.invalid raw) = .error HIPSOLVER_STATUS_INVALID_ENUM
      ∧ rocblas2hip_eform (.invalid raw) = .error HIPSOLVER_STATUS_INVALID_ENUM
      ∧ hip2rocblas_side2storev (.invalid raw) = .error HIPSOLVER_STATUS_INVALID_ENUM
      ∧ hip2rocblas_evect2svect (.invalid raw) econ = .error HIPSOLVER_STATUS_INVALID_ENUM
      ∧ (∀ x e, hip2rocblas_operation x = .error e → e = HIPSOLVER_STATUS_INVALID_ENUM)
      ∧ (∀ x e, rocblas2hip_operation x = .error e → e = HIPSOLVER_STATUS_INVALID_ENUM)
      ∧ (∀ x e, hip2rocblas_fill x = .error e → e = HIPSOLVER_STATUS_INVALID_ENUM)
      ∧ (∀ x e, rocblas2hip_fill x = .error e → e = HIPSOLVER_STATUS_INVALID_ENUM)
      ∧ (∀ x e, hip2rocblas_side x = .error e → e = HIPSOLVER_STATUS_INVALID_ENUM)
      ∧ (∀ x e, rocblas2hip_side x = .error e → e = HIPSOLVER_STATUS_INVALID_ENUM)
      ∧ (∀ x e, hip2rocblas_evect x = .error e → e = HIPSOLVER_STATUS_INVALID_ENUM)
      ∧ (∀ x e, rocblas2hip_evect x = .error e → e = HIPSOLVER_STATUS_INVALID_ENUM)
      ∧ (∀ x e, hip2rocblas_eform x = .error e → e = HIPSOLVER_STATUS_INVALID_ENUM)
      ∧ (∀ x e, rocblas2hip_eform x = .error e → e = HIPSOLVER_STATUS_INVALID_ENUM)
      ∧ (∀ x e, hip2rocblas_side2storev x = .error e → e = HIPSOLVER_STATUS_INVALID_ENUM)
      ∧ (∀ x k e, hip2rocblas_evect2svect x k = .error e
          → e = HIPSOLVER_STATUS_INVALID_ENUM) := by
  refine ⟨rfl, rfl, rfl, rfl, rfl, rfl, rfl, rfl, rfl, rfl, rfl, rfl,
    ?_, ?_, ?_, ?_, ?_, ?_, ?_, ?_, ?_, ?_, ?_, ?_⟩
  all_goals first
    | (intro x e hx
       cases x <;>
         simp_all [hip2rocblas_operation, rocblas2hip_operation, hip2rocblas_fill,
           rocblas2hip_fill, hip2rocblas_side, rocblas2hip_side, hip2rocblas_evect,
           rocblas2hip_evect, hip2rocblas_eform, rocblas2hip_eform, hip2rocblas_side2storev])
    | (intro x k e hx
       cases x <;> simp_all [hip2rocblas_evect2svect]
       split at hx <;> simp_all)

/-- Witness of `enum_unlisted_is_invalid_enum`: the unlisted fill value 123
makes `hip2rocblas_fill` signal HIPSOLVER_STATUS_INVALID_ENUM. -/
theorem enum_unlisted_is_invalid_enum_witness :
    hip2rocblas_fill (.invalid 123) = .error HIPSOLVER_STATUS_INVALID_ENUM
      ∧ HIPSOLVER_STATUS_INVALID_ENUM = HIPSOLVER_STATUS_INVALID_ENUM :=
  ⟨(enum_unlisted_is_invalid_enum 123 0).2.2.1,
   (enum_unlisted_is_invalid_enum 123 0).2.2.2.2.2.2.2.2.2.2.2.2.2.2.1 (.invalid 123) _
     (enum_unlisted_is_invalid_enum 123 0).2.2.1⟩

/-- C20: `char2rocblas_svect` maps the letters N, A, S and O to svect_none,
svect_all, svect_singular and svect_overwrite, four distinct results, and
fails with HIPSOLVER_STATUS_INVALID_VALUE for every other value, the
lower-case letters n, a, s and o among them. -/
theorem char2rocblas_svect_table :
    (('N'.toNat : Int) = 78 ∧ ('A'.toNat : Int) = 65 ∧ ('S'.toNat : Int) = 83
        ∧ ('O'.toNat : Int) = 79)
      ∧ char2rocblas_svect 'N'.toNat = .ok .rocblas_svect_none
      ∧ char2rocblas_svect 'A'.toNat = .ok .rocblas_svect_all
      ∧ char2rocblas_svect 'S'.toNat = .ok .rocblas_svect_singular
      ∧ char2rocblas_svect 'O'.toNat = .ok .rocblas_svect_overwrite
      ∧ [rocblas_svect_.rocblas_svect_none, .rocblas_svect_all, .rocblas_svect_singular,
          .rocblas_svect_overwrite].Nodup
      ∧ (∀ c : Int, c ≠ 'N'.toNat → c ≠ 'A'.toNat → c ≠ 'S'.toNat → c ≠ 'O'.toNat →
          char2rocblas_svect c = .error HIPSOLVER_STATUS_INVALID_VALUE)
      ∧ char2rocblas_svect 'n'.toNat = .error HIPSOLVER_STATUS_INVALID_VALUE
      ∧ char2rocblas_svect 'a'.toNat = .error HIPSOLVER_STATUS_INVALID_VALUE
      ∧ char2rocblas_svect 's'.toNat = .error HIPSOLVER_STATUS_INVALID_VALUE
      ∧ char2rocblas_svect 'o'.toNat = .error HIPSOLVER_STATUS_INVALID_VALUE := by
  refine ⟨by decide, rfl, rfl, rfl, rfl, by decide, ?_, rfl, rfl, rfl, rfl⟩
  intro c hN hA hS hO
  have e1 : (('N'.toNat : Nat) : Int) = 78 := by decide
  have e2 : (('A'.toNat : Nat) : Int) = 65 := by decide
  have e3 : (('S'.toNat : Nat) : Int) = 83 := by decide
  have e4 : (('O'.toNat : Nat) : Int) = 79 := by decide
  rw [e1] at hN
  rw [e2] at hA
  rw [e3] at hS
  rw [e4] at hO
  simp [char2rocblas_svect, hN, hA, hS, hO]

/-- Witness of `char2rocblas_svect_table`: the digit 0 (code 48) is rejected. -/
theorem char2rocblas_svect_table_witness :
    char2rocblas_svect 48 = .error HIPSOLVER_STATUS_INVALID_VALUE :=
  char2rocblas_svect_table.2.2.2.2.2.2.1 48 (by decide) (by decide) (by decide) (by decide)

/-! ## The auxiliary byte counts of gesvdj -/

theorem toSizeT_pos_toNat (x : Int) (h0 : 0 < x) (h1 : x ≤ INT_MAX) : toSizeT x = x.toNat :=
  toSizeT_eq_toNat x (by omega) h1

/-- The local `size_E` and `size_V_copy` of the gesvdj size queries as
products modulo `2^64`. -/
theorem gesvdj_size_formulas (T : Scalar) (jobz : hipsolverEigMode_t)
    (econ m n batch_count : Int)
    (hmin : cmin m n > 0) (hm : m ≤ INT_MAX) (hn : n ≤ INT_MAX) :
    gesvdj_size_E T m n = (sizeofReal T * (cmin m n).toNat) % 2 ^ 64
      ∧ gesvdj_size_E T m n = sizeofReal T * (cmin m n).toNat
      ∧ gesvdjBatched_size_E T m n batch_count
          = (sizeofReal T * (cmin m n).toNat * toSizeT batch_count) % 2 ^ 64
      ∧ (jobz ≠ .HIPSOLVER_EIG_MODE_NOVECTOR →
          gesvdj_size_V_copy T jobz econ m n
              = (sizeofT T * (if econ ≠ 0 then cmin m n else n).toNat * n.toNat) % 2 ^ 64
            ∧ gesvdjBatched_size_V_copy T jobz m n batch_count
              = (sizeofT T * n.toNat * n.toNat * toSizeT batch_count) % 2 ^ 64)
      ∧ (0 ≤ batch_count → batch_count ≤ INT_MAX → toSizeT batch_count = batch_count.toNat)
      ∧ (sizeofReal .S = 4 ∧ sizeofReal .D = 8 ∧ sizeofReal .C = 4 ∧ sizeofReal .Z = 8)
      ∧ (sizeofT .S = 4 ∧ sizeofT .D = 8 ∧ sizeofT .C = 8 ∧ sizeofT .Z = 16) := by
  have hn0 : 0 < n := by unfold cmin at hmin; split at hmin <;> omega
  have hm0 : 0 < m := by unfold cmin at hmin; split at hmin <;> omega
  have hc1 : cmin m n ≤ INT_MAX := cmin_le_max m n hm hn
  have hl0 : 0 < (if econ ≠ 0 then cmin m n else n) := by split <;> assumption
  have hl1 : (if econ ≠ 0 then cmin m n else n) ≤ INT_MAX := by split <;> assumption
  have hE : gesvdj_size_E T m n = (sizeofReal T * (cmin m n).toNat) % 2 ^ 64 := by
    unfold gesvdj_size_E
    rw [if_pos hmin, toSizeT_pos_toNat _ hmin hc1]
    rfl
  have hfit : sizeofReal T * (cmin m n).toNat < 2 ^ 64 := by
    have h1 : (cmin m n).toNat ≤ 2147483647 := by unfold INT_MAX at hc1; omega
    calc sizeofReal T * (cmin m n).toNat ≤ 16 * 2147483647 :=
          Nat.mul_le_mul (sizeofReal_le T) h1
      _ < 2 ^ 64 := by decide
  refine ⟨hE, ?_, ?_, ?_, ?_, by decide, by decide⟩
  · rw [hE, Nat.mod_eq_of_lt hfit]
  · unfold gesvdjBatched_size_E
    rw [if_pos hmin, toSizeT_pos_toNat _ hmin hc1, smul_smul]
    rfl
  · intro hj
    have hu : use_V_copy jobz m n = true := by simp [use_V_copy, hmin, hj]
    constructor
    · unfold gesvdj_size_V_copy
      rw [if_pos hu, toSizeT_pos_toNat _ hl0 hl1, toSizeT_pos_toNat _ hn0 hn, smul_smul]
      rfl
    · unfold gesvdjBatched_size_V_copy
      rw [if_pos hu, toSizeT_pos_toNat _ hn0 hn, smul_smul_smul]
      rfl
  · intro hb0 hb1
    exact toSizeT_eq_toNat _ hb0 hb1

/-! ## The transpose pass of gesvdj -/

/-- C17: in hipsolverDn{S,D,C,Z}gesvdj and the Batched variants (whose part
after the workspace preparation is `gesvdj_compute`, respectively
`gesvdjBatched_compute`, in both workspace paths of the entry point), once the
SVD call `c` has returned rocblas_status_success: with
jobz == NOVECTOR nothing else is called and the result is
HIPSOLVER_STATUS_SUCCESS; with jobz != NOVECTOR exactly one more call is
made, the geam that reads V_copy with leading dimension ldv_copy twice, with
alpha pointing to one and beta to zero, and writes the caller's V with leading
dimension ldv, transposed for S and D and conjugate-transposed for C and Z,
and the translated status of that call is the result. -/
theorem gesvdj_transpose_pass (lib : RocLib σ) (T : Scalar) (handle : hipsolverHandle_t)
    (a : Args) (E V_copy : DevPtr) (w : World σ) :
    (∀ c, gesvdj_call T a E V_copy = .ok c →
        (rocsolver lib handle c w).1 = rocblas_status_success →
        (a.jobz = .HIPSOLVER_EIG_MODE_NOVECTOR →
            (gesvdj_compute lib T handle a E V_copy w).1 = HIPSOLVER_STATUS_SUCCESS
              ∧ (gesvdj_compute lib T handle a E V_copy w).2.log = w.log ++ [.routine c])
          ∧ (a.jobz ≠ .HIPSOLVER_EIG_MODE_NOVECTOR →
            (gesvdj_compute lib T handle a E V_copy w).1
                = rocblas2hip_status (lib.routine handle
                    ⟨.geam, T,
                      [.operation (match T with
                          | .S => .rocblas_operation_transpose
                          | .D => .rocblas_operation_transpose
                          | .C => .rocblas_operation_conjugate_transpose
                          | .Z => .rocblas_operation_conjugate_transpose),
                       .operation .rocblas_operation_none, .int a.n,
                       .int (gesvdj_ldv_copy a), .one, .ptr V_copy,
                       .int (gesvdj_ldv_copy a), .zero, .ptr V_copy,
                       .int (gesvdj_ldv_copy a), .ptr (.param .V), .int a.ldv]⟩
                    (lib.routine handle c w.st).2).1
              ∧ (gesvdj_compute lib T handle a E V_copy w).2.log
                = w.log ++ [.routine c,
                    .routine ⟨.geam, T,
                      [.operation (match T with
                          | .S => .rocblas_operation_transpose
                          | .D => .rocblas_operation_transpose
                          | .C => .rocblas_operation_conjugate_transpose
                          | .Z => .rocblas_operation_conjugate_transpose),
                       .operation .rocblas_operation_none, .int a.n,
                       .int (gesvdj_ldv_copy a), .one, .ptr V_copy,
                       .int (gesvdj_ldv_copy a), .zero, .ptr V_copy,
                       .int (gesvdj_ldv_copy a), .ptr (.param .V), .int a.ldv]⟩]))
      ∧ (∀ c, gesvdjBatched_call T a E V_copy = .ok c →
        (rocsolver lib handle c w).1 = rocblas_status_success →
        (a.jobz = .HIPSOLVER_EIG_MODE_NOVECTOR →
            (gesvdjBatched_compute lib T handle a E V_copy w).1 = HIPSOLVER_STATUS_SUCCESS
              ∧ (gesvdjBatched_compute lib T handle a E V_copy w).2.log
                = w.log ++ [.routine c])
          ∧ (a.jobz ≠ .HIPSOLVER_EIG_MODE_NOVECTOR →
            (gesvdjBatched_compute lib T handle a E V_copy w).1
                = rocblas2hip_status (lib.routine handle
                    ⟨.geam_strided_batched, T,
                      [.operation (match T with
                          | .S => .rocblas_operation_transpose
                          | .D => .rocblas_operation_transpose
                          | .C => .rocblas_operation_conjugate_transpose
                          | .Z => .rocblas_operation_conjugate_transpose),
                       .operation .rocblas_operation_none, .int a.n,
                       .int (gesvdjBatched_ldv_copy a), .one, .ptr V_copy,
                       .int (gesvdjBatched_ldv_copy a),
                       .int (imul (gesvdjBatched_ldv_copy a) a.n), .zero, .ptr V_copy,
                       .int (gesvdjBatched_ldv_copy a),
                       .int (imul (gesvdjBatched_ldv_copy a) a.n), .ptr (.param .V),
                       .int a.ldv, .int (imul a.ldv a.n), .int a.batch_count]⟩
                    (lib.routine handle c w.st).2).1
              ∧ (gesvdjBatched_compute lib T handle a E V_copy w).2.log
                = w.log ++ [.routine c,
                    .routine ⟨.geam_strided_batched, T,
                      [.operation (match T with
                          | .S => .rocblas_operation_transpose
                          | .D => .rocblas_operation_transpose
                          | .C => .rocblas_operation_conjugate_transpose
                          | .Z => .rocblas_operation_conjugate_transpose),
                       .operation .rocblas_operation_none, .int a.n,
                       .int (gesvdjBatched_ldv_copy a), .one, .ptr V_copy,
                       .int (gesvdjBatched_ldv_copy a),
                       .int (imul (gesvdjBatched_ldv_copy a) a.n), .zero, .ptr V_copy,
                       .int (gesvdjBatched_ldv_copy a),
                       .int (imul (gesvdjBatched_ldv_copy a) a.n), .ptr (.param .V),
                       .int a.ldv, .int (imul a.ldv a.n), .int a.batch_count]⟩]))
      ∧ (∀ h : Nat,
          ¬ (use_V_copy a.jobz a.m a.n = true ∧ (a.ldv < a.n ∨ a.V = false)) →
          (a.work = true ∧ a.lwork ≠ 0 →
            (rocblas_set_workspace lib (some h) (.work (gesvdj_work_offset T a))
              (toSizeT a.lwork) w).1 = rocblas_status_success →
            hipsolverDnXgesvdj lib T (some h) a w
              = gesvdj_compute lib T (some h) a (.work 0) (.work (gesvdj_V_copy_offset T a))
                  (rocblas_set_workspace lib (some h) (.work (gesvdj_work_offset T a))
                    (toSizeT a.lwork) w).2)
          ∧ (¬ (a.work = true ∧ a.lwork ≠ 0) →
            (bufferSize lib .gesvdj T (some h) true a w).status = HIPSOLVER_STATUS_SUCCESS →
            (hipsolverManageWorkspace lib (some h)
              (toSizeT (lworkAfter a (bufferSize lib .gesvdj T (some h) true a w)))
              (bufferSize lib .gesvdj T (some h) true a w).world).1
                = rocblas_status_success →
            (rocblas_device_malloc lib (some h)
              [smul (sizeofReal T) (toSizeT (cmin a.m a.n)), gesvdj_exec_size_V_copy T a]
              (hipsolverManageWorkspace lib (some h)
                (toSizeT (lworkAfter a (bufferSize lib .gesvdj T (some h) true a w)))
                (bufferSize lib .gesvdj T (some h) true a w).world).2).1 = true →
            hipsolverDnXgesvdj lib T (some h) a w
              = gesvdj_compute lib T (some h) a (.mem 0) (.mem 1)
                  (rocblas_device_malloc lib (some h)
                    [smul (sizeofReal T) (toSizeT (cmin a.m a.n)),
                     gesvdj_exec_size_V_copy T a]
                    (hipsolverManageWorkspace lib (some h)
                      (toSizeT (lworkAfter a (bufferSize lib .gesvdj T (some h) true a w)))
                      (bufferSize lib .gesvdj T (some h) true a w).world).2).2))
      ∧ (∀ h : Nat,
          ¬ (use_V_copy a.jobz a.m a.n = true ∧ (a.ldv < a.n ∨ a.V = false)) →
          (a.work = true ∧ a.lwork ≠ 0 →
            (rocblas_set_workspace lib (some h) (.work (gesvdjBatched_work_offset T a))
              (toSizeT a.lwork) w).1 = rocblas_status_success →
            hipsolverDnXgesvdjBatched lib T (some h) a w
              = gesvdjBatched_compute lib T (some h) a (.work 0) (.work (gesvdjBatched_V_copy_offset T a))
                  (rocblas_set_workspace lib (some h) (.work (gesvdjBatched_work_offset T a))
                    (toSizeT a.lwork) w).2)
          ∧ (¬ (a.work = true ∧ a.lwork ≠ 0) →
            (bufferSize lib .gesvdjBatched T (some h) true a w).status = HIPSOLVER_STATUS_SUCCESS →
            (hipsolverManageWorkspace lib (some h)
              (toSizeT (lworkAfter a (bufferSize lib .gesvdjBatched T (some h) true a w)))
              (bufferSize lib .gesvdjBatched T (some h) true a w).world).1
                = rocblas_status_success →
            (rocblas_device_malloc lib (some h)
              [smul (smul (sizeofReal T) (toSizeT (cmin a.m a.n))) (toSizeT a.batch_count),
               gesvdjBatched_exec_size_V_copy T a]
              (hipsolverManageWorkspace lib (some h)
                (toSizeT (lworkAfter a (bufferSize lib .gesvdjBatched T (some h) true a w)))
                (bufferSize lib .gesvdjBatched T (some h) true a w).world).2).1 = true →
            hipsolverDnXgesvdjBatched lib T (some h) a w
              = gesvdjBatched_compute lib T (some h) a (.mem 0) (.mem 1)
                  (rocblas_device_malloc lib (some h)
                    [smul (smul (sizeofReal T) (toSizeT (cmin a.m a.n))) (toSizeT a.batch_count),
                     gesvdjBatched_exec_size_V_copy T a]
                    (hipsolverManageWorkspace lib (some h)
                      (toSizeT (lworkAfter a (bufferSize lib .gesvdjBatched T (some h) true a w)))
                      (bufferSize lib .gesvdjBatched T (some h) true a w).world).2).2)) := by
  refine ⟨?_, ?_, ?_, ?_⟩
  rotate_left 2
  · intro h hrej
    constructor
    · intro hwl hs
      unfold hipsolverDnXgesvdj
      rw [if_neg (by simp), if_neg hrej, if_pos hwl]
      simp only [hs, CHECK_ROCBLAS_ERROR]
      rfl
    · intro hwl hb hg hm
      unfold hipsolverDnXgesvdj
      rw [if_neg (by simp), if_neg hrej, if_neg hwl]
      simp only [hb, hg, hm, CHECK_ROCBLAS_ERROR, CHECK_HIPSOLVER_ERROR]
      rfl
  · intro h hrej
    constructor
    · intro hwl hs
      unfold hipsolverDnXgesvdjBatched
      rw [if_neg (by simp), if_neg hrej, if_pos hwl]
      simp only [hs, CHECK_ROCBLAS_ERROR]
      rfl
    · intro hwl hb hg hm
      unfold hipsolverDnXgesvdjBatched
      rw [if_neg (by simp), if_neg hrej, if_neg hwl]
      simp only [hb, hg, hm, CHECK_ROCBLAS_ERROR, CHECK_HIPSOLVER_ERROR]
      rfl
  · intro c hc hs
    have hchk : CHECK_ROCBLAS_ERROR (rocsolver lib handle c w).1 = none := by
      rw [hs]
      rfl
    constructor
    · intro hj
      unfold gesvdj_compute
      rw [hc]
      simp only [hchk, hj]
      simp [rocsolver, World.record]
    · intro hj
      unfold gesvdj_compute
      rw [hc]
      simp only [hchk]
      rw [if_pos hj]
      cases T <;> simp [rocsolver, World.record, gesvdj_geam, geam_trans]
  · intro c hc hs
    have hchk : CHECK_ROCBLAS_ERROR (rocsolver lib handle c w).1 = none := by
      rw [hs]
      rfl
    constructor
    · intro hj
      unfold gesvdjBatched_compute
      rw [hc]
      simp only [hchk, hj]
      simp [rocsolver, World.record]
    · intro hj
      unfold gesvdjBatched_compute
      rw [hc]
      simp only [hchk]
      rw [if_pos hj]
      cases T <;> simp [rocsolver, World.record, gesvdjBatched_geam, geam_trans]

/-- Witness of `gesvdj_transpose_pass`: hipsolverDnSgesvdj with jobz = VECTOR,
m = n = 2 on the stub calls gesvd and then geam once; and
hipsolverDnSgesvdjBatched with jobz = VECTOR, m = 3, n = 2, batch_count = 5 and
a caller buffer continues, after installing the workspace, with its compute
step on E = work and V_copy = work + 40 bytes. -/
theorem gesvdj_transpose_pass_witness :
    (gesvdj_compute stubLib .S (some 1)
        { args0 with jobz := .HIPSOLVER_EIG_MODE_VECTOR, m := 2, n := 2, lda := 2, ldu := 2,
                     ldv := 2 } (.work 0) (.work 8) stubWorld).2.log
      = stubWorld.log ++ [.routine ⟨.gesvd, .S,
          [.svect .rocblas_svect_all, .svect .rocblas_svect_all, .int 2, .int 2,
           .ptr (.param .A), .int 2, .ptr (.param .S), .ptr (.param .U), .int 2,
           .ptr (.work 8), .int 2, .ptr (.work 0), .workmode .rocblas_outofplace,
           .ptr (.param .devInfo)]⟩,
        .routine ⟨.geam, .S,
          [.operation .rocblas_operation_transpose, .operation .rocblas_operation_none,
           .int 2, .int 2, .one, .ptr (.work 8), .int 2, .zero, .ptr (.work 8), .int 2,
           .ptr (.param .V), .int 2]⟩]
      ∧ hipsolverDnXgesvdjBatched stubLib .S (some 1)
          { args0 with jobz := .HIPSOLVER_EIG_MODE_VECTOR, m := 3, n := 2, lda := 3, ldu := 3,
                       ldv := 2, batch_count := 5, work := true, lwork := 4096 } stubWorld
        = gesvdjBatched_compute stubLib .S (some 1)
            { args0 with jobz := .HIPSOLVER_EIG_MODE_VECTOR, m := 3, n := 2, lda := 3, ldu := 3,
                         ldv := 2, batch_count := 5, work := true, lwork := 4096 }
            (.work 0) (.work 40)
            (rocblas_set_workspace stubLib (some 1) (.work 120) (toSizeT 4096) stubWorld).2 :=
  ⟨(((gesvdj_transpose_pass stubLib .S (some 1)
      { args0 with jobz := .HIPSOLVER_EIG_MODE_VECTOR, m := 2, n := 2, lda := 2, ldu := 2,
                   ldv := 2 } (.work 0) (.work 8) stubWorld).1
      ⟨.gesvd, .S,
        [.svect .rocblas_svect_all, .svect .rocblas_svect_all, .int 2, .int 2,
         .ptr (.param .A), .int 2, .ptr (.param .S), .ptr (.param .U), .int 2,
         .ptr (.work 8), .int 2, .ptr (.work 0), .workmode .rocblas_outofplace,
         .ptr (.param .devInfo)]⟩ rfl rfl).2 (by decide)).2,
   ((gesvdj_transpose_pass stubLib .S (some 1)
      { args0 with jobz := .HIPSOLVER_EIG_MODE_VECTOR, m := 3, n := 2, lda := 3, ldu := 3,
                   ldv := 2, batch_count := 5, work := true, lwork := 4096 }
      (.work 0) (.work 40) stubWorld).2.2.2 1 (by decide)).1 ⟨rfl, by decide⟩ rfl⟩

/-! ## In-place and out-of-place solvers -/

/-- C16: for hipsolver{SS,DD,CC,ZZ}gesv and hipsolver{SS,DD,CC,ZZ}gels the
computational call is the in-place routine (gesv / gels, passing B only) when
the pointers B and X are equal and the out-of-place routine (gesv_outofplace /
gels_outofplace, passing B, X and ldx) otherwise, so the routine called is the
in-place one if and only if B == X, whatever the other arguments are; and once
the workspace has been prepared without error, in either workspace path, that
call is the one call that follows. -/
theorem solve_inplace_iff_same_pointer (T : Scalar) (a : Args) :
    computeCall .gesv T a
        = .ok (if a.B_eq_X = true then
            ⟨.gesv, T,
              [.int a.n, .int a.nrhs, .ptr (.param .A), .int a.lda, .ptr (.param .devIpiv),
               .ptr (.param .B), .int a.ldb, .ptr (.param .devInfo)]⟩
          else
            ⟨.gesv_outofplace, T,
              [.int a.n, .int a.nrhs, .ptr (.param .A), .int a.lda, .ptr (.param .devIpiv),
               .ptr (.param .B), .int a.ldb, .ptr (.param .X), .int a.ldx,
               .ptr (.param .devInfo)]⟩)
      ∧ computeCall .gels T a
        = .ok (if a.B_eq_X = true then
            ⟨.gels, T,
              [.operation .rocblas_operation_none, .int a.m, .int a.n, .int a.nrhs,
               .ptr (.param .A), .int a.lda, .ptr (.param .B), .int a.ldb,
               .ptr (.param .devInfo)]⟩
          else
            ⟨.gels_outofplace, T,
              [.operation .rocblas_operation_none, .int a.m, .int a.n, .int a.nrhs,
               .ptr (.param .A), .int a.lda, .ptr (.param .B), .int a.ldb, .ptr (.param .X),
               .int a.ldx, .ptr (.param .devInfo)]⟩)
      ∧ (∀ c, computeCall .gesv T a = .ok c → (c.name = .gesv ↔ a.B_eq_X = true))
      ∧ (∀ c, computeCall .gels T a = .ok c → (c.name = .gels ↔ a.B_eq_X = true))
      ∧ ∀ (lib : RocLib σ) (handle : hipsolverHandle_t) (w : World σ) (f : PlainFamily),
          f = .gesv ∨ f = .gels → ∀ c, computeCall f T a = .ok c →
          (a.work = true ∧ a.lwork ≠ 0 →
            (rocblas_set_workspace lib handle (.work 0) (toSizeT a.lwork) w).1
              = rocblas_status_success →
            (executePlain lib f T handle a w).1
                = rocblas2hip_status (rocsolver lib handle c
                    (rocblas_set_workspace lib handle (.work 0) (toSizeT a.lwork) w).2).1
              ∧ (executePlain lib f T handle a w).2.log
                = w.log ++ [.set_workspace (.work 0) (toSizeT a.lwork), .routine c])
          ∧ (¬ (a.work = true ∧ a.lwork ≠ 0) →
            (bufferSize lib f.family T handle true a w).status = HIPSOLVER_STATUS_SUCCESS →
            (hipsolverManageWorkspace lib handle
              (toSizeT (lworkAfter a (bufferSize lib f.family T handle true a w)))
              (bufferSize lib f.family T handle true a w).world).1 = rocblas_status_success →
            (executePlain lib f T handle a w).1
                = rocblas2hip_status (rocsolver lib handle c
                    (hipsolverManageWorkspace lib handle
                      (toSizeT (lworkAfter a (bufferSize lib f.family T handle true a w)))
                      (bufferSize lib f.family T handle true a w).world).2).1
              ∧ (executePlain lib f T handle a w).2.log
                = (hipsolverManageWorkspace lib handle
                    (toSizeT (lworkAfter a (bufferSize lib f.family T handle true a w)))
                    (bufferSize lib f.family T handle true a w).world).2.log
                  ++ [.routine c]) := by
  refine ⟨?_, ?_, ?_, ?_, ?_⟩
  · by_cases hb : a.B_eq_X = true <;> simp [computeCall, hb, pure, Except.pure]
  · by_cases hb : a.B_eq_X = true <;> simp [computeCall, hb, pure, Except.pure]
  · intro c hc
    by_cases hb : a.B_eq_X = true <;>
      simp [computeCall, hb, pure, Except.pure] at hc <;> subst hc <;> simp [hb]
  · intro c hc
    by_cases hb : a.B_eq_X = true <;>
      simp [computeCall, hb, pure, Except.pure] at hc <;> subst hc <;> simp [hb]
  · intro lib handle w f _ c hc
    constructor
    · intro hwl hs
      unfold executePlain
      rw [if_pos hwl]
      simp only [hs, CHECK_ROCBLAS_ERROR, hc, returnRoutine]
      simp [rocsolver, rocblas_set_workspace, World.record]
    · intro hwl hb hg
      unfold executePlain
      rw [if_neg hwl]
      simp only [hb, hg, CHECK_ROCBLAS_ERROR, CHECK_HIPSOLVER_ERROR, hc, returnRoutine]
      simp [rocsolver, World.record]

/-- Witness of `solve_inplace_iff_same_pointer`: hipsolverSSgesv with B == X and
a caller buffer of 64 bytes installs the buffer and calls the in-place gesv
once. -/
theorem solve_inplace_iff_same_pointer_witness :
    (executePlain stubLib .gesv .S (some 1)
        { args0 with n := 2, nrhs := 1, lda := 2, ldb := 2, ldx := 2, work := true,
                     lwork := 64, B_eq_X := true } stubWorld).2.log
      = stubWorld.log ++ [.set_workspace (.work 0) (toSizeT 64),
          .routine ⟨.gesv, .S,
            [.int 2, .int 1, .ptr (.param .A), .int 2, .ptr (.param .devIpiv),
             .ptr (.param .B), .int 2, .ptr (.param .devInfo)]⟩] :=
  (((solve_inplace_iff_same_pointer .S
      { args0 with n := 2, nrhs := 1, lda := 2, ldb := 2, ldx := 2, work := true,
                   lwork := 64, B_eq_X := true }).2.2.2.2 stubLib (some 1) stubWorld .gesv
      (Or.inl rfl) _ rfl).1 (by decide) rfl).2

/-! ## A failed scoped allocation -/

/-- C15: in the no-caller-buffer path of syevd, syevj, syevjBatched, sygvd,
sygvj, gesvdj, gesvdjBatched, and of gesvd when rwork == null and
min(m,n) > 1, once `_bufferSize` and `hipsolverManageWorkspace` have succeeded
and the scoped allocation fails, the call returns
HIPSOLVER_STATUS_ALLOC_FAILED and the failed `rocblas_device_malloc` is its
last library call: neither the numerical routine nor the transpose is
invoked. -/
theorem alloc_failure_aborts (lib : RocLib σ) (f : AuxFamily) (T : Scalar)
    (handle : hipsolverHandle_t) (a : Args) (w : World σ)
    (hnw : ¬ (a.work = true ∧ a.lwork ≠ 0)) (hp : reachesWorkspace f handle a)
    (hal : allocates f a)
    (hb : (bufferSize lib f.family T handle true a w).status = HIPSOLVER_STATUS_SUCCESS)
    (hg : (hipsolverManageWorkspace lib handle
            (manageRequest f T a (lworkAfter a (bufferSize lib f.family T handle true a w)))
            (bufferSize lib f.family T handle true a w).world).1 = rocblas_status_success)
    (hm : (lib.device_malloc handle (allocSizes f T a)
            (hipsolverManageWorkspace lib handle
              (manageRequest f T a (lworkAfter a (bufferSize lib f.family T handle true a w)))
              (bufferSize lib f.family T handle true a w).world).2.st).1 = false) :
    (executeAux lib f T handle a w).1 = HIPSOLVER_STATUS_ALLOC_FAILED
      ∧ (executeAux lib f T handle a w).2.log
        = (hipsolverManageWorkspace lib handle
            (manageRequest f T a (lworkAfter a (bufferSize lib f.family T handle true a w)))
            (bufferSize lib f.family T handle true a w).world).2.log
          ++ [.device_malloc (allocSizes f T a)] := by
  cases f
  case gesvd =>
    simp only [AuxFamily.family, manageRequest, allocSizes] at hb hg hm
    simp only [executeAux, hipsolverXgesvd, manageRequest, allocSizes, AuxFamily.family]
    rw [if_neg hnw]
    simp only [hb, hg, CHECK_ROCBLAS_ERROR, CHECK_HIPSOLVER_ERROR]
    simp only [allocates] at hal
    simp [hal, rocblas_device_malloc, hm, World.record]
  case gesvdj =>
    obtain ⟨hh, hrej⟩ := hp
    simp only [AuxFamily.family, manageRequest, allocSizes] at hb hg hm
    simp only [executeAux, hipsolverDnXgesvdj, manageRequest, allocSizes, AuxFamily.family]
    rw [if_neg hh, if_neg hrej, if_neg hnw]
    simp only [hb, hg, CHECK_ROCBLAS_ERROR, CHECK_HIPSOLVER_ERROR]
    simp [rocblas_device_malloc, hm, World.record]
  case gesvdjBatched =>
    obtain ⟨hh, hrej⟩ := hp
    simp only [AuxFamily.family, manageRequest, allocSizes] at hb hg hm
    simp only [executeAux, hipsolverDnXgesvdjBatched, manageRequest, allocSizes,
      AuxFamily.family]
    rw [if_neg hh, if_neg hrej, if_neg hnw]
    simp only [hb, hg, CHECK_ROCBLAS_ERROR, CHECK_HIPSOLVER_ERROR]
    simp [rocblas_device_malloc, hm, World.record]
  all_goals
    simp only [AuxFamily.family, manageRequest, allocSizes] at hb hg hm
    simp only [executeAux, hipsolverXsyevd, hipsolverDnXsyevj, hipsolverDnXsyevjBatched,
      hipsolverXsygvd, hipsolverDnXsygvj, managedPath, manageRequest, allocSizes,
      AuxFamily.family]
    rw [if_neg hnw]
    simp only [hb, hg, CHECK_ROCBLAS_ERROR, CHECK_HIPSOLVER_ERROR]
    simp [rocblas_device_malloc, hm, World.record]

/-- Witness of `alloc_failure_aborts`: hipsolverSsyevd with n = 3, no caller
buffer, on a library whose scoped allocation fails. -/
theorem alloc_failure_aborts_witness :
    (executeAux stubLibNoMem .syevd .S (some 1) { args0 with n := 3, lda := 3 } stubWorld).1
        = HIPSOLVER_STATUS_ALLOC_FAILED
      ∧ (executeAux stubLibNoMem .syevd .S (some 1) { args0 with n := 3, lda := 3 }
          stubWorld).2.log
        = (hipsolverManageWorkspace stubLibNoMem (some 1)
            (manageRequest .syevd .S { args0 with n := 3, lda := 3 }
              (lworkAfter { args0 with n := 3, lda := 3 }
                (bufferSize stubLibNoMem AuxFamily.syevd.family .S (some 1) true
                  { args0 with n := 3, lda := 3 } stubWorld)))
            (bufferSize stubLibNoMem AuxFamily.syevd.family .S (some 1) true
              { args0 with n := 3, lda := 3 } stubWorld).world).2.log
          ++ [.device_malloc (allocSizes .syevd .S { args0 with n := 3, lda := 3 })] :=
  alloc_failure_aborts stubLibNoMem .syevd .S (some 1) { args0 with n := 3, lda := 3 }
    stubWorld (by decide) trivial trivial (by decide) (by decide) (by decide)

/-! ## The standing reservation -/

/-- C12, as stated, fails: on a handle whose memory the caller does not manage
and whose reservation is 1000 bytes, `hipsolverManageWorkspace(handle, 10)`
never reads the reservation, compares 10 with 0, and calls
`rocblas_set_device_memory_size(handle, 10)`; on a library that installs the
requested size the reservation drops from 1000 to 10. -/
theorem manage_requests_below_reservation :
    stubLib.get_device_memory_size (some 1) ⟨false, 0, 1000, false⟩ = 1000
      ∧ (hipsolverManageWorkspace stubLib (some 1) 10 ⟨⟨false, 0, 1000, false⟩, []⟩).2.log
          = [.is_user_managing_device_memory, .set_device_memory_size 10]
      ∧ stubLib.get_device_memory_size (some 1)
          (hipsolverManageWorkspace stubLib (some 1) 10 ⟨⟨false, 0, 1000, false⟩, []⟩).2.st
          = 10
      ∧ ¬ (1000 ≤ 10) := by
  decide

/-- C12, amended: `hipsolverManageWorkspace(handle, new_size)` compares
`new_size` with `current_size`, which is the size read by
`rocblas_get_device_memory_size` when the caller manages the handle's memory
and 0 otherwise.  When `new_size <= current_size` it returns success, leaves
the library state as it was and makes no `rocblas_set_device_memory_size`
call; when `new_size > current_size` its only further call is
`rocblas_set_device_memory_size(handle, new_size)`, whose status it returns.
So when the caller manages the memory, and the library after a resize reports
either the requested size or the old one, the reservation is not smaller after
the call than before. -/
theorem manage_compares_with_current_size (lib : RocLib σ) (handle : hipsolverHandle_t)
    (new_size : Nat) (w : World σ) :
    (new_size ≤ (if lib.is_user_managing_device_memory handle w.st = true
                  then lib.get_device_memory_size handle w.st else 0) →
        (hipsolverManageWorkspace lib handle new_size w).1 = rocblas_status_success
          ∧ (hipsolverManageWorkspace lib handle new_size w).2.st = w.st
          ∧ (hipsolverManageWorkspace lib handle new_size w).2.log
              = w.log ++ (if lib.is_user_managing_device_memory handle w.st = true
                  then [.is_user_managing_device_memory, .get_device_memory_size]
                  else [.is_user_managing_device_memory]))
      ∧ ((if lib.is_user_managing_device_memory handle w.st = true
            then lib.get_device_memory_size handle w.st else 0) < new_size →
          (hipsolverManageWorkspace lib handle new_size w).1
              = (lib.set_device_memory_size handle new_size w.st).1
            ∧ (hipsolverManageWorkspace lib handle new_size w).2.st
              = (lib.set_device_memory_size handle new_size w.st).2
            ∧ (hipsolverManageWorkspace lib handle new_size w).2.log
              = w.log ++ (if lib.is_user_managing_device_memory handle w.st = true
                  then [.is_user_managing_device_memory, .get_device_memory_size]
                  else [.is_user_managing_device_memory])
                ++ [.set_device_memory_size new_size])
      ∧ (lib.is_user_managing_device_memory handle w.st = true →
          (lib.get_device_memory_size handle
                (lib.set_device_memory_size handle new_size w.st).2 = new_size
            ∨ lib.get_device_memory_size handle
                (lib.set_device_memory_size handle new_size w.st).2
              = lib.get_device_memory_size handle w.st) →
          lib.get_device_memory_size handle w.st
            ≤ lib.get_device_memory_size handle
                (hipsolverManageWorkspace lib handle new_size w).2.st) := by
  by_cases hu : lib.is_user_managing_device_memory handle w.st = true
  · refine ⟨?_, ?_, ?_⟩
    · intro h
      rw [if_pos hu] at h
      have h2 : ¬ (new_size > lib.get_device_memory_size handle w.st) := by omega
      simp [hipsolverManageWorkspace, rocblas_is_user_managing_device_memory,
        rocblas_get_device_memory_size, World.record, hu, h2]
    · intro h
      rw [if_pos hu] at h
      simp [hipsolverManageWorkspace, rocblas_is_user_managing_device_memory,
        rocblas_get_device_memory_size, rocblas_set_device_memory_size, World.record, hu, h]
    · intro _ hlib
      by_cases h : new_size > lib.get_device_memory_size handle w.st
      · have hst : (hipsolverManageWorkspace lib handle new_size w).2.st
            = (lib.set_device_memory_size handle new_size w.st).2 := by
          simp [hipsolverManageWorkspace, rocblas_is_user_managing_device_memory,
            rocblas_get_device_memory_size, rocblas_set_device_memory_size, World.record,
            hu, h]
        rw [hst]
        rcases hlib with hl | hl <;> omega
      · have hst : (hipsolverManageWorkspace lib handle new_size w).2.st = w.st := by
          simp [hipsolverManageWorkspace, rocblas_is_user_managing_device_memory,
            rocblas_get_device_memory_size, World.record, hu, h]
        rw [hst]
  · refine ⟨?_, ?_, ?_⟩
    · intro h
      rw [if_neg hu] at h
      have h0 : new_size = 0 := by omega
      simp [hipsolverManageWorkspace, rocblas_is_user_managing_device_memory,
        World.record, hu, h0]
    · intro h
      rw [if_neg hu] at h
      have h2 : new_size > 0 := h
      simp [hipsolverManageWorkspace, rocblas_is_user_managing_device_memory,
        rocblas_set_device_memory_size, World.record, hu, h2]
    · intro h
      exact absurd h hu

/-- Witness of `manage_compares_with_current_size`: on a handle whose memory
the caller manages with 1000 bytes reserved, a request of 2000 bytes is passed
on and the reservation grows to 2000. -/
theorem manage_compares_with_current_size_witness :
    (hipsolverManageWorkspace stubLib (some 1) 2000 ⟨⟨false, 0, 1000, true⟩, []⟩).2.log
        = [.is_user_managing_device_memory, .get_device_memory_size,
           .set_device_memory_size 2000]
      ∧ stubLib.get_device_memory_size (some 1) ⟨false, 0, 1000, true⟩
          ≤ stubLib.get_device_memory_size (some 1)
              (hipsolverManageWorkspace stubLib (some 1) 2000
                ⟨⟨false, 0, 1000, true⟩, []⟩).2.st :=
  ⟨((manage_compares_with_current_size stubLib (some 1) 2000
      ⟨⟨false, 0, 1000, true⟩, []⟩).2.1 (by decide)).2.2,
   (manage_compares_with_current_size stubLib (some 1) 2000
      ⟨⟨false, 0, 1000, true⟩, []⟩).2.2 rfl (Or.inl rfl)⟩

/-! ## The order of the regions in the caller's buffer -/

/-- C13, as stated, fails: hipsolverDnCgesvdj with jobz = VECTOR, econ = 1,
m = 5, n = 3 and a caller buffer passes the caller's pointer itself (byte 0)
as `E`, byte 12 as `V_copy`, and installs the workspace at byte 84: the
workspace of the underlying routine comes last, not first. -/
theorem workspace_is_carved_last :
    (hipsolverDnXgesvdj stubLib .C (some 1)
        { args0 with jobz := .HIPSOLVER_EIG_MODE_VECTOR, econ := 1, m := 5, n := 3, ldv := 3,
                     work := true, lwork := 4096 } stubWorld).2.log
      = [.set_workspace (.work 84) 4096,
         .routine ⟨.gesvd, .C,
           [.svect .rocblas_svect_singular, .svect .rocblas_svect_singular, .int 5, .int 3,
            .ptr (.param .A), .int 1, .ptr (.param .S), .ptr (.param .U), .int 1,
            .ptr (.work 12), .int 3, .ptr (.work 0), .workmode .rocblas_outofplace,
            .ptr (.param .devInfo)]⟩,
         .routine ⟨.geam, .C,
           [.operation .rocblas_operation_conjugate_transpose,
            .operation .rocblas_operation_none, .int 3, .int 3, .one, .ptr (.work 12), .int 3,
            .zero, .ptr (.work 12), .int 3, .ptr (.param .V), .int 3]⟩]
      ∧ ¬ ((84 : Int) = 0) := by
  decide

/-- C13, amended: in the caller-buffer path of the eight families with
auxiliary arrays (gesvd with rwork == null and min(m,n) > 1), once the entry
checks of gesvdj pass and `rocblas_set_workspace` succeeds, the caller's buffer
is carved in the order E first (at byte offset 0 of the caller's buffer), then
V_copy (gesvdj and gesvdjBatched, at the byte where E ends), then the
workspace of the underlying routine, installed at the byte where the carved
arrays end; the offsets are in that order whenever the `int` element counts
of the pointer steps are not negative. -/
theorem aux_arrays_precede_workspace (lib : RocLib σ) (f : AuxFamily) (T : Scalar)
    (handle : hipsolverHandle_t) (a : Args) (w : World σ)
    (hw : a.work = true) (hl : a.lwork ≠ 0) (hp : reachesWorkspace f handle a)
    (hal : allocates f a) :
    (∀ c, auxCall f T a (.work 0) (.work (E_end f T a)) = .ok c →
        (lib.set_workspace handle (.work (carvedBytes f T a)) (toSizeT a.lwork) w.st).1
          = rocblas_status_success →
        ∃ rest, (executeAux lib f T handle a w).2.log
          = w.log ++ [.set_workspace (.work (carvedBytes f T a)) (toSizeT a.lwork),
                      .routine c] ++ rest)
      ∧ (∀ c, auxCall f T a (.work 0) (.work (E_end f T a)) = .ok c →
          Arg.ptr (.work 0) ∈ c.args
            ∧ (f = .gesvdj ∨ f = .gesvdjBatched → Arg.ptr (.work (E_end f T a)) ∈ c.args))
      ∧ (0 ≤ imul (cmin a.m a.n) a.batch_count → 0 ≤ imul (gesvdj_ldv_copy a) a.n →
          0 ≤ imul (imul (gesvdjBatched_ldv_copy a) a.n) a.batch_count →
          0 ≤ E_end f T a ∧ E_end f T a ≤ carvedBytes f T a) := by
  have hsz : (0 : Int) ≤ (sizeofReal T : Int) := Int.natCast_nonneg _
  have hsT : (0 : Int) ≤ (sizeofT T : Int) := Int.natCast_nonneg _
  refine ⟨?_, ?_, ?_⟩
  · intro c hc hs
    cases f
    case gesvd =>
      simp only [allocates] at hal
      simp only [auxCall] at hc
      simp only [carvedBytes] at hs
      refine ⟨[], ?_⟩
      simp [executeAux, hipsolverXgesvd, hw, hl, hal, carvedBytes, CHECK_ROCBLAS_ERROR,
        rocblas_set_workspace, hs, hc, returnRoutine, rocsolver, World.record]
    case gesvdj =>
      obtain ⟨hh, hrej⟩ := hp
      simp only [auxCall, E_end] at hc
      simp only [carvedBytes] at hs
      simp only [executeAux, hipsolverDnXgesvdj, carvedBytes]
      rw [if_neg hh, if_neg hrej, if_pos ⟨hw, hl⟩]
      simp only [CHECK_ROCBLAS_ERROR, rocblas_set_workspace, hs, gesvdj_compute, hc]
      by_cases hr : (lib.routine handle c
          (lib.set_workspace handle (.work (gesvdj_work_offset T a)) (toSizeT a.lwork)
            w.st).2).1 = rocblas_status_success
      · by_cases hj : a.jobz = .HIPSOLVER_EIG_MODE_NOVECTOR
        · exact ⟨[], by simp [hr, hj, rocsolver, World.record]⟩
        · exact ⟨[.routine (gesvdj_geam T a (.work (gesvdj_V_copy_offset T a)))],
            by simp [hr, hj, rocsolver, World.record]⟩
      · exact ⟨[], by simp [hr, rocsolver, World.record]⟩
    case gesvdjBatched =>
      obtain ⟨hh, hrej⟩ := hp
      simp only [auxCall, E_end] at hc
      simp only [carvedBytes] at hs
      simp only [executeAux, hipsolverDnXgesvdjBatched, carvedBytes]
      rw [if_neg hh, if_neg hrej, if_pos ⟨hw, hl⟩]
      simp only [CHECK_ROCBLAS_ERROR, rocblas_set_workspace, hs, gesvdjBatched_compute, hc]
      by_cases hr : (lib.routine handle c
          (lib.set_workspace handle (.work (gesvdjBatched_work_offset T a))
            (toSizeT a.lwork) w.st).2).1 = rocblas_status_success
      · by_cases hj : a.jobz = .HIPSOLVER_EIG_MODE_NOVECTOR
        · exact ⟨[], by simp [hr, hj, rocsolver, World.record]⟩
        · exact ⟨[.routine (gesvdjBatched_geam T a
              (.work (gesvdjBatched_V_copy_offset T a)))],
            by simp [hr, hj, rocsolver, World.record]⟩
      · exact ⟨[], by simp [hr, rocsolver, World.record]⟩
    all_goals
      simp only [auxCall] at hc
      simp only [carvedBytes] at hs
      refine ⟨[], ?_⟩
      simp [executeAux, hipsolverXsyevd, hipsolverDnXsyevj, hipsolverDnXsyevjBatched,
        hipsolverXsygvd, hipsolverDnXsygvj, callerPath, hw, hl, carvedBytes,
        CHECK_ROCBLAS_ERROR, rocblas_set_workspace, hs, hc, returnRoutine, rocsolver,
        World.record]
  · intro c hc
    cases f
    case gesvd =>
      simp only [auxCall, gesvd_call] at hc
      cases h1 : char2rocblas_svect a.jobu <;> cases h2 : char2rocblas_svect a.jobv <;>
        simp [h1, h2, bind, Except.bind, pure, Except.pure] at hc
      subst hc
      simp
    case gesvdj =>
      simp only [auxCall, gesvdj_call, E_end] at hc
      cases h1 : hip2rocblas_evect2svect a.jobz a.econ <;>
        simp [h1, bind, Except.bind, pure, Except.pure] at hc
      subst hc
      simp [E_end]
    case gesvdjBatched =>
      simp only [auxCall, gesvdjBatched_call, E_end] at hc
      cases h1 : hip2rocblas_evect2svect a.jobz 0 <;>
        simp [h1, bind, Except.bind, pure, Except.pure] at hc
      subst hc
      simp [E_end]
    case syevjBatched =>
      simp only [auxCall, syevjBatched_call] at hc
      cases h1 : hip2rocblas_evect a.jobz <;> cases h2 : hip2rocblas_fill a.uplo <;>
        simp [h1, h2, bind, Except.bind, pure, Except.pure] at hc
      subst hc
      simp
    case syevd =>
      simp only [auxCall, syevd_call] at hc
      cases h1 : hip2rocblas_evect a.jobz <;> cases h2 : hip2rocblas_fill a.uplo <;>
        simp [h1, h2, bind, Except.bind, pure, Except.pure] at hc
      subst hc
      simp
    case syevj =>
      simp only [auxCall, syevd_call] at hc
      cases h1 : hip2rocblas_evect a.jobz <;> cases h2 : hip2rocblas_fill a.uplo <;>
        simp [h1, h2, bind, Except.bind, pure, Except.pure] at hc
      subst hc
      simp
    case sygvd =>
      simp only [auxCall, sygvd_call] at hc
      cases h0 : hip2rocblas_eform a.itype <;> cases h1 : hip2rocblas_evect a.jobz <;>
        cases h2 : hip2rocblas_fill a.uplo <;>
        simp [h0, h1, h2, bind, Except.bind, pure, Except.pure] at hc
      subst hc
      simp
    case sygvj =>
      simp only [auxCall, sygvd_call] at hc
      cases h0 : hip2rocblas_eform a.itype <;> cases h1 : hip2rocblas_evect a.jobz <;>
        cases h2 : hip2rocblas_fill a.uplo <;>
        simp [h0, h1, h2, bind, Except.bind, pure, Except.pure] at hc
      subst hc
      simp
  · intro hE hV hVB
    cases f
    case gesvdj =>
      simp only [E_end, carvedBytes, gesvdj_work_offset, gesvdj_V_copy_offset]
      have h1 : (0 : Int) ≤ (sizeofT T : Int) * imul (gesvdj_ldv_copy a) a.n :=
        mul_nonneg hsT hV
      constructor
      · split
        · exact mul_nonneg hsz (by omega)
        · exact le_refl _
      · split <;> omega
    case gesvdjBatched =>
      simp only [E_end, carvedBytes, gesvdjBatched_work_offset, gesvdjBatched_V_copy_offset]
      have h1 : (0 : Int)
          ≤ (sizeofT T : Int) * imul (imul (gesvdjBatched_ldv_copy a) a.n) a.batch_count :=
        mul_nonneg hsT hVB
      constructor
      · split
        · exact mul_nonneg hsz hE
        · exact le_refl _
      · split <;> omega
    case gesvd =>
      simp only [E_end, carvedBytes, gesvd_carved]
      refine ⟨?_, le_refl _⟩
      split
      · exact mul_nonneg hsz (by omega)
      · exact le_refl _
    case syevjBatched =>
      simp only [E_end, carvedBytes, syevjBatched_carved]
      refine ⟨?_, le_refl _⟩
      split
      · exact mul_nonneg hsz (by omega)
      · exact le_refl _
    all_goals
      simp only [E_end, carvedBytes, syevd_carved]
      refine ⟨?_, le_refl _⟩
      split
      · exact mul_nonneg hsz (by omega)
      · exact le_refl _

/-- Witness of `aux_arrays_precede_workspace`: hipsolverDnCgesvdj with jobz =
VECTOR, econ = 1, m = 5, n = 3: E occupies bytes 0..12, V_copy bytes 12..84,
and the workspace is installed at byte 84. -/
theorem aux_arrays_precede_workspace_witness :
    0 ≤ E_end .gesvdj .C
          { args0 with jobz := .HIPSOLVER_EIG_MODE_VECTOR, econ := 1, m := 5, n := 3, ldv := 3,
                       work := true, lwork := 4096 }
      ∧ E_end .gesvdj .C
          { args0 with jobz := .HIPSOLVER_EIG_MODE_VECTOR, econ := 1, m := 5, n := 3, ldv := 3,
                       work := true, lwork := 4096 }
        ≤ carvedBytes .gesvdj .C
          { args0 with jobz := .HIPSOLVER_EIG_MODE_VECTOR, econ := 1, m := 5, n := 3, ldv := 3,
                       work := true, lwork := 4096 } :=
  (aux_arrays_precede_workspace stubLib .gesvdj .C (some 1)
    { args0 with jobz := .HIPSOLVER_EIG_MODE_VECTOR, econ := 1, m := 5, n := 3, ldv := 3,
                 work := true, lwork := 4096 } stubWorld rfl (by decide)
    ⟨by decide, by decide⟩ trivial).2.2 (by decide) (by decide) (by decide)

/-! ## Which calls an execute entry point makes -/

theorem sizeQuery_log (lib : RocLib σ) (fam : Family) (T : Scalar)
    (handle : hipsolverHandle_t) (a : Args) (w : World σ) :
    ∃ new, new.any Call.isSetWorkspace = false ∧
      match sizeQuery lib fam T handle a w with
      | .error (_, w1) => w1.log = w.log ++ new
      | .ok (_, _, w1) => w1.log = w.log ++ new := by
  unfold sizeQuery
  cases dryRunCalls fam T a with
  | error e =>
    exact ⟨[.start_device_memory_size_query],
      by simp [Call.isSetWorkspace],
      by simp [rocblas_start_device_memory_size_query, World.record]⟩
  | ok p =>
    obtain ⟨c1, c2⟩ := p
    cases c2 with
    | none =>
      cases auxSizes fam T a with
      | none =>
        exact ⟨[.start_device_memory_size_query, .routine c1, .stop_device_memory_size_query],
          by simp [Call.isSetWorkspace],
          by simp [rocblas_start_device_memory_size_query,
            rocblas_stop_device_memory_size_query, rocsolver, World.record]⟩
      | some sizes =>
        exact ⟨[.start_device_memory_size_query, .routine c1, .stop_device_memory_size_query,
            .start_device_memory_size_query,
            .set_optimal_device_memory_size
              ((rocblas_stop_device_memory_size_query lib handle
                (rocsolver lib handle c1
                  (rocblas_start_device_memory_size_query lib handle w)).2).1 :: sizes),
            .stop_device_memory_size_query],
          by simp [Call.isSetWorkspace],
          by simp [rocblas_start_device_memory_size_query,
            rocblas_stop_device_memory_size_query, rocblas_set_optimal_device_memory_size,
            rocsolver, World.record]⟩
    | some c =>
      cases auxSizes fam T a with
      | none =>
        exact ⟨[.start_device_memory_size_query, .routine c1, .routine c,
            .stop_device_memory_size_query],
          by simp [Call.isSetWorkspace],
          by simp [rocblas_start_device_memory_size_query,
            rocblas_stop_device_memory_size_query, rocsolver, World.record]⟩
      | some sizes =>
        exact ⟨[.start_device_memory_size_query, .routine c1, .routine c,
            .stop_device_memory_size_query, .start_device_memory_size_query,
            .set_optimal_device_memory_size
              ((rocblas_stop_device_memory_size_query lib handle
                (rocsolver lib handle c
                  (rocsolver lib handle c1
                    (rocblas_start_device_memory_size_query lib handle w)).2).2).1 :: sizes),
            .stop_device_memory_size_query],
          by simp [Call.isSetWorkspace],
          by simp [rocblas_start_device_memory_size_query,
            rocblas_stop_device_memory_size_query, rocblas_set_optimal_device_memory_size,
            rocsolver, World.record]⟩

theorem bufferSize_log (lib : RocLib σ) (fam : Family) (T : Scalar)
    (handle : hipsolverHandle_t) (lwork : Bool) (a : Args) (w : World σ) :
    ∃ new, new.any Call.isSetWorkspace = false
      ∧ (bufferSize lib fam T handle lwork a w).world.log = w.log ++ new := by
  unfold bufferSize
  by_cases hh : handle = none
  · exact ⟨[], rfl, by simp [hh]⟩
  by_cases hl : lwork = false
  · exact ⟨[], rfl, by simp [hh, hl]⟩
  by_cases hv : fam = .gesvdj ∧ a.ldv < a.n
  · exact ⟨[], rfl, by simp [hh, hl, hv]⟩
  rw [if_neg hh, if_neg hl, if_neg hv]
  obtain ⟨new, hn, hq⟩ := sizeQuery_log lib fam T handle a w
  refine ⟨new, hn, ?_⟩
  cases hs : sizeQuery lib fam T handle a w with
  | error p =>
    obtain ⟨e, w1⟩ := p
    rw [hs] at hq
    exact hq
  | ok p =>
    obtain ⟨status, sz, w1⟩ := p
    rw [hs] at hq
    have hw1 : w1.log = w.log ++ new := hq
    dsimp only
    split
    · exact hw1
    · split <;> exact hw1
    · split
      · exact hw1
      · split <;> exact hw1

theorem hipsolverManageWorkspace_log (lib : RocLib σ) (handle : hipsolverHandle_t)
    (new_size : Nat) (w : World σ) :
    ∃ new, new.any Call.isSetWorkspace = false
      ∧ (hipsolverManageWorkspace lib handle new_size w).2.log = w.log ++ new := by
  unfold hipsolverManageWorkspace
  rw [if_neg (Nat.not_lt_zero _)]
  by_cases hu : lib.is_user_managing_device_memory handle w.st = true
  · by_cases hg : new_size > lib.get_device_memory_size handle w.st
    · exact ⟨[.is_user_managing_device_memory, .get_device_memory_size,
          .set_device_memory_size new_size], by simp [Call.isSetWorkspace],
        by simp [rocblas_is_user_managing_device_memory, rocblas_get_device_memory_size,
          rocblas_set_device_memory_size, World.record, hu, hg]⟩
    · exact ⟨[.is_user_managing_device_memory, .get_device_memory_size],
        by simp [Call.isSetWorkspace],
        by simp [rocblas_is_user_managing_device_memory, rocblas_get_device_memory_size,
          rocblas_set_device_memory_size, World.record, hu, hg]⟩
  · by_cases hg : new_size > 0
    · exact ⟨[.is_user_managing_device_memory, .set_device_memory_size new_size],
        by simp [Call.isSetWorkspace],
        by simp [rocblas_is_user_managing_device_memory,
          rocblas_set_device_memory_size, World.record, hu, hg]⟩
    · exact ⟨[.is_user_managing_device_memory], by simp [Call.isSetWorkspace],
        by simp [rocblas_is_user_managing_device_memory, World.record, hu, hg]⟩

theorem returnRoutine_calls (lib : RocLib σ) (handle : hipsolverHandle_t)
    (call : Except hipsolverStatus_t RoutineCall) (w : World σ) :
    ∃ rest, rest.all Call.isRoutine = true
      ∧ (returnRoutine lib handle call w).2.log = w.log ++ rest := by
  cases call with
  | error e => exact ⟨[], rfl, by simp [returnRoutine]⟩
  | ok c =>
    exact ⟨[.routine c], by simp [Call.isRoutine],
      by simp [returnRoutine, rocsolver, World.record]⟩

theorem gesvdj_compute_calls (lib : RocLib σ) (T : Scalar) (handle : hipsolverHandle_t)
    (a : Args) (E V_copy : DevPtr) (w : World σ) :
    ∃ rest, rest.all Call.isRoutine = true
      ∧ (gesvdj_compute lib T handle a E V_copy w).2.log = w.log ++ rest := by
  unfold gesvdj_compute
  cases gesvdj_call T a E V_copy with
  | error e => exact ⟨[], rfl, by simp⟩
  | ok c =>
    dsimp only
    cases CHECK_ROCBLAS_ERROR (rocsolver lib handle c w).1 with
    | some s => exact ⟨[.routine c], by simp [Call.isRoutine], by simp [rocsolver, World.record]⟩
    | none =>
      dsimp only
      split
      · exact ⟨[.routine c, .routine (gesvdj_geam T a V_copy)], by simp [Call.isRoutine],
          by simp [rocsolver, World.record]⟩
      · exact ⟨[.routine c], by simp [Call.isRoutine], by simp [rocsolver, World.record]⟩

theorem gesvdjBatched_compute_calls (lib : RocLib σ) (T : Scalar)
    (handle : hipsolverHandle_t) (a : Args) (E V_copy : DevPtr) (w : World σ) :
    ∃ rest, rest.all Call.isRoutine = true
      ∧ (gesvdjBatched_compute lib T handle a E V_copy w).2.log = w.log ++ rest := by
  unfold gesvdjBatched_compute
  cases gesvdjBatched_call T a E V_copy with
  | error e => exact ⟨[], rfl, by simp⟩
  | ok c =>
    dsimp only
    cases CHECK_ROCBLAS_ERROR (rocsolver lib handle c w).1 with
    | some s => exact ⟨[.routine c], by simp [Call.isRoutine], by simp [rocsolver, World.record]⟩
    | none =>
      dsimp only
      split
      · exact ⟨[.routine c, .routine (gesvdjBatched_geam T a V_copy)],
          by simp [Call.isRoutine], by simp [rocsolver, World.record]⟩
      · exact ⟨[.routine c], by simp [Call.isRoutine], by simp [rocsolver, World.record]⟩

theorem routine_calls_no_set_workspace (l : List Call)
    (h : l.all Call.isRoutineOrMalloc = true) : l.any Call.isSetWorkspace = false := by
  induction l with
  | nil => rfl
  | cons c t ih =>
    simp only [List.all_cons, Bool.and_eq_true] at h
    simp only [List.any_cons, Bool.or_eq_false_iff]
    refine ⟨?_, ih h.2⟩
    cases c <;> simp_all [Call.isRoutineOrMalloc, Call.isSetWorkspace]

theorem routine_is_routineOrMalloc (l : List Call)
    (h : l.all Call.isRoutine = true) : l.all Call.isRoutineOrMalloc = true := by
  induction l with
  | nil => rfl
  | cons c t ih =>
    simp only [List.all_cons, Bool.and_eq_true] at h ⊢
    refine ⟨?_, ih h.2⟩
    cases c <;> simp_all [Call.isRoutineOrMalloc, Call.isRoutine]

/-- The then-branch of every execute entry point: `rocblas_set_workspace`,
then only computational calls. -/
theorem caller_shape (lib : RocLib σ) (handle : hipsolverHandle_t) (p : DevPtr) (n : Nat)
    (k : World σ → hipsolverStatus_t × World σ) (w : World σ)
    (hk : ∀ w1, ∃ rest, rest.all Call.isRoutine = true ∧ (k w1).2.log = w1.log ++ rest) :
    ∃ rest, rest.all Call.isRoutine = true
      ∧ (match CHECK_ROCBLAS_ERROR (rocblas_set_workspace lib handle p n w).1 with
          | some s => (s, (rocblas_set_workspace lib handle p n w).2)
          | none => k (rocblas_set_workspace lib handle p n w).2).2.log
        = w.log ++ Call.set_workspace p n :: rest := by
  cases CHECK_ROCBLAS_ERROR (rocblas_set_workspace lib handle p n w).1 with
  | some s => exact ⟨[], rfl, by simp [rocblas_set_workspace, World.record]⟩
  | none =>
    obtain ⟨rest, hr, hlog⟩ := hk (rocblas_set_workspace lib handle p n w).2
    exact ⟨rest, hr, by rw [hlog]; simp [rocblas_set_workspace, World.record]⟩

/-- The else-branch of every execute entry point: `_bufferSize`, then, when it
succeeded, `hipsolverManageWorkspace`, then only allocations and
computational calls. -/
theorem managed_shape (b : SizeResult σ) (g : rocblas_status_ × World σ)
    (k : World σ → hipsolverStatus_t × World σ) (w : World σ)
    (hb : ∃ new, new.any Call.isSetWorkspace = false ∧ b.world.log = w.log ++ new)
    (hg : ∃ new, new.any Call.isSetWorkspace = false ∧ g.2.log = b.world.log ++ new)
    (hk : ∀ w1, ∃ rest, rest.all Call.isRoutineOrMalloc = true
      ∧ (k w1).2.log = w1.log ++ rest) :
    (b.status ≠ HIPSOLVER_STATUS_SUCCESS →
        (match CHECK_HIPSOLVER_ERROR b.status with
          | some s => (s, b.world)
          | none =>
            match CHECK_ROCBLAS_ERROR g.1 with
            | some s => (s, g.2)
            | none => k g.2) = (b.status, b.world))
      ∧ (b.status = HIPSOLVER_STATUS_SUCCESS →
          ∃ rest, rest.all Call.isRoutineOrMalloc = true
            ∧ (match CHECK_HIPSOLVER_ERROR b.status with
                | some s => (s, b.world)
                | none =>
                  match CHECK_ROCBLAS_ERROR g.1 with
                  | some s => (s, g.2)
                  | none => k g.2).2.log = g.2.log ++ rest)
      ∧ ∃ new, new.any Call.isSetWorkspace = false
          ∧ (match CHECK_HIPSOLVER_ERROR b.status with
              | some s => (s, b.world)
              | none =>
                match CHECK_ROCBLAS_ERROR g.1 with
                | some s => (s, g.2)
                | none => k g.2).2.log = w.log ++ new := by
  obtain ⟨nb, hnb, hbl⟩ := hb
  obtain ⟨ng, hng, hgl⟩ := hg
  obtain ⟨rest, hr, hkl⟩ := hk g.2
  by_cases hs : b.status = HIPSOLVER_STATUS_SUCCESS
  · have hc : CHECK_HIPSOLVER_ERROR b.status = none := by simp [CHECK_HIPSOLVER_ERROR, hs]
    rw [hc]
    refine ⟨fun h => absurd hs h, fun _ => ?_, ?_⟩
    · cases CHECK_ROCBLAS_ERROR g.1 with
      | some s => exact ⟨[], rfl, by simp⟩
      | none => exact ⟨rest, hr, hkl⟩
    · cases CHECK_ROCBLAS_ERROR g.1 with
      | some s => exact ⟨nb ++ ng, by simp [hnb, hng], by simp [hgl, hbl]⟩
      | none =>
        exact ⟨nb ++ ng ++ rest,
          by simp [hnb, hng, routine_calls_no_set_workspace rest hr],
          by simp [hkl, hgl, hbl]⟩
  · have hc : CHECK_HIPSOLVER_ERROR b.status = some b.status := by
      simp [CHECK_HIPSOLVER_ERROR, hs]
    rw [hc]
    exact ⟨fun _ => rfl, fun h => absurd h hs, nb, hnb, hbl⟩

theorem executePlain_calls (lib : RocLib σ) (f : PlainFamily) (T : Scalar)
    (handle : hipsolverHandle_t) (a : Args) (w : World σ) :
    (¬ True → (executePlain lib f T handle a w).2 = w)
      ∧ (True → a.work = true ∧ a.lwork ≠ 0 →
          ∃ off rest, rest.all Call.isRoutine = true
            ∧ (executePlain lib f T handle a w).2.log
              = w.log ++ Call.set_workspace (.work off) (toSizeT a.lwork) :: rest)
      ∧ (True → ¬ (a.work = true ∧ a.lwork ≠ 0) →
          ((bufferSize lib f.family T handle true a w).status ≠ HIPSOLVER_STATUS_SUCCESS →
              executePlain lib f T handle a w
                = ((bufferSize lib f.family T handle true a w).status,
                   (bufferSize lib f.family T handle true a w).world))
            ∧ ((bufferSize lib f.family T handle true a w).status = HIPSOLVER_STATUS_SUCCESS →
                ∃ rest, rest.all Call.isRoutineOrMalloc = true
                  ∧ (executePlain lib f T handle a w).2.log
                    = (hipsolverManageWorkspace lib handle
                (toSizeT (lworkAfter a (bufferSize lib f.family T handle true a w)))
                (bufferSize lib f.family T handle true a w).world).2.log ++ rest)
            ∧ ∃ new, new.any Call.isSetWorkspace = false
                ∧ (executePlain lib f T handle a w).2.log = w.log ++ new) := by
  have hk : ∀ w1 : World σ, ∃ rest, rest.all Call.isRoutine = true
      ∧ (returnRoutine lib handle (computeCall f T a) w1).2.log = w1.log ++ rest :=
    fun w1 => returnRoutine_calls lib handle (computeCall f T a) w1
  refine ⟨fun h => absurd trivial h, fun _ h => ?_, fun _ h => ?_⟩
  · unfold executePlain
    rw [if_pos h]
    exact ⟨0, caller_shape lib handle (.work 0) (toSizeT a.lwork)
      (fun w1 => returnRoutine lib handle (computeCall f T a) w1) w hk⟩
  · unfold executePlain
    rw [if_neg h]
    exact managed_shape (bufferSize lib f.family T handle true a w)
      (hipsolverManageWorkspace lib handle
        (toSizeT (lworkAfter a (bufferSize lib f.family T handle true a w)))
        (bufferSize lib f.family T handle true a w).world)
      (fun w1 => returnRoutine lib handle (computeCall f T a) w1) w
      (bufferSize_log lib f.family T handle true a w)
      (hipsolverManageWorkspace_log lib handle _ _)
      (fun w1 => (hk w1).elim fun rest hr =>
        ⟨rest, routine_is_routineOrMalloc rest hr.1, hr.2⟩)

theorem malloc_then_calls (lib : RocLib σ) (handle : hipsolverHandle_t) (sizes : List Nat)
    (k : World σ → hipsolverStatus_t × World σ)
    (hk : ∀ w1, ∃ rest, rest.all Call.isRoutine = true ∧ (k w1).2.log = w1.log ++ rest)
    (w : World σ) :
    ∃ rest, rest.all Call.isRoutineOrMalloc = true
      ∧ (if (rocblas_device_malloc lib handle sizes w).1 = false
          then (HIPSOLVER_STATUS_ALLOC_FAILED, (rocblas_device_malloc lib handle sizes w).2)
          else k (rocblas_device_malloc lib handle sizes w).2).2.log = w.log ++ rest := by
  by_cases hm : (rocblas_device_malloc lib handle sizes w).1 = false
  · rw [if_pos hm]
    exact ⟨[.device_malloc sizes], by simp [Call.isRoutineOrMalloc],
      by simp [rocblas_device_malloc, World.record]⟩
  · rw [if_neg hm]
    obtain ⟨rest, hr, hl⟩ := hk (rocblas_device_malloc lib handle sizes w).2
    refine ⟨.device_malloc sizes :: rest, ?_, ?_⟩
    · simp only [List.all_cons, Bool.and_eq_true]
      exact ⟨rfl, routine_is_routineOrMalloc rest hr⟩
    · rw [hl]
      simp [rocblas_device_malloc, World.record]

theorem managedPath_calls (lib : RocLib σ) (fam : Family) (T : Scalar)
    (handle : hipsolverHandle_t) (a : Args) (manage : Int → Nat) (alloc : Nat)
    (k : DevPtr → World σ → hipsolverStatus_t × World σ) (w : World σ)
    (hk : ∀ E w1, ∃ rest, rest.all Call.isRoutine = true ∧ (k E w1).2.log = w1.log ++ rest) :
    ((bufferSize lib fam T handle true a w).status ≠ HIPSOLVER_STATUS_SUCCESS →
        managedPath lib fam T handle a manage alloc k w
          = ((bufferSize lib fam T handle true a w).status,
             (bufferSize lib fam T handle true a w).world))
      ∧ ((bufferSize lib fam T handle true a w).status = HIPSOLVER_STATUS_SUCCESS →
          ∃ rest, rest.all Call.isRoutineOrMalloc = true
            ∧ (managedPath lib fam T handle a manage alloc k w).2.log
              = (hipsolverManageWorkspace lib handle
                  (manage (lworkAfter a (bufferSize lib fam T handle true a w)))
                  (bufferSize lib fam T handle true a w).world).2.log ++ rest)
      ∧ ∃ new, new.any Call.isSetWorkspace = false
          ∧ (managedPath lib fam T handle a manage alloc k w).2.log = w.log ++ new := by
  unfold managedPath
  exact managed_shape (bufferSize lib fam T handle true a w)
    (hipsolverManageWorkspace lib handle
      (manage (lworkAfter a (bufferSize lib fam T handle true a w)))
      (bufferSize lib fam T handle true a w).world)
    (fun w1 =>
      if (rocblas_device_malloc lib handle [alloc] w1).1 = false
      then (HIPSOLVER_STATUS_ALLOC_FAILED, (rocblas_device_malloc lib handle [alloc] w1).2)
      else k (.mem 0) (rocblas_device_malloc lib handle [alloc] w1).2) w
    (bufferSize_log lib fam T handle true a w)
    (hipsolverManageWorkspace_log lib handle _ _)
    (fun w1 => malloc_then_calls lib handle [alloc] (k (.mem 0)) (hk (.mem 0)) w1)

theorem callerPath_calls (lib : RocLib σ) (handle : hipsolverHandle_t) (a : Args)
    (carved : Int) (k : DevPtr → World σ → hipsolverStatus_t × World σ) (w : World σ)
    (hk : ∀ E w1, ∃ rest, rest.all Call.isRoutine = true ∧ (k E w1).2.log = w1.log ++ rest) :
    ∃ off rest, rest.all Call.isRoutine = true
      ∧ (callerPath lib handle a carved k w).2.log
        = w.log ++ Call.set_workspace (.work off) (toSizeT a.lwork) :: rest := by
  unfold callerPath
  exact ⟨carved, caller_shape lib handle (.work carved) (toSizeT a.lwork) (k (.work 0)) w
    (hk (.work 0))⟩

theorem executeAux_calls (lib : RocLib σ) (f : AuxFamily) (T : Scalar)
    (handle : hipsolverHandle_t) (a : Args) (w : World σ) :
    (¬ reachesWorkspace f handle a → (executeAux lib f T handle a w).2 = w)
      ∧ (reachesWorkspace f handle a → a.work = true ∧ a.lwork ≠ 0 →
          ∃ off rest, rest.all Call.isRoutine = true
            ∧ (executeAux lib f T handle a w).2.log
              = w.log ++ Call.set_workspace (.work off) (toSizeT a.lwork) :: rest)
      ∧ (reachesWorkspace f handle a → ¬ (a.work = true ∧ a.lwork ≠ 0) →
          ((bufferSize lib f.family T handle true a w).status ≠ HIPSOLVER_STATUS_SUCCESS →
              executeAux lib f T handle a w
                = ((bufferSize lib f.family T handle true a w).status,
                   (bufferSize lib f.family T handle true a w).world))
            ∧ ((bufferSize lib f.family T handle true a w).status = HIPSOLVER_STATUS_SUCCESS →
                ∃ rest, rest.all Call.isRoutineOrMalloc = true
                  ∧ (executeAux lib f T handle a w).2.log
                    = (hipsolverManageWorkspace lib handle
                (manageRequest f T a (lworkAfter a (bufferSize lib f.family T handle true a w)))
                (bufferSize lib f.family T handle true a w).world).2.log ++ rest)
            ∧ ∃ new, new.any Call.isSetWorkspace = false
                ∧ (executeAux lib f T handle a w).2.log = w.log ++ new) := by
  have hsy : ∀ (E : DevPtr) (w1 : World σ), ∃ rest, rest.all Call.isRoutine = true
      ∧ (returnRoutine lib handle (syevd_call T a E) w1).2.log = w1.log ++ rest :=
    fun E w1 => returnRoutine_calls lib handle _ w1
  have hsb : ∀ (E : DevPtr) (w1 : World σ), ∃ rest, rest.all Call.isRoutine = true
      ∧ (returnRoutine lib handle (syevjBatched_call T a E) w1).2.log = w1.log ++ rest :=
    fun E w1 => returnRoutine_calls lib handle _ w1
  have hsg : ∀ (E : DevPtr) (w1 : World σ), ∃ rest, rest.all Call.isRoutine = true
      ∧ (returnRoutine lib handle (sygvd_call T a E) w1).2.log = w1.log ++ rest :=
    fun E w1 => returnRoutine_calls lib handle _ w1
  cases f
  case gesvd =>
    refine ⟨fun h => absurd trivial h, fun _ h => ?_, fun _ h => ?_⟩
    · simp only [executeAux, hipsolverXgesvd]
      rw [if_pos h]
      exact ⟨gesvd_carved T a, caller_shape lib handle _ _
        (fun w1 => returnRoutine lib handle (gesvd_call T a
          (if a.rwork = false ∧ cmin a.m a.n > 1 then DevPtr.work 0 else .param .rwork)) w1) w
        (fun w1 => returnRoutine_calls lib handle _ w1)⟩
    · simp only [executeAux, hipsolverXgesvd, AuxFamily.family, manageRequest]
      rw [if_neg h]
      exact managed_shape (bufferSize lib .gesvd T handle true a w)
        (hipsolverManageWorkspace lib handle
          (toSizeT (lworkAfter a (bufferSize lib .gesvd T handle true a w)))
          (bufferSize lib .gesvd T handle true a w).world)
        (fun w1 =>
          if a.rwork = false ∧ cmin a.m a.n > 1 then
            if (rocblas_device_malloc lib handle
                [smul (sizeofReal T) (toSizeT (cmin a.m a.n))] w1).1 = false
            then (HIPSOLVER_STATUS_ALLOC_FAILED, (rocblas_device_malloc lib handle
                [smul (sizeofReal T) (toSizeT (cmin a.m a.n))] w1).2)
            else returnRoutine lib handle (gesvd_call T a (.mem 0))
              (rocblas_device_malloc lib handle
                [smul (sizeofReal T) (toSizeT (cmin a.m a.n))] w1).2
          else returnRoutine lib handle (gesvd_call T a (.param .rwork)) w1) w
        (bufferSize_log lib .gesvd T handle true a w)
        (hipsolverManageWorkspace_log lib handle _ _)
        (fun w1 => by
          beta_reduce
          by_cases hr : a.rwork = false ∧ cmin a.m a.n > 1
          · rw [if_pos hr]
            exact malloc_then_calls lib handle _
              (fun w2 => returnRoutine lib handle (gesvd_call T a (.mem 0)) w2)
              (fun w2 => returnRoutine_calls lib handle _ w2) w1
          · rw [if_neg hr]
            obtain ⟨rest, h1, h2⟩ := returnRoutine_calls lib handle
              (gesvd_call T a (.param .rwork)) w1
            exact ⟨rest, routine_is_routineOrMalloc rest h1, h2⟩)
  case gesvdj =>
    refine ⟨fun h => ?_, fun hp h => ?_, fun hp h => ?_⟩
    · simp only [executeAux, hipsolverDnXgesvdj]
      by_cases hh : handle = none
      · rw [if_pos hh]
      · rw [if_neg hh]
        by_cases hrej : use_V_copy a.jobz a.m a.n = true ∧ (a.ldv < a.n ∨ a.V = false)
        · rw [if_pos hrej]
        · exact absurd ⟨hh, hrej⟩ h
    · obtain ⟨hh, hrej⟩ := hp
      simp only [executeAux, hipsolverDnXgesvdj]
      rw [if_neg hh, if_neg hrej, if_pos h]
      exact ⟨gesvdj_work_offset T a, caller_shape lib handle _ _
        (fun w1 => gesvdj_compute lib T handle a (.work 0)
          (.work (gesvdj_V_copy_offset T a)) w1) w
        (fun w1 => gesvdj_compute_calls lib T handle a _ _ w1)⟩
    · obtain ⟨hh, hrej⟩ := hp
      simp only [executeAux, hipsolverDnXgesvdj, AuxFamily.family, manageRequest]
      rw [if_neg hh, if_neg hrej, if_neg h]
      exact managed_shape (bufferSize lib .gesvdj T handle true a w)
        (hipsolverManageWorkspace lib handle
          (toSizeT (lworkAfter a (bufferSize lib .gesvdj T handle true a w)))
          (bufferSize lib .gesvdj T handle true a w).world)
        (fun w1 =>
          if (rocblas_device_malloc lib handle
              [smul (sizeofReal T) (toSizeT (cmin a.m a.n)), gesvdj_exec_size_V_copy T a]
              w1).1 = false
          then (HIPSOLVER_STATUS_ALLOC_FAILED, (rocblas_device_malloc lib handle
              [smul (sizeofReal T) (toSizeT (cmin a.m a.n)), gesvdj_exec_size_V_copy T a]
              w1).2)
          else gesvdj_compute lib T handle a (.mem 0) (.mem 1)
            (rocblas_device_malloc lib handle
              [smul (sizeofReal T) (toSizeT (cmin a.m a.n)), gesvdj_exec_size_V_copy T a]
              w1).2) w
        (bufferSize_log lib .gesvdj T handle true a w)
        (hipsolverManageWorkspace_log lib handle _ _)
        (fun w1 => malloc_then_calls lib handle _
          (fun w2 => gesvdj_compute lib T handle a (.mem 0) (.mem 1) w2)
          (fun w2 => gesvdj_compute_calls lib T handle a _ _ w2) w1)
  case gesvdjBatched =>
    refine ⟨fun h => ?_, fun hp h => ?_, fun hp h => ?_⟩
    · simp only [executeAux, hipsolverDnXgesvdjBatched]
      by_cases hh : handle = none
      · rw [if_pos hh]
      · rw [if_neg hh]
        by_cases hrej : use_V_copy a.jobz a.m a.n = true ∧ (a.ldv < a.n ∨ a.V = false)
        · rw [if_pos hrej]
        · exact absurd ⟨hh, hrej⟩ h
    · obtain ⟨hh, hrej⟩ := hp
      simp only [executeAux, hipsolverDnXgesvdjBatched]
      rw [if_neg hh, if_neg hrej, if_pos h]
      exact ⟨gesvdjBatched_work_offset T a, caller_shape lib handle _ _
        (fun w1 => gesvdjBatched_compute lib T handle a (.work 0)
          (.work (gesvdjBatched_V_copy_offset T a)) w1) w
        (fun w1 => gesvdjBatched_compute_calls lib T handle a _ _ w1)⟩
    · obtain ⟨hh, hrej⟩ := hp
      simp only [executeAux, hipsolverDnXgesvdjBatched, AuxFamily.family, manageRequest]
      rw [if_neg hh, if_neg hrej, if_neg h]
      exact managed_shape (bufferSize lib .gesvdjBatched T handle true a w)
        (hipsolverManageWorkspace lib handle
          (toSizeT (lworkAfter a (bufferSize lib .gesvdjBatched T handle true a w)))
          (bufferSize lib .gesvdjBatched T handle true a w).world)
        (fun w1 =>
          if (rocblas_device_malloc lib handle
              [smul (smul (sizeofReal T) (toSizeT (cmin a.m a.n))) (toSizeT a.batch_count),
               gesvdjBatched_exec_size_V_copy T a] w1).1 = false
          then (HIPSOLVER_STATUS_ALLOC_FAILED, (rocblas_device_malloc lib handle
              [smul (smul (sizeofReal T) (toSizeT (cmin a.m a.n))) (toSizeT a.batch_count),
               gesvdjBatched_exec_size_V_copy T a] w1).2)
          else gesvdjBatched_compute lib T handle a (.mem 0) (.mem 1)
            (rocblas_device_malloc lib handle
              [smul (smul (sizeofReal T) (toSizeT (cmin a.m a.n))) (toSizeT a.batch_count),
               gesvdjBatched_exec_size_V_copy T a] w1).2) w
        (bufferSize_log lib .gesvdjBatched T handle true a w)
        (hipsolverManageWorkspace_log lib handle _ _)
        (fun w1 => malloc_then_calls lib handle _
          (fun w2 => gesvdjBatched_compute lib T handle a (.mem 0) (.mem 1) w2)
          (fun w2 => gesvdjBatched_compute_calls lib T handle a _ _ w2) w1)
  case syevd =>
    refine ⟨fun h => absurd trivial h, fun _ h => ?_, fun _ h => ?_⟩
    · simp only [executeAux, hipsolverXsyevd]
      rw [if_pos h]
      exact callerPath_calls lib handle a _ _ w hsy
    · simp only [executeAux, hipsolverXsyevd, AuxFamily.family, manageRequest]
      rw [if_neg h]
      exact managedPath_calls lib .syevd T handle a _ _ _ w hsy
  case syevj =>
    refine ⟨fun h => absurd trivial h, fun _ h => ?_, fun _ h => ?_⟩
    · simp only [executeAux, hipsolverDnXsyevj]
      rw [if_pos h]
      exact callerPath_calls lib handle a _ _ w hsy
    · simp only [executeAux, hipsolverDnXsyevj, AuxFamily.family, manageRequest]
      rw [if_neg h]
      exact managedPath_calls lib .syevj T handle a _ _ _ w hsy
  case syevjBatched =>
    refine ⟨fun h => absurd trivial h, fun _ h => ?_, fun _ h => ?_⟩
    · simp only [executeAux, hipsolverDnXsyevjBatched]
      rw [if_pos h]
      exact callerPath_calls lib handle a _ _ w hsb
    · simp only [executeAux, hipsolverDnXsyevjBatched, AuxFamily.family, manageRequest]
      rw [if_neg h]
      exact managedPath_calls lib .syevjBatched T handle a _ _ _ w hsb
  case sygvd =>
    refine ⟨fun h => absurd trivial h, fun _ h => ?_, fun _ h => ?_⟩
    · simp only [executeAux, hipsolverXsygvd]
      rw [if_pos h]
      exact callerPath_calls lib handle a _ _ w hsg
    · simp only [executeAux, hipsolverXsygvd, AuxFamily.family, manageRequest]
      rw [if_neg h]
      exact managedPath_calls lib .sygvd T handle a _ _ _ w hsg
  case sygvj =>
    refine ⟨fun h => absurd trivial h, fun _ h => ?_, fun _ h => ?_⟩
    · simp only [executeAux, hipsolverDnXsygvj]
      rw [if_pos h]
      exact callerPath_calls lib handle a _ _ w hsg
    · simp only [executeAux, hipsolverDnXsygvj, AuxFamily.family, manageRequest]
      rw [if_neg h]
      exact managedPath_calls lib .sygvj T handle a _ _ _ w hsg

/-- C14, as stated, fails, in both directions.  hipsolverDnSgesvdj with a
caller buffer (work != null, lwork = 64), jobz = VECTOR, m = n = 2 and ldv = 1
returns HIPSOLVER_STATUS_INVALID_VALUE before `if(work && lwork)`:
`rocblas_set_workspace` is never called.  hipsolverSgetrf with work == null and
a null handle returns the HIPSOLVER_STATUS_NOT_INITIALIZED of
hipsolverSgetrf_bufferSize: `hipsolverManageWorkspace` is never called. -/
theorem execute_skips_install_and_reservation :
    ((execute stubLib .gesvdj .S (some 1)
          { args0 with jobz := .HIPSOLVER_EIG_MODE_VECTOR, m := 2, n := 2, ldv := 1,
                       work := true, lwork := 64 } stubWorld).1
        = HIPSOLVER_STATUS_INVALID_VALUE
      ∧ (execute stubLib .gesvdj .S (some 1)
          { args0 with jobz := .HIPSOLVER_EIG_MODE_VECTOR, m := 2, n := 2, ldv := 1,
                       work := true, lwork := 64 } stubWorld).2.log = [])
      ∧ ((execute stubLib .getrf .S none { args0 with m := 2, n := 2, lda := 2 }
            stubWorld).1 = HIPSOLVER_STATUS_NOT_INITIALIZED
        ∧ (execute stubLib .getrf .S none { args0 with m := 2, n := 2, lda := 2 }
            stubWorld).2.log = []) := by
  decide

/-- C14, amended: for each of the 104 execute entry points, once the checks
that gesvdj and gesvdjBatched make first have passed (a failed check returns
without any call): when work != null and lwork != 0 the first call is
`rocblas_set_workspace` with the caller's `lwork`, and every later call is a
computational routine, so neither the size query of `_bufferSize` nor
`hipsolverManageWorkspace` runs; in every other case the entry point calls the
matching `_bufferSize` with the same arguments, returns its status and stops
there when it is not success, and otherwise goes on with
`hipsolverManageWorkspace`, after which it only allocates and computes; it
never calls `rocblas_set_workspace`. -/
theorem workspace_source_by_caller_buffer (lib : RocLib σ) (fam : Family) (T : Scalar)
    (handle : hipsolverHandle_t) (a : Args) (w : World σ) :
    (¬ entryChecksPass fam handle a → (execute lib fam T handle a w).2 = w)
      ∧ (entryChecksPass fam handle a → a.work = true ∧ a.lwork ≠ 0 →
          ∃ off rest, rest.all Call.isRoutine = true
            ∧ (execute lib fam T handle a w).2.log
              = w.log ++ Call.set_workspace (.work off) (toSizeT a.lwork) :: rest)
      ∧ (entryChecksPass fam handle a → ¬ (a.work = true ∧ a.lwork ≠ 0) →
          ((bufferSize lib fam T handle true a w).status ≠ HIPSOLVER_STATUS_SUCCESS →
              execute lib fam T handle a w
                = ((bufferSize lib fam T handle true a w).status,
                   (bufferSize lib fam T handle true a w).world))
            ∧ ((bufferSize lib fam T handle true a w).status = HIPSOLVER_STATUS_SUCCESS →
                ∃ rest, rest.all Call.isRoutineOrMalloc = true
                  ∧ (execute lib fam T handle a w).2.log
                    = (hipsolverManageWorkspace lib handle
                (reservationRequest fam T a (lworkAfter a (bufferSize lib fam T handle true a w)))
                (bufferSize lib fam T handle true a w).world).2.log ++ rest)
            ∧ ∃ new, new.any Call.isSetWorkspace = false
                ∧ (execute lib fam T handle a w).2.log = w.log ++ new) := by
  cases fam
  case orgbr => exact executePlain_calls lib .orgbr T handle a w
  case orgqr => exact executePlain_calls lib .orgqr T handle a w
  case orgtr => exact executePlain_calls lib .orgtr T handle a w
  case ormqr => exact executePlain_calls lib .ormqr T handle a w
  case ormtr => exact executePlain_calls lib .ormtr T handle a w
  case gebrd => exact executePlain_calls lib .gebrd T handle a w
  case gels => exact executePlain_calls lib .gels T handle a w
  case geqrf => exact executePlain_calls lib .geqrf T handle a w
  case gesv => exact executePlain_calls lib .gesv T handle a w
  case getrf => exact executePlain_calls lib .getrf T handle a w
  case getrs => exact executePlain_calls lib .getrs T handle a w
  case potrf => exact executePlain_calls lib .potrf T handle a w
  case potrfBatched => exact executePlain_calls lib .potrfBatched T handle a w
  case potri => exact executePlain_calls lib .potri T handle a w
  case potrs => exact executePlain_calls lib .potrs T handle a w
  case potrsBatched => exact executePlain_calls lib .potrsBatched T handle a w
  case sytrd => exact executePlain_calls lib .sytrd T handle a w
  case sytrf => exact executePlain_calls lib .sytrf T handle a w
  case gesvd => exact executeAux_calls lib .gesvd T handle a w
  case gesvdj => exact executeAux_calls lib .gesvdj T handle a w
  case gesvdjBatched => exact executeAux_calls lib .gesvdjBatched T handle a w
  case syevd => exact executeAux_calls lib .syevd T handle a w
  case syevj => exact executeAux_calls lib .syevj T handle a w
  case syevjBatched => exact executeAux_calls lib .syevjBatched T handle a w
  case sygvd => exact executeAux_calls lib .sygvd T handle a w
  case sygvj => exact executeAux_calls lib .sygvj T handle a w

/-- Witness of `workspace_source_by_caller_buffer`: hipsolverSgetrf with
m = n = 2 and a caller buffer of 64 bytes starts with `rocblas_set_workspace`
of 64 bytes; without a buffer it never calls `rocblas_set_workspace`. -/
theorem workspace_source_by_caller_buffer_witness :
    (∃ off rest, rest.all Call.isRoutine = true
        ∧ (execute stubLib .getrf .S (some 1)
            { args0 with m := 2, n := 2, lda := 2, work := true, lwork := 64 } stubWorld).2.log
          = stubWorld.log ++ Call.set_workspace (.work off) (toSizeT 64) :: rest)
      ∧ ∃ new, new.any Call.isSetWorkspace = false
          ∧ (execute stubLib .getrf .S (some 1) { args0 with m := 2, n := 2, lda := 2 }
              stubWorld).2.log = stubWorld.log ++ new :=
  ⟨(workspace_source_by_caller_buffer stubLib .getrf .S (some 1)
      { args0 with m := 2, n := 2, lda := 2, work := true, lwork := 64 } stubWorld).2.1
      trivial ⟨rfl, by decide⟩,
   ((workspace_source_by_caller_buffer stubLib .getrf .S (some 1)
      { args0 with m := 2, n := 2, lda := 2 } stubWorld).2.2 trivial (by decide)).2.2⟩

/-! ## The status mapping -/

/-- C21: `rocblas2hip_status` is a total function; it returns
HIPSOLVER_STATUS_SUCCESS exactly for rocblas_status_success,
rocblas_status_size_unchanged and rocblas_status_size_increased, maps
invalid_handle to NOT_INITIALIZED, not_implemented to NOT_SUPPORTED,
invalid_pointer, invalid_size and invalid_value to INVALID_VALUE, memory_error
to ALLOC_FAILED, internal_error to INTERNAL_ERROR, and every code outside
these ten to HIPSOLVER_STATUS_UNKNOWN. -/
theorem rocblas2hip_status_table :
    (∀ s, ∃ r, rocblas2hip_status s = r)
      ∧ (∀ s, rocblas2hip_status s = HIPSOLVER_STATUS_SUCCESS
          ↔ (s = rocblas_status_success ∨ s = rocblas_status_size_unchanged
              ∨ s = rocblas_status_size_increased))
      ∧ rocblas2hip_status rocblas_status_invalid_handle = HIPSOLVER_STATUS_NOT_INITIALIZED
      ∧ rocblas2hip_status rocblas_status_not_implemented = HIPSOLVER_STATUS_NOT_SUPPORTED
      ∧ rocblas2hip_status rocblas_status_invalid_pointer = HIPSOLVER_STATUS_INVALID_VALUE
      ∧ rocblas2hip_status rocblas_status_invalid_size = HIPSOLVER_STATUS_INVALID_VALUE
      ∧ rocblas2hip_status rocblas_status_invalid_value = HIPSOLVER_STATUS_INVALID_VALUE
      ∧ rocblas2hip_status rocblas_status_memory_error = HIPSOLVER_STATUS_ALLOC_FAILED
      ∧ rocblas2hip_status rocblas_status_internal_error = HIPSOLVER_STATUS_INTERNAL_ERROR
      ∧ (∀ s, s ≠ rocblas_status_success → s ≠ rocblas_status_size_unchanged →
          s ≠ rocblas_status_size_increased → s ≠ rocblas_status_invalid_handle →
          s ≠ rocblas_status_not_implemented → s ≠ rocblas_status_invalid_pointer →
          s ≠ rocblas_status_invalid_size → s ≠ rocblas_status_invalid_value →
          s ≠ rocblas_status_memory_error → s ≠ rocblas_status_internal_error →
          rocblas2hip_status s = HIPSOLVER_STATUS_UNKNOWN) := by
  refine ⟨fun s => ⟨_, rfl⟩, ?_, rfl, rfl, rfl, rfl, rfl, rfl, rfl, ?_⟩
  · intro s
    cases s <;> simp [rocblas2hip_status]
  · intro s
    cases s <;> simp [rocblas2hip_status]

/-- Witness of `rocblas2hip_status_table`: the unlisted code 42 is mapped to
HIPSOLVER_STATUS_UNKNOWN, which is not the success code. -/
theorem rocblas2hip_status_table_witness :
    rocblas2hip_status (.other 42) = HIPSOLVER_STATUS_UNKNOWN
      ∧ ¬ rocblas2hip_status (.other 42) = HIPSOLVER_STATUS_SUCCESS :=
  ⟨rocblas2hip_status_table.2.2.2.2.2.2.2.2.2 (.other 42) (by decide) (by decide) (by decide)
      (by decide) (by decide) (by decide) (by decide) (by decide) (by decide) (by decide),
   by decide⟩

/-! ## The parameter stubs -/

/-- C24: each of the ten parameter stubs (gesvdj and syevj: SetMaxSweeps,
SetSortEig, SetTolerance, GetResidual, GetSweeps) returns
HIPSOLVER_STATUS_NOT_SUPPORTED for every handle, info and argument, null
pointers included, and what `info` and the output pointer point to is after
the call what it was before. -/
theorem param_stubs_not_supported {δ : Type} (handle : hipsolverHandle_t)
    (info : Option Int) (i : Int) (t : δ) (residual : Option δ) (sweeps : Option Int) :
    hipsolverDnXgesvdjSetMaxSweeps info i = (HIPSOLVER_STATUS_NOT_SUPPORTED, info)
      ∧ hipsolverDnXgesvdjSetSortEig info i = (HIPSOLVER_STATUS_NOT_SUPPORTED, info)
      ∧ hipsolverDnXgesvdjSetTolerance info t = (HIPSOLVER_STATUS_NOT_SUPPORTED, info)
      ∧ hipsolverDnXgesvdjGetResidual handle info residual
          = (HIPSOLVER_STATUS_NOT_SUPPORTED, info, residual)
      ∧ hipsolverDnXgesvdjGetSweeps handle info sweeps
          = (HIPSOLVER_STATUS_NOT_SUPPORTED, info, sweeps)
      ∧ hipsolverDnXsyevjSetMaxSweeps info i = (HIPSOLVER_STATUS_NOT_SUPPORTED, info)
      ∧ hipsolverDnXsyevjSetSortEig info i = (HIPSOLVER_STATUS_NOT_SUPPORTED, info)
      ∧ hipsolverDnXsyevjSetTolerance info t = (HIPSOLVER_STATUS_NOT_SUPPORTED, info)
      ∧ hipsolverDnXsyevjGetResidual handle info residual
          = (HIPSOLVER_STATUS_NOT_SUPPORTED, info, residual)
      ∧ hipsolverDnXsyevjGetSweeps handle info sweeps
          = (HIPSOLVER_STATUS_NOT_SUPPORTED, info, sweeps) :=
  ⟨rfl, rfl, rfl, rfl, rfl, rfl, rfl, rfl, rfl, rfl⟩

/-! ## The svect mode and the leading dimension of V_copy -/

/-- The table of `hip2rocblas_evect2svect` and the `ldv_copy` that goes with
each mode. -/
theorem evect2svect_ldv_copy_table (T : Scalar) (a : Args) (E V_copy : DevPtr) :
    (∀ econ, hip2rocblas_evect2svect .HIPSOLVER_EIG_MODE_NOVECTOR econ
        = .ok .rocblas_svect_none)
      ∧ (∀ econ, econ ≠ 0 → hip2rocblas_evect2svect .HIPSOLVER_EIG_MODE_VECTOR econ
          = .ok .rocblas_svect_singular)
      ∧ hip2rocblas_evect2svect .HIPSOLVER_EIG_MODE_VECTOR 0 = .ok .rocblas_svect_all
      ∧ (cmin a.m a.n > 0 → a.jobz = .HIPSOLVER_EIG_MODE_VECTOR →
          (hip2rocblas_evect2svect a.jobz a.econ = .ok .rocblas_svect_singular →
              gesvdj_ldv_copy a = cmin a.m a.n)
            ∧ (hip2rocblas_evect2svect a.jobz a.econ = .ok .rocblas_svect_all →
              gesvdj_ldv_copy a = a.n)
            ∧ (cmin a.m a.n ≠ a.n →
              (gesvdj_ldv_copy a = cmin a.m a.n
                ↔ hip2rocblas_evect2svect a.jobz a.econ = .ok .rocblas_svect_singular)
              ∧ (gesvdj_ldv_copy a = a.n
                ↔ hip2rocblas_evect2svect a.jobz a.econ = .ok .rocblas_svect_all)))
      ∧ (∀ c, gesvdj_call T a E V_copy = .ok c →
          ∃ sv, hip2rocblas_evect2svect a.jobz a.econ = .ok sv
            ∧ c.args.take 2 = [.svect sv, .svect sv]
            ∧ Arg.int (gesvdj_ldv_copy a) ∈ c.args)
      ∧ (∀ c, gesvdjBatched_call T a E V_copy = .ok c →
          ∃ sv, hip2rocblas_evect2svect a.jobz 0 = .ok sv
            ∧ c.args.take 2 = [.svect sv, .svect sv]
            ∧ Arg.int (gesvdjBatched_ldv_copy a) ∈ c.args)
      ∧ (use_V_copy a.jobz a.m a.n = true → gesvdjBatched_ldv_copy a = a.n) := by
  refine ⟨fun _ => rfl, ?_, rfl, ?_, ?_, ?_, ?_⟩
  · intro econ h
    simp [hip2rocblas_evect2svect, h]
  · intro hmin hj
    have hu : use_V_copy .HIPSOLVER_EIG_MODE_VECTOR a.m a.n = true := by
      simp [use_V_copy, hmin]
    by_cases he : a.econ = 0
    · simp [gesvdj_ldv_copy, hip2rocblas_evect2svect, hu, hj, he]
      intro hne h
      exact hne h.symm
    · simp [gesvdj_ldv_copy, hip2rocblas_evect2svect, hu, hj, he]
  · intro c hc
    simp only [gesvdj_call] at hc
    cases h1 : hip2rocblas_evect2svect a.jobz a.econ with
    | error e => simp [h1, bind, Except.bind] at hc
    | ok sv =>
      simp [h1, bind, Except.bind, pure, Except.pure] at hc
      subst hc
      exact ⟨sv, rfl, by simp, by simp⟩
  · intro c hc
    simp only [gesvdjBatched_call] at hc
    cases h1 : hip2rocblas_evect2svect a.jobz 0 with
    | error e => simp [h1, bind, Except.bind] at hc
    | ok sv =>
      simp [h1, bind, Except.bind, pure, Except.pure] at hc
      subst hc
      exact ⟨sv, rfl, by simp, by simp⟩
  · intro hu
    simp [gesvdjBatched_ldv_copy, hu]

/-! ## The dead guard of hipsolverManageWorkspace -/

/-- C30: in `hipsolverManageWorkspace` the guard `new_size < 0` never holds, so
the function is its remainder: it asks whether the caller manages the memory,
reads the current size if so (0 otherwise), and returns
rocblas_status_success when new_size is at most that size, and otherwise
exactly what `rocblas_set_device_memory_size(handle, new_size)` returns; with
new_size == 0 it returns success and makes no reservation call. -/
theorem manage_guard_is_dead (lib : RocLib σ) (handle : hipsolverHandle_t)
    (new_size : Nat) (w : World σ) :
    ¬ (new_size < 0)
      ∧ hipsolverManageWorkspace lib handle new_size w
        = (if new_size >
              (if (rocblas_is_user_managing_device_memory lib handle w).1 = true
                then rocblas_get_device_memory_size lib handle
                  (rocblas_is_user_managing_device_memory lib handle w).2
                else (0, (rocblas_is_user_managing_device_memory lib handle w).2)).1
            then rocblas_set_device_memory_size lib handle new_size
              (if (rocblas_is_user_managing_device_memory lib handle w).1 = true
                then rocblas_get_device_memory_size lib handle
                  (rocblas_is_user_managing_device_memory lib handle w).2
                else (0, (rocblas_is_user_managing_device_memory lib handle w).2)).2
            else (rocblas_status_success,
              (if (rocblas_is_user_managing_device_memory lib handle w).1 = true
                then rocblas_get_device_memory_size lib handle
                  (rocblas_is_user_managing_device_memory lib handle w).2
                else (0, (rocblas_is_user_managing_device_memory lib handle w).2)).2))
      ∧ (hipsolverManageWorkspace lib handle new_size w).1
        = (if (if lib.is_user_managing_device_memory handle w.st = true
                then lib.get_device_memory_size handle w.st else 0) < new_size
            then (lib.set_device_memory_size handle new_size w.st).1
            else rocblas_status_success)
      ∧ (new_size = 0 →
          (hipsolverManageWorkspace lib handle new_size w).1 = rocblas_status_success
            ∧ ∀ n, Call.set_device_memory_size n
                ∉ (hipsolverManageWorkspace lib handle new_size w).2.log.drop w.log.length) := by
  refine ⟨Nat.not_lt_zero _, ?_, ?_, ?_⟩
  · unfold hipsolverManageWorkspace
    rw [if_neg (Nat.not_lt_zero _)]
  · unfold hipsolverManageWorkspace
    rw [if_neg (Nat.not_lt_zero _)]
    by_cases hu : lib.is_user_managing_device_memory handle w.st = true
    · by_cases hg : lib.get_device_memory_size handle w.st < new_size <;>
        simp [rocblas_is_user_managing_device_memory, rocblas_get_device_memory_size,
          rocblas_set_device_memory_size, World.record, hu, hg]
    · by_cases hg : 0 < new_size <;>
        simp [rocblas_is_user_managing_device_memory, rocblas_get_device_memory_size,
          rocblas_set_device_memory_size, World.record, hu, hg]
  · intro h0
    subst h0
    unfold hipsolverManageWorkspace
    by_cases hu : lib.is_user_managing_device_memory handle w.st = true <;>
      simp [rocblas_is_user_managing_device_memory, rocblas_get_device_memory_size,
        World.record, hu]

/-- Witness of `manage_guard_is_dead`: a request of 0 bytes on a handle with
1000 bytes reserved returns success. -/
theorem manage_guard_is_dead_witness :
    (hipsolverManageWorkspace stubLib (some 1) 0 ⟨⟨false, 0, 1000, false⟩, []⟩).1
      = rocblas_status_success :=
  ((manage_guard_is_dead stubLib (some 1) 0 ⟨⟨false, 0, 1000, false⟩, []⟩).2.2.2 rfl).1

/-! ## The ldv and V check of gesvdj -/

/-- C23: hipsolverDn{S,D,C,Z}gesvdj and the Batched variants, called with a
non-null handle, min(m,n) > 0, jobz != NOVECTOR and (ldv < n or V == null),
return HIPSOLVER_STATUS_INVALID_VALUE and leave the library as it was: no call
is logged, so the workspace is neither installed nor sized and no routine
runs, whatever work and lwork are. -/
theorem gesvdj_rejects_ldv_or_null_V (lib : RocLib σ) (T : Scalar) (h : Nat) (a : Args)
    (w : World σ) (hmin : cmin a.m a.n > 0)
    (hj : a.jobz ≠ .HIPSOLVER_EIG_MODE_NOVECTOR) (hv : a.ldv < a.n ∨ a.V = false) :
    hipsolverDnXgesvdj lib T (some h) a w = (HIPSOLVER_STATUS_INVALID_VALUE, w)
      ∧ hipsolverDnXgesvdjBatched lib T (some h) a w = (HIPSOLVER_STATUS_INVALID_VALUE, w) := by
  have hu : use_V_copy a.jobz a.m a.n = true := by simp [use_V_copy, hmin, hj]
  constructor
  · unfold hipsolverDnXgesvdj
    rw [if_neg (by simp), if_pos ⟨hu, hv⟩]
  · unfold hipsolverDnXgesvdjBatched
    rw [if_neg (by simp), if_pos ⟨hu, hv⟩]

/-- Witness of `gesvdj_rejects_ldv_or_null_V`: hipsolverDnSgesvdj with jobz =
VECTOR, m = n = 2, ldv = 1 and a caller buffer of 64 bytes. -/
theorem gesvdj_rejects_ldv_or_null_V_witness :
    hipsolverDnXgesvdj stubLib .S (some 1)
        { args0 with jobz := .HIPSOLVER_EIG_MODE_VECTOR, m := 2, n := 2, ldv := 1,
                     work := true, lwork := 64 } stubWorld
      = (HIPSOLVER_STATUS_INVALID_VALUE, stubWorld) :=
  (gesvdj_rejects_ldv_or_null_V stubLib .S 1
    { args0 with jobz := .HIPSOLVER_EIG_MODE_VECTOR, m := 2, n := 2, ldv := 1,
                 work := true, lwork := 64 } stubWorld (by decide) (by decide)
    (Or.inl (by decide))).1

/-! ## getrf with and without pivoting -/

/-- C28: for hipsolver{S,D,C,Z}getrf the computational call is the pivoting
routine getrf (with devIpiv) when devIpiv != null and the routine getrf_npvt
otherwise, so the routine is the pivoting one if and only if devIpiv != null;
once the workspace has been prepared without error, in either workspace path,
that call is the one call that follows.  The matching getrf_bufferSize, with
non-null handle and lwork, makes the dry run of getrf and then of getrf_npvt
between one start and one stop of the size query, and its status is the
translated status of the getrf dry run (INTERNAL_ERROR when that one
succeeded and the size exceeds INT_MAX). -/
theorem getrf_pivots_iff_devIpiv (T : Scalar) (a : Args) :
    computeCall .getrf T a
        = .ok (if a.devIpiv = true then
            ⟨.getrf, T,
              [.int a.m, .int a.n, .ptr (.param .A), .int a.lda, .ptr (.param .devIpiv),
               .ptr (.param .devInfo)]⟩
          else
            ⟨.getrf_npvt, T,
              [.int a.m, .int a.n, .ptr (.param .A), .int a.lda, .ptr (.param .devInfo)]⟩)
      ∧ (∀ c, computeCall .getrf T a = .ok c →
          (c.name = .getrf ↔ a.devIpiv = true) ∧ (c.name = .getrf_npvt ↔ a.devIpiv = false))
      ∧ (∀ (lib : RocLib σ) (handle : hipsolverHandle_t) (w : World σ) (c : RoutineCall),
          computeCall .getrf T a = .ok c →
          (a.work = true ∧ a.lwork ≠ 0 →
            (rocblas_set_workspace lib handle (.work 0) (toSizeT a.lwork) w).1
              = rocblas_status_success →
            (executePlain lib .getrf T handle a w).1
                = rocblas2hip_status (rocsolver lib handle c
                    (rocblas_set_workspace lib handle (.work 0) (toSizeT a.lwork) w).2).1
              ∧ (executePlain lib .getrf T handle a w).2.log
                = w.log ++ [.set_workspace (.work 0) (toSizeT a.lwork), .routine c])
          ∧ (¬ (a.work = true ∧ a.lwork ≠ 0) →
            (bufferSize lib .getrf T handle true a w).status = HIPSOLVER_STATUS_SUCCESS →
            (hipsolverManageWorkspace lib handle
              (toSizeT (lworkAfter a (bufferSize lib .getrf T handle true a w)))
              (bufferSize lib .getrf T handle true a w).world).1 = rocblas_status_success →
            (executePlain lib .getrf T handle a w).1
                = rocblas2hip_status (rocsolver lib handle c
                    (hipsolverManageWorkspace lib handle
                      (toSizeT (lworkAfter a (bufferSize lib .getrf T handle true a w)))
                      (bufferSize lib .getrf T handle true a w).world).2).1
              ∧ (executePlain lib .getrf T handle a w).2.log
                = (hipsolverManageWorkspace lib handle
                    (toSizeT (lworkAfter a (bufferSize lib .getrf T handle true a w)))
                    (bufferSize lib .getrf T handle true a w).world).2.log
                  ++ [.routine c]))
      ∧ ∀ (lib : RocLib σ) (h : Nat) (w : World σ),
          (bufferSize lib .getrf T (some h) true a w).world.log
              = w.log ++ [.start_device_memory_size_query,
                  .routine ⟨.getrf, T,
                    [.int a.m, .int a.n, .ptr .nullptr, .int a.lda, .ptr .nullptr,
                     .ptr .nullptr]⟩,
                  .routine ⟨.getrf_npvt, T,
                    [.int a.m, .int a.n, .ptr .nullptr, .int a.lda, .ptr .nullptr]⟩,
                  .stop_device_memory_size_query]
            ∧ (rocblas2hip_status (lib.routine (some h)
                  ⟨.getrf, T,
                    [.int a.m, .int a.n, .ptr .nullptr, .int a.lda, .ptr .nullptr,
                     .ptr .nullptr]⟩
                  (lib.start_device_memory_size_query (some h) w.st)).1
                ≠ HIPSOLVER_STATUS_SUCCESS →
              (bufferSize lib .getrf T (some h) true a w).status
                = rocblas2hip_status (lib.routine (some h)
                  ⟨.getrf, T,
                    [.int a.m, .int a.n, .ptr .nullptr, .int a.lda, .ptr .nullptr,
                     .ptr .nullptr]⟩
                  (lib.start_device_memory_size_query (some h) w.st)).1)
            ∧ (rocblas2hip_status (lib.routine (some h)
                  ⟨.getrf, T,
                    [.int a.m, .int a.n, .ptr .nullptr, .int a.lda, .ptr .nullptr,
                     .ptr .nullptr]⟩
                  (lib.start_device_memory_size_query (some h) w.st)).1
                = HIPSOLVER_STATUS_SUCCESS →
              (bufferSize lib .getrf T (some h) true a w).status = HIPSOLVER_STATUS_SUCCESS
                ∨ (bufferSize lib .getrf T (some h) true a w).status
                  = HIPSOLVER_STATUS_INTERNAL_ERROR) := by
  refine ⟨?_, ?_, ?_, ?_⟩
  · by_cases hb : a.devIpiv = true <;> simp [computeCall, hb, pure, Except.pure]
  · intro c hc
    by_cases hb : a.devIpiv = true <;>
      simp [computeCall, hb, pure, Except.pure] at hc <;> subst hc <;> simp [hb]
  · intro lib handle w c hc
    constructor
    · intro hwl hs
      unfold executePlain
      rw [if_pos hwl]
      simp only [hs, CHECK_ROCBLAS_ERROR, hc, returnRoutine]
      simp [rocsolver, rocblas_set_workspace, World.record]
    · intro hwl hb hg
      unfold executePlain
      simp only [PlainFamily.family]
      rw [if_neg hwl]
      simp only [hb, hg, CHECK_ROCBLAS_ERROR, CHECK_HIPSOLVER_ERROR, hc, returnRoutine]
      simp [rocsolver, World.record]
  · intro lib h w
    refine ⟨?_, ?_, ?_⟩
    · simp only [bufferSize, sizeQuery, dryRunCalls, auxSizes, pure, Except.pure]
      simp only [rocblas_start_device_memory_size_query,
        rocblas_stop_device_memory_size_query, rocsolver, World.record]
      simp
      split <;> (try split) <;> simp
    · intro hne
      simp only [bufferSize, sizeQuery, dryRunCalls, auxSizes, pure, Except.pure]
      simp only [rocblas_start_device_memory_size_query,
        rocblas_stop_device_memory_size_query, rocsolver, World.record]
      simp [hne]
    · intro he
      simp only [bufferSize, sizeQuery, dryRunCalls, auxSizes, pure, Except.pure]
      simp only [rocblas_start_device_memory_size_query,
        rocblas_stop_device_memory_size_query, rocsolver, World.record]
      simp [he]
      split <;> simp

/-- Witness of `getrf_pivots_iff_devIpiv`: hipsolverSgetrf with devIpiv == null,
m = n = 2 and a caller buffer of 64 bytes installs the buffer and calls
getrf_npvt once. -/
theorem getrf_pivots_iff_devIpiv_witness :
    (executePlain stubLib .getrf .S (some 1)
        { args0 with m := 2, n := 2, lda := 2, devIpiv := false, work := true, lwork := 64 }
        stubWorld).2.log
      = stubWorld.log ++ [.set_workspace (.work 0) (toSizeT 64),
          .routine ⟨.getrf_npvt, .S,
            [.int 2, .int 2, .ptr (.param .A), .int 2, .ptr (.param .devInfo)]⟩] :=
  (((getrf_pivots_iff_devIpiv .S
      { args0 with m := 2, n := 2, lda := 2, devIpiv := false, work := true, lwork := 64 }).2.2.1
      stubLib (some 1) stubWorld _ rfl).1 ⟨rfl, by decide⟩ rfl).2

/-! ## A null handle in the execute entry points -/

/-- C22, as stated, fails: hipsolverSgetrf with a null handle and a caller
buffer (work != null, lwork = 64) has no handle check of its own; it calls
`rocblas_set_workspace(nullptr, work, 64)` and returns what the library's
rejection translates to, so a call into the library is made. -/
theorem null_handle_reaches_set_workspace :
    (execute stubLib .getrf .S none
        { args0 with m := 2, n := 2, lda := 2, work := true, lwork := 64 } stubWorld).2.log
        = [.set_workspace (.work 0) 64]
      ∧ ¬ ((execute stubLib .getrf .S none
          { args0 with m := 2, n := 2, lda := 2, work := true, lwork := 64 } stubWorld).2.log
        = stubWorld.log) := by
  decide

/-- C22, amended: an execute entry point called with a null handle returns
HIPSOLVER_STATUS_NOT_INITIALIZED before any call into the library when no
caller buffer is given (work == null or lwork == 0: the matching `_bufferSize`
rejects the handle), and, for gesvdj and gesvdjBatched, on both workspace
paths.  On the caller-buffer path the other entry points first call
`rocblas_set_workspace` with the null handle; when the library rejects that
call, it is the only call and the translated status is returned, which is
HIPSOLVER_STATUS_NOT_INITIALIZED for rocblas_status_invalid_handle. -/
theorem null_handle_execute (lib : RocLib σ) (fam : Family) (T : Scalar) (a : Args)
    (w : World σ) :
    (¬ (a.work = true ∧ a.lwork ≠ 0) →
        execute lib fam T none a w = (HIPSOLVER_STATUS_NOT_INITIALIZED, w))
      ∧ (fam = .gesvdj ∨ fam = .gesvdjBatched →
        execute lib fam T none a w = (HIPSOLVER_STATUS_NOT_INITIALIZED, w))
      ∧ (a.work = true ∧ a.lwork ≠ 0 → fam ≠ .gesvdj → fam ≠ .gesvdjBatched →
          ∃ off,
            ((lib.set_workspace none (.work off) (toSizeT a.lwork) w.st).1
                ≠ rocblas_status_success →
              (execute lib fam T none a w).1
                  = rocblas2hip_status
                      (lib.set_workspace none (.work off) (toSizeT a.lwork) w.st).1
                ∧ (execute lib fam T none a w).2.log
                  = w.log ++ [.set_workspace (.work off) (toSizeT a.lwork)])
            ∧ ((lib.set_workspace none (.work off) (toSizeT a.lwork) w.st).1
                = rocblas_status_invalid_handle →
              (execute lib fam T none a w).1 = HIPSOLVER_STATUS_NOT_INITIALIZED
                ∧ (execute lib fam T none a w).2.log
                  = w.log ++ [.set_workspace (.work off) (toSizeT a.lwork)])) := by
  refine ⟨?_, ?_, ?_⟩
  · intro h
    cases fam <;>
      simp [execute, executePlain, hipsolverXgesvd, hipsolverDnXgesvdj,
        hipsolverDnXgesvdjBatched, hipsolverXsyevd, hipsolverDnXsyevj,
        hipsolverDnXsyevjBatched, hipsolverXsygvd, hipsolverDnXsygvj, managedPath,
        bufferSize, CHECK_HIPSOLVER_ERROR, h]
  · rintro (h | h) <;> subst h <;>
      simp [execute, hipsolverDnXgesvdj, hipsolverDnXgesvdjBatched]
  · intro h h1 h2
    have key : ∀ (off : Int) (k : World σ → hipsolverStatus_t × World σ),
        ((lib.set_workspace none (.work off) (toSizeT a.lwork) w.st).1
            ≠ rocblas_status_success →
          (match CHECK_ROCBLAS_ERROR
              (rocblas_set_workspace lib none (.work off) (toSizeT a.lwork) w).1 with
            | some s => (s, (rocblas_set_workspace lib none (.work off) (toSizeT a.lwork) w).2)
            | none => k (rocblas_set_workspace lib none (.work off) (toSizeT a.lwork) w).2).1
            = rocblas2hip_status
                (lib.set_workspace none (.work off) (toSizeT a.lwork) w.st).1
          ∧ (match CHECK_ROCBLAS_ERROR
              (rocblas_set_workspace lib none (.work off) (toSizeT a.lwork) w).1 with
            | some s => (s, (rocblas_set_workspace lib none (.work off) (toSizeT a.lwork) w).2)
            | none => k (rocblas_set_workspace lib none (.work off) (toSizeT a.lwork) w).2).2.log
            = w.log ++ [.set_workspace (.work off) (toSizeT a.lwork)])
        ∧ ((lib.set_workspace none (.work off) (toSizeT a.lwork) w.st).1
            = rocblas_status_invalid_handle →
          (match CHECK_ROCBLAS_ERROR
              (rocblas_set_workspace lib none (.work off) (toSizeT a.lwork) w).1 with
            | some s => (s, (rocblas_set_workspace lib none (.work off) (toSizeT a.lwork) w).2)
            | none => k (rocblas_set_workspace lib none (.work off) (toSizeT a.lwork) w).2).1
            = HIPSOLVER_STATUS_NOT_INITIALIZED
          ∧ (match CHECK_ROCBLAS_ERROR
              (rocblas_set_workspace lib none (.work off) (toSizeT a.lwork) w).1 with
            | some s => (s, (rocblas_set_workspace lib none (.work off) (toSizeT a.lwork) w).2)
            | none => k (rocblas_set_workspace lib none (.work off) (toSizeT a.lwork) w).2).2.log
            = w.log ++ [.set_workspace (.work off) (toSizeT a.lwork)]) := by
      intro off k
      constructor
      · intro hs
        simp [CHECK_ROCBLAS_ERROR, rocblas_set_workspace, World.record, hs]
      · intro hs
        simp [CHECK_ROCBLAS_ERROR, rocblas_set_workspace, World.record, hs,
          rocblas2hip_status]
    cases fam
    case gesvdj => exact absurd rfl h1
    case gesvdjBatched => exact absurd rfl h2
    case gesvd =>
      simp only [execute, hipsolverXgesvd]
      rw [if_pos h]
      exact ⟨gesvd_carved T a, key _ _⟩
    case syevd =>
      simp only [execute, hipsolverXsyevd, callerPath]
      rw [if_pos h]
      exact ⟨_, key _ _⟩
    case syevj =>
      simp only [execute, hipsolverDnXsyevj, callerPath]
      rw [if_pos h]
      exact ⟨_, key _ _⟩
    case syevjBatched =>
      simp only [execute, hipsolverDnXsyevjBatched, callerPath]
      rw [if_pos h]
      exact ⟨_, key _ _⟩
    case sygvd =>
      simp only [execute, hipsolverXsygvd, callerPath]
      rw [if_pos h]
      exact ⟨_, key _ _⟩
    case sygvj =>
      simp only [execute, hipsolverDnXsygvj, callerPath]
      rw [if_pos h]
      exact ⟨_, key _ _⟩
    all_goals
      simp only [execute, executePlain]
      rw [if_pos h]
      exact ⟨0, key _ _⟩

/-- Witness of `null_handle_execute`: hipsolverSsyevd with a null handle and no
caller buffer returns HIPSOLVER_STATUS_NOT_INITIALIZED without any call. -/
theorem null_handle_execute_witness :
    execute stubLib .syevd .S none { args0 with n := 3, lda := 3 } stubWorld
      = (HIPSOLVER_STATUS_NOT_INITIALIZED, stubWorld) :=
  (null_handle_execute stubLib .syevd .S { args0 with n := 3, lda := 3 } stubWorld).1
    (by decide)

/-! ## The size-query bracket when a translation throws -/

/-- C25, evaluated at the failing inputs: hipsolverSgesvd_bufferSize with
jobu = 'X' (code 88) and hipsolverSorgbr_bufferSize with an invalid side, each
with a non-null handle and a non-null lwork, return the thrown status after
`rocblas_start_device_memory_size_query` and without any
`rocblas_stop_device_memory_size_query`: the handle stays in size-query
mode. -/
theorem bufferSize_leaves_query_open :
    ((bufferSize stubLib .gesvd .S (some 1) true { args0 with jobu := 88, m := 2, n := 2 }
          stubWorld).status = HIPSOLVER_STATUS_INVALID_VALUE
      ∧ (bufferSize stubLib .gesvd .S (some 1) true { args0 with jobu := 88, m := 2, n := 2 }
          stubWorld).world.log = [.start_device_memory_size_query]
      ∧ (bufferSize stubLib .gesvd .S (some 1) true { args0 with jobu := 88, m := 2, n := 2 }
          stubWorld).world.st.in_query = true)
      ∧ ((bufferSize stubLib .orgbr .S (some 1) true
            { args0 with side := .invalid 7, m := 2, n := 2, k := 2, lda := 2 }
            stubWorld).status = HIPSOLVER_STATUS_INVALID_ENUM
        ∧ (bufferSize stubLib .orgbr .S (some 1) true
            { args0 with side := .invalid 7, m := 2, n := 2, k := 2, lda := 2 }
            stubWorld).world.log = [.start_device_memory_size_query]
        ∧ (bufferSize stubLib .orgbr .S (some 1) true
            { args0 with side := .invalid 7, m := 2, n := 2, k := 2, lda := 2 }
            stubWorld).world.st.in_query = true) := by
  decide

/-! ## The value of lwork after a failed size query -/

/-- C26, as stated, fails: hipsolverDnSgesvdj_bufferSize with non-null handle
and lwork, n = 2 and ldv = 1 returns HIPSOLVER_STATUS_INVALID_VALUE from the
check `ldv < n`, which comes before `*lwork = 0`: an `lwork` that held 77
before the call holds 77 after it. -/
theorem gesvdj_bufferSize_keeps_lwork :
    (bufferSize stubLib .gesvdj .S (some 1) true
        { args0 with m := 2, n := 2, ldv := 1, lwork := 77 } stubWorld).status
        = HIPSOLVER_STATUS_INVALID_VALUE
      ∧ lworkAfter { args0 with m := 2, n := 2, ldv := 1, lwork := 77 }
          (bufferSize stubLib .gesvdj .S (some 1) true
            { args0 with m := 2, n := 2, ldv := 1, lwork := 77 } stubWorld) = 77
      ∧ ¬ ((bufferSize stubLib .gesvdj .S (some 1) true
          { args0 with m := 2, n := 2, ldv := 1, lwork := 77 } stubWorld).lwork = some 0) := by
  decide

/-- C26, amended: for every `_bufferSize` entry point other than gels, called
with non-null handle and non-null lwork: when the call returns a status other
than HIPSOLVER_STATUS_SUCCESS after its argument checks (because the dry run
failed, a translation threw, or the size exceeds INT_MAX), `*lwork` is 0 on
return; and when hipsolverDn{S,D,C,Z}gesvdj_bufferSize rejects ldv < n it
returns HIPSOLVER_STATUS_INVALID_VALUE without writing `*lwork` and without
any call into the library. -/
theorem failed_query_reports_zero (lib : RocLib σ) (fam : Family) (T : Scalar) (h : Nat)
    (a : Args) (w : World σ) :
    (fam ≠ .gels → ¬ (fam = .gesvdj ∧ a.ldv < a.n) →
        (bufferSize lib fam T (some h) true a w).status ≠ HIPSOLVER_STATUS_SUCCESS →
        (bufferSize lib fam T (some h) true a w).lwork = some 0)
      ∧ (fam = .gesvdj → a.ldv < a.n →
          (bufferSize lib fam T (some h) true a w).status = HIPSOLVER_STATUS_INVALID_VALUE
            ∧ (bufferSize lib fam T (some h) true a w).lwork = none
            ∧ lworkAfter a (bufferSize lib fam T (some h) true a w) = a.lwork
            ∧ (bufferSize lib fam T (some h) true a w).world = w) := by
  constructor
  · intro hg hv
    unfold bufferSize
    rw [if_neg (by simp), if_neg (by simp), if_neg hv]
    cases hs : sizeQuery lib fam T (some h) a w with
    | error p =>
      intro _
      rfl
    | ok p =>
      obtain ⟨status, sz, w1⟩ := p
      dsimp only
      intro hne
      cases fam <;> (try exact absurd rfl hg) <;> dsimp only at hne ⊢ <;>
        split_ifs at hne ⊢ <;> simp_all
  · intro hf hv
    subst hf
    simp [bufferSize, hv, lworkAfter]

/-- Witness of `failed_query_reports_zero`: hipsolverSorgbr_bufferSize with an
invalid side returns HIPSOLVER_STATUS_INVALID_ENUM with `*lwork` equal to 0. -/
theorem failed_query_reports_zero_witness :
    (bufferSize stubLib .orgbr .S (some 1) true
        { args0 with side := .invalid 7, m := 2, n := 2, k := 2, lda := 2 } stubWorld).lwork
      = some 0 :=
  (failed_query_reports_zero stubLib .orgbr .S 1
    { args0 with side := .invalid 7, m := 2, n := 2, k := 2, lda := 2 } stubWorld).1
    (by decide) (by decide) (by decide)

/-! ## gesvdj without vectors and a small ldv -/

/-- C27, evaluated at the failing input: hipsolverDnSgesvdj with a non-null
handle, jobz = NOVECTOR, m = n = 2 and ldv = 1.  Without a caller buffer the
call returns HIPSOLVER_STATUS_INVALID_VALUE with no library call (the
unconditional `ldv < n` check of hipsolverDnSgesvdj_bufferSize); with a caller
buffer of 64 bytes the same arguments are accepted and the routine runs. -/
theorem gesvdj_novector_ldv_by_path :
    ((hipsolverDnXgesvdj stubLib .S (some 1)
          { args0 with m := 2, n := 2, lda := 2, ldu := 2, ldv := 1 } stubWorld).1
        = HIPSOLVER_STATUS_INVALID_VALUE
      ∧ (hipsolverDnXgesvdj stubLib .S (some 1)
          { args0 with m := 2, n := 2, lda := 2, ldu := 2, ldv := 1 } stubWorld).2.log = [])
      ∧ ((hipsolverDnXgesvdj stubLib .S (some 1)
            { args0 with m := 2, n := 2, lda := 2, ldu := 2, ldv := 1, work := true,
                         lwork := 64 } stubWorld).1
          = HIPSOLVER_STATUS_SUCCESS
        ∧ (hipsolverDnXgesvdj stubLib .S (some 1)
            { args0 with m := 2, n := 2, lda := 2, ldu := 2, ldv := 1, work := true,
                         lwork := 64 } stubWorld).2.log
          = [.set_workspace (.work 8) 64,
             .routine ⟨.gesvd, .S,
               [.svect .rocblas_svect_none, .svect .rocblas_svect_none, .int 2, .int 2,
                .ptr (.param .A), .int 2, .ptr (.param .S), .ptr (.param .U), .int 2,
                .ptr (.work 8), .int 1, .ptr (.work 0), .workmode .rocblas_outofplace,
                .ptr (.param .devInfo)]⟩]) := by
  decide

/-! ## What the size queries with auxiliary arrays hand to the library -/

/-- The calls of a `_bufferSize` entry point with auxiliary arrays, given the
list `sizes` that its second bracket adds to the dry-run size. -/
theorem bufferSize_aux_calls (lib : RocLib σ) (f : AuxFamily) (T : Scalar) (h : Nat)
    (a : Args) (w : World σ) (c : RoutineCall) (sizes : List Nat)
    (hv : ¬ (f = .gesvdj ∧ a.ldv < a.n))
    (hc : dryRunCalls f.family T a = .ok (c, none))
    (hs : auxSizes f.family T a = some sizes) :
    ∃ sz, (bufferSize lib f.family T (some h) true a w).world.log
      = w.log ++ [.start_device_memory_size_query, .routine c,
          .stop_device_memory_size_query, .start_device_memory_size_query,
          .set_optimal_device_memory_size (sz :: sizes),
          .stop_device_memory_size_query] := by
  have hfam1 : f.family ≠ .gels := by cases f <;> simp [AuxFamily.family]
  have hfam2 : f.family ≠ .gesv := by cases f <;> simp [AuxFamily.family]
  have hv2 : ¬ (f.family = .gesvdj ∧ a.ldv < a.n) := by
    intro hcon
    apply hv
    refine ⟨?_, hcon.2⟩
    cases f <;> simp_all [AuxFamily.family]
  have hq := sizeQuery_aux lib f.family T (some h) a w c _ hc hs
  have hb := bufferSize_of_sizeQuery lib f.family T h a w _ _ _ hv2 hfam1 hfam2 hq
  refine ⟨(rocblas_stop_device_memory_size_query lib (some h)
      (rocsolver lib (some h) c
        (rocblas_start_device_memory_size_query lib (some h) w)).2).1, ?_⟩
  rw [hb]
  split
  · simp [rocblas_stop_device_memory_size_query, rocblas_start_device_memory_size_query,
      rocblas_set_optimal_device_memory_size, rocsolver, World.record]
  · split <;>
    simp [rocblas_stop_device_memory_size_query, rocblas_start_device_memory_size_query,
      rocblas_set_optimal_device_memory_size, rocsolver, World.record]

/-- C11: hipsolverDn{S,D,C,Z}gesvdj_bufferSize and the Batched variants, called
with non-null handle and lwork (and ldv >= n for gesvdj) and 32-bit m, n with
min(m,n) > 0, pass to `rocblas_set_optimal_device_memory_size`, after the
dry-run size, the byte counts size_E = sizeof(real) * min(m,n) (times
batch_count when batched) and size_V_copy = sizeof(T) * ldv_copy * n with
ldv_copy = min(m,n) if econ != 0 and n if econ == 0 (batched:
sizeof(T) * n * n * batch_count) when jobz != NOVECTOR, 0 otherwise, as
products in 64-bit unsigned arithmetic; sizeof(real) is 4, 8, 4, 8 and
sizeof(T) is 4, 8, 8, 16 for S, D, C, Z.  The `int` batch_count enters as its
conversion to `size_t`. -/
theorem gesvdj_aux_byte_counts (lib : RocLib σ) (T : Scalar) (h : Nat) (a : Args)
    (w : World σ) (c cb : RoutineCall)
    (hmin : cmin a.m a.n > 0) (hm : a.m ≤ INT_MAX) (hn : a.n ≤ INT_MAX) :
    (dryRunCalls .gesvdj T a = .ok (c, none) → ¬ a.ldv < a.n →
        ∃ sz, (bufferSize lib .gesvdj T (some h) true a w).world.log
          = w.log ++ [.start_device_memory_size_query, .routine c,
              .stop_device_memory_size_query, .start_device_memory_size_query,
              .set_optimal_device_memory_size
                [sz, (sizeofReal T * (cmin a.m a.n).toNat) % 2 ^ 64,
                 if a.jobz ≠ .HIPSOLVER_EIG_MODE_NOVECTOR then
                   (sizeofT T * (if a.econ ≠ 0 then cmin a.m a.n else a.n).toNat
                     * a.n.toNat) % 2 ^ 64
                 else 0],
              .stop_device_memory_size_query])
      ∧ (dryRunCalls .gesvdjBatched T a = .ok (cb, none) →
        ∃ sz, (bufferSize lib .gesvdjBatched T (some h) true a w).world.log
          = w.log ++ [.start_device_memory_size_query, .routine cb,
              .stop_device_memory_size_query, .start_device_memory_size_query,
              .set_optimal_device_memory_size
                [sz, (sizeofReal T * (cmin a.m a.n).toNat * toSizeT a.batch_count) % 2 ^ 64,
                 if a.jobz ≠ .HIPSOLVER_EIG_MODE_NOVECTOR then
                   (sizeofT T * a.n.toNat * a.n.toNat * toSizeT a.batch_count) % 2 ^ 64
                 else 0],
              .stop_device_memory_size_query])
      ∧ (sizeofReal T * (cmin a.m a.n).toNat) % 2 ^ 64 = sizeofReal T * (cmin a.m a.n).toNat
      ∧ (0 ≤ a.batch_count → a.batch_count ≤ INT_MAX →
          toSizeT a.batch_count = a.batch_count.toNat)
      ∧ (sizeofReal .S = 4 ∧ sizeofReal .D = 8 ∧ sizeofReal .C = 4 ∧ sizeofReal .Z = 8)
      ∧ (sizeofT .S = 4 ∧ sizeofT .D = 8 ∧ sizeofT .C = 8 ∧ sizeofT .Z = 16) := by
  have hf := gesvdj_size_formulas T a.jobz a.econ a.m a.n a.batch_count hmin hm hn
  have hV : gesvdj_size_V_copy T a.jobz a.econ a.m a.n
      = if a.jobz ≠ .HIPSOLVER_EIG_MODE_NOVECTOR then
          (sizeofT T * (if a.econ ≠ 0 then cmin a.m a.n else a.n).toNat * a.n.toNat) % 2 ^ 64
        else 0 := by
    by_cases hj : a.jobz ≠ .HIPSOLVER_EIG_MODE_NOVECTOR
    · rw [if_pos hj]
      exact (hf.2.2.2.1 hj).1
    · rw [if_neg hj]
      have hj2 : a.jobz = .HIPSOLVER_EIG_MODE_NOVECTOR := by
        by_contra hne
        exact hj hne
      simp [gesvdj_size_V_copy, use_V_copy, hj2]
  have hVB : gesvdjBatched_size_V_copy T a.jobz a.m a.n a.batch_count
      = if a.jobz ≠ .HIPSOLVER_EIG_MODE_NOVECTOR then
          (sizeofT T * a.n.toNat * a.n.toNat * toSizeT a.batch_count) % 2 ^ 64
        else 0 := by
    by_cases hj : a.jobz ≠ .HIPSOLVER_EIG_MODE_NOVECTOR
    · rw [if_pos hj]
      exact (hf.2.2.2.1 hj).2
    · rw [if_neg hj]
      have hj2 : a.jobz = .HIPSOLVER_EIG_MODE_NOVECTOR := by
        by_contra hne
        exact hj hne
      simp [gesvdjBatched_size_V_copy, use_V_copy, hj2]
  refine ⟨?_, ?_, ?_, hf.2.2.2.2.1, hf.2.2.2.2.2.1, hf.2.2.2.2.2.2⟩
  · intro hc hv
    have hs : auxSizes AuxFamily.gesvdj.family T a
        = some [(sizeofReal T * (cmin a.m a.n).toNat) % 2 ^ 64,
            if a.jobz ≠ .HIPSOLVER_EIG_MODE_NOVECTOR then
              (sizeofT T * (if a.econ ≠ 0 then cmin a.m a.n else a.n).toNat
                * a.n.toNat) % 2 ^ 64
            else 0] := by
      simp only [auxSizes, AuxFamily.family]
      rw [hf.1, hV]
    exact bufferSize_aux_calls lib .gesvdj T h a w c _ (fun hcon => hv hcon.2) hc hs
  · intro hc
    have hs : auxSizes AuxFamily.gesvdjBatched.family T a
        = some [(sizeofReal T * (cmin a.m a.n).toNat * toSizeT a.batch_count) % 2 ^ 64,
            if a.jobz ≠ .HIPSOLVER_EIG_MODE_NOVECTOR then
              (sizeofT T * a.n.toNat * a.n.toNat * toSizeT a.batch_count) % 2 ^ 64
            else 0] := by
      simp only [auxSizes, AuxFamily.family]
      rw [hf.2.2.1, hVB]
    exact bufferSize_aux_calls lib .gesvdjBatched T h a w cb _ (by simp) hc hs
  · rw [← hf.1]
    exact hf.2.1

/-- Witness of `gesvdj_aux_byte_counts`: hipsolverDnZgesvdj_bufferSize with
jobz = VECTOR, econ = 1, m = 5, n = 3, ldv = 3 hands the library size_E = 24
and size_V_copy = 144 after the dry-run size. -/
theorem gesvdj_aux_byte_counts_witness :
    ∃ sz, (bufferSize stubLib .gesvdj .Z (some 1) true
        { args0 with jobz := .HIPSOLVER_EIG_MODE_VECTOR, econ := 1, m := 5, n := 3, ldv := 3 }
        stubWorld).world.log
      = stubWorld.log ++ [.start_device_memory_size_query,
          .routine ⟨.gesvd, .Z,
            [.svect .rocblas_svect_singular, .svect .rocblas_svect_singular, .int 5, .int 3,
             .ptr .nullptr, .int 1, .ptr .nullptr, .ptr .nullptr, .int 1, .ptr .nullptr,
             .int 3, .ptr .nullptr, .workmode .rocblas_outofplace, .ptr .nullptr]⟩,
          .stop_device_memory_size_query, .start_device_memory_size_query,
          .set_optimal_device_memory_size [sz, 24, 144],
          .stop_device_memory_size_query] :=
  (gesvdj_aux_byte_counts stubLib .Z 1
    { args0 with jobz := .HIPSOLVER_EIG_MODE_VECTOR, econ := 1, m := 5, n := 3, ldv := 3 }
    stubWorld
    ⟨.gesvd, .Z,
      [.svect .rocblas_svect_singular, .svect .rocblas_svect_singular, .int 5, .int 3,
       .ptr .nullptr, .int 1, .ptr .nullptr, .ptr .nullptr, .int 1, .ptr .nullptr,
       .int 3, .ptr .nullptr, .workmode .rocblas_outofplace, .ptr .nullptr]⟩
    ⟨.gesvd, .Z, []⟩ (by decide) (by decide) (by decide)).1 rfl (by decide)

/-! ## The `V_copy` contribution that the gesvdj size queries add -/

/-- C9, as stated, fails: hipsolverDnZgesvdj_bufferSize with jobz = VECTOR,
econ = 0, m = 1, n = ldv = 2^30 (non-null handle and lwork) computes
size_V_copy = 16 * 2^30 * 2^30, which is 2^64 and wraps to 0 in `size_t`: the
sizes handed to `rocblas_set_optimal_device_memory_size` are the dry-run size,
size_E = 8 and a V_copy contribution of 0. -/
theorem size_V_copy_wraps_to_zero :
    (1 : Int) ≤ 1 ∧ (1 : Int) ≤ 1073741824 ∧ (1073741824 : Int) ≤ INT_MAX
      ∧ (bufferSize stubLib .gesvdj .Z (some 1) true
          { args0 with jobz := .HIPSOLVER_EIG_MODE_VECTOR, m := 1, n := 1073741824,
                       ldv := 1073741824 } stubWorld).world.log
        = [.start_device_memory_size_query,
           .routine ⟨.gesvd, .Z,
             [.svect .rocblas_svect_all, .svect .rocblas_svect_all, .int 1,
              .int 1073741824, .ptr .nullptr, .int 1, .ptr .nullptr, .ptr .nullptr, .int 1,
              .ptr .nullptr, .int 1073741824, .ptr .nullptr,
              .workmode .rocblas_outofplace, .ptr .nullptr]⟩,
           .stop_device_memory_size_query, .start_device_memory_size_query,
           .set_optimal_device_memory_size [1024, 8, 0],
           .stop_device_memory_size_query] := by
  decide

/-- C9, amended: hipsolverDn{S,D,C,Z}gesvdj_bufferSize and the Batched variants,
called with non-null handle and lwork (and ldv >= n for gesvdj), hand
`rocblas_set_optimal_device_memory_size` the dry-run size, size_E and the
V_copy contribution V.  V is 0 when jobz is NOVECTOR, for all m, n, econ and
batch_count; when jobz is VECTOR and m, n (and batch_count) are 32-bit ints
that are at least 1, V is the byte count
sizeof(T) * ldv_copy * n (* batch_count) reduced modulo 2^64, hence strictly
positive exactly when that byte count is not a multiple of 2^64, in particular
whenever it is below 2^64. -/
theorem size_V_copy_zero_or_positive (lib : RocLib σ) (T : Scalar) (h : Nat) (a : Args)
    (w : World σ) (c cb : RoutineCall) :
    (dryRunCalls .gesvdj T a = .ok (c, none) → ¬ a.ldv < a.n →
        ∃ sz E V, (bufferSize lib .gesvdj T (some h) true a w).world.log
            = w.log ++ [.start_device_memory_size_query, .routine c,
                .stop_device_memory_size_query, .start_device_memory_size_query,
                .set_optimal_device_memory_size [sz, E, V],
                .stop_device_memory_size_query]
          ∧ (a.jobz = .HIPSOLVER_EIG_MODE_NOVECTOR → V = 0)
          ∧ (a.jobz = .HIPSOLVER_EIG_MODE_VECTOR →
              1 ≤ a.m → a.m ≤ INT_MAX → 1 ≤ a.n → a.n ≤ INT_MAX →
              V = (sizeofT T * (if a.econ ≠ 0 then cmin a.m a.n else a.n).toNat
                    * a.n.toNat) % 2 ^ 64
                ∧ (0 < V ↔ ¬ 2 ^ 64 ∣ sizeofT T
                    * (if a.econ ≠ 0 then cmin a.m a.n else a.n).toNat * a.n.toNat)
                ∧ (sizeofT T * (if a.econ ≠ 0 then cmin a.m a.n else a.n).toNat
                      * a.n.toNat < 2 ^ 64 → 0 < V)))
      ∧ (dryRunCalls .gesvdjBatched T a = .ok (cb, none) →
        ∃ sz E V, (bufferSize lib .gesvdjBatched T (some h) true a w).world.log
            = w.log ++ [.start_device_memory_size_query, .routine cb,
                .stop_device_memory_size_query, .start_device_memory_size_query,
                .set_optimal_device_memory_size [sz, E, V],
                .stop_device_memory_size_query]
          ∧ (a.jobz = .HIPSOLVER_EIG_MODE_NOVECTOR → V = 0)
          ∧ (a.jobz = .HIPSOLVER_EIG_MODE_VECTOR →
              1 ≤ a.m → a.m ≤ INT_MAX → 1 ≤ a.n → a.n ≤ INT_MAX →
              1 ≤ a.batch_count → a.batch_count ≤ INT_MAX →
              V = (sizeofT T * a.n.toNat * a.n.toNat * a.batch_count.toNat) % 2 ^ 64
                ∧ (0 < V ↔ ¬ 2 ^ 64 ∣ sizeofT T * a.n.toNat * a.n.toNat
                    * a.batch_count.toNat)
                ∧ (sizeofT T * a.n.toNat * a.n.toNat * a.batch_count.toNat < 2 ^ 64 →
                    0 < V))) := by
  have hval := size_V_copy_values T a.econ a.m a.n a.batch_count
  constructor
  · intro hc hv
    obtain ⟨sz, hlog⟩ := bufferSize_aux_calls lib .gesvdj T h a w c
      [gesvdj_size_E T a.m a.n, gesvdj_size_V_copy T a.jobz a.econ a.m a.n]
      (fun hcon => hv hcon.2) hc rfl
    refine ⟨sz, _, _, hlog, ?_, ?_⟩
    · intro hj
      rw [hj]
      exact hval.1
    · intro hj
      rw [hj]
      exact hval.2.2.1
  · intro hc
    obtain ⟨sz, hlog⟩ := bufferSize_aux_calls lib .gesvdjBatched T h a w cb
      [gesvdjBatched_size_E T a.m a.n a.batch_count,
       gesvdjBatched_size_V_copy T a.jobz a.m a.n a.batch_count]
      (by simp) hc rfl
    refine ⟨sz, _, _, hlog, ?_, ?_⟩
    · intro hj
      rw [hj]
      exact hval.2.1
    · intro hj
      rw [hj]
      exact hval.2.2.2

/-- Witness of `size_V_copy_zero_or_positive`: hipsolverDnSgesvdjBatched_bufferSize
with jobz = VECTOR, m = 3, n = ldv = 2 and batch_count = 5 hands the library a
V_copy contribution, and the call log shows it to be 80 bytes. -/
theorem size_V_copy_zero_or_positive_witness :
    (∃ sz E V, (bufferSize stubLib .gesvdjBatched .S (some 1) true
          { args0 with jobz := .HIPSOLVER_EIG_MODE_VECTOR, m := 3, n := 2, ldv := 2,
                       batch_count := 5 } stubWorld).world.log
        = stubWorld.log ++ [.start_device_memory_size_query,
            .routine ⟨.gesvd_strided_batched, .S,
              [.svect .rocblas_svect_all, .svect .rocblas_svect_all, .int 3, .int 2,
               .ptr .nullptr, .int 1, .int 2, .ptr .nullptr, .int 2, .ptr .nullptr, .int 1,
               .int 3, .ptr .nullptr, .int 2, .int 4, .ptr .nullptr, .int 2,
               .workmode .rocblas_outofplace, .ptr .nullptr, .int 5]⟩,
            .stop_device_memory_size_query, .start_device_memory_size_query,
            .set_optimal_device_memory_size [sz, E, V],
            .stop_device_memory_size_query]
        ∧ V = (4 * 2 * 2 * 5) % 2 ^ 64 ∧ 0 < V)
      ∧ (bufferSize stubLib .gesvdjBatched .S (some 1) true
          { args0 with jobz := .HIPSOLVER_EIG_MODE_VECTOR, m := 3, n := 2, ldv := 2,
                       batch_count := 5 } stubWorld).world.log.get? 4
        = some (.set_optimal_device_memory_size [1024, 40, 80]) :=
  ⟨((size_V_copy_zero_or_positive stubLib .S 1
      { args0 with jobz := .HIPSOLVER_EIG_MODE_VECTOR, m := 3, n := 2, ldv := 2,
                   batch_count := 5 } stubWorld ⟨.gesvd, .S, []⟩
      ⟨.gesvd_strided_batched, .S,
        [.svect .rocblas_svect_all, .svect .rocblas_svect_all, .int 3, .int 2,
         .ptr .nullptr, .int 1, .int 2, .ptr .nullptr, .int 2, .ptr .nullptr, .int 1,
         .int 3, .ptr .nullptr, .int 2, .int 4, .ptr .nullptr, .int 2,
         .workmode .rocblas_outofplace, .ptr .nullptr, .int 5]⟩).2 rfl).imp
      fun _ hE => hE.imp fun _ hV => hV.imp fun _ hP =>
        ⟨hP.1,
         (hP.2.2 rfl (by decide) (by decide) (by decide) (by decide) (by decide)
            (by decide)).1,
         (hP.2.2 rfl (by decide) (by decide) (by decide) (by decide) (by decide)
            (by decide)).2.2 (by decide)⟩,
   by decide⟩

/-! ## The bytes carved for `E` in gesvd and the size_E of its size query -/

theorem hipsolverXgesvd_caller_log (lib : RocLib σ) (T : Scalar) (handle : hipsolverHandle_t)
    (a : Args) (w : World σ) (hw : a.work = true) (hl : a.lwork ≠ 0) :
    ∃ rest, (hipsolverXgesvd lib T handle a w).2.log
      = w.log ++ Call.set_workspace (.work (gesvd_carved T a)) (toSizeT a.lwork) :: rest := by
  unfold hipsolverXgesvd
  rw [if_pos ⟨hw, hl⟩]
  dsimp only
  cases CHECK_ROCBLAS_ERROR
      (rocblas_set_workspace lib handle (.work (gesvd_carved T a)) (toSizeT a.lwork) w).1 with
  | some s => exact ⟨[], by simp [rocblas_set_workspace, World.record]⟩
  | none =>
    obtain ⟨rest, hrest⟩ := returnRoutine_log lib handle
      (gesvd_call T a
        (if a.rwork = false ∧ cmin a.m a.n > 1 then DevPtr.work 0 else .param .rwork))
      (rocblas_set_workspace lib handle (.work (gesvd_carved T a)) (toSizeT a.lwork) w).2
    exact ⟨rest, by rw [hrest]; simp [rocblas_set_workspace, World.record]⟩

/-- C3, as stated, fails: for m = n = 1 hipsolverSgesvd_bufferSize hands
`rocblas_set_optimal_device_memory_size` the dry-run size and size_E = 4,
while hipsolverSgesvd with a caller buffer and rwork == null installs the
caller's `work` pointer unchanged: 0 bytes are carved for E. -/
theorem gesvd_carves_nothing_for_one :
    (bufferSize stubLib .gesvd .S (some 1) true { args0 with m := 1, n := 1 }
        stubWorld).world.log
        = [.start_device_memory_size_query,
           .routine ⟨.gesvd, .S,
             [.svect .rocblas_svect_none, .svect .rocblas_svect_none, .int 1, .int 1,
              .ptr .nullptr, .int 1, .ptr .nullptr, .ptr .nullptr, .int 1, .ptr .nullptr,
              .int 1, .ptr .nullptr, .workmode .rocblas_outofplace, .ptr .nullptr]⟩,
           .stop_device_memory_size_query, .start_device_memory_size_query,
           .set_optimal_device_memory_size [1024, 4],
           .stop_device_memory_size_query]
      ∧ (hipsolverXgesvd stubLib .S (some 1)
          { args0 with m := 1, n := 1, work := true, lwork := 64 } stubWorld).2.log.head?
        = some (Call.set_workspace (.work 0) 64)
      ∧ ¬ ((0 : Int) = 4) := by
  decide

/-- C3, amended: for hipsolver{S,D,C,Z}gesvd and 32-bit m, n >= 0, with
rwork == null: hipsolver{S,D,C,Z}gesvd_bufferSize (non-null handle and lwork)
hands `rocblas_set_optimal_device_memory_size` the dry-run size and size_E,
which is sizeof(real) * min(m,n) (0 when min(m,n) = 0); the execute entry
point with a caller buffer installs the workspace behind the bytes it carves
for E; the carved bytes equal that size_E whenever min(m,n) is not 1, and
when min(m,n) = 1 nothing is carved while size_E is sizeof(real). -/
theorem gesvd_carved_eq_size_E (lib : RocLib σ) (T : Scalar) (h : Nat) (a : Args)
    (w : World σ) (c : RoutineCall)
    (hm0 : 0 ≤ a.m) (hm1 : a.m ≤ INT_MAX) (hn0 : 0 ≤ a.n) (hn1 : a.n ≤ INT_MAX)
    (hr : a.rwork = false) :
    ∃ E : Nat,
      (dryRunCalls .gesvd T a = .ok (c, none) →
          ∃ sz, (bufferSize lib .gesvd T (some h) true a w).world.log
            = w.log ++ [.start_device_memory_size_query, .routine c,
                .stop_device_memory_size_query, .start_device_memory_size_query,
                .set_optimal_device_memory_size [sz, E],
                .stop_device_memory_size_query])
        ∧ auxSizes .gesvd T a = some [E]
        ∧ (E : Int) = (sizeofReal T : Int) * cmin a.m a.n
        ∧ (∀ (handle : hipsolverHandle_t) (w1 : World σ), a.work = true → a.lwork ≠ 0 →
            ∃ rest, (hipsolverXgesvd lib T handle a w1).2.log
              = w1.log ++ Call.set_workspace (.work (gesvd_carved T a)) (toSizeT a.lwork)
                  :: rest)
        ∧ (cmin a.m a.n ≠ 1 → gesvd_carved T a = (E : Int))
        ∧ (cmin a.m a.n = 1 → gesvd_carved T a = 0 ∧ E = sizeofReal T) := by
  have hold := @gesvd_carved_of_size_E σ T a hm0 hm1 hn0 hn1 hr
  have hE : (gesvd_size_E T a.m a.n : Int) = (sizeofReal T : Int) * cmin a.m a.n := by
    by_cases h1 : cmin a.m a.n = 1
    · have := (hold.2 h1).2
      rw [this, h1]
      simp
    · exact (hold.1 h1).2.1
  refine ⟨gesvd_size_E T a.m a.n, ?_, rfl, hE, ?_, ?_, ?_⟩
  · intro hc
    exact bufferSize_aux_calls lib .gesvd T h a w c _ (by simp) hc rfl
  · intro handle w1 hw hl
    exact hipsolverXgesvd_caller_log lib T handle a w1 hw hl
  · intro hne
    exact (hold.1 hne).1
  · intro h1
    exact hold.2 h1

/-- Witness of `gesvd_carved_eq_size_E`: hipsolverDgesvd with m = 5, n = 3
carves 24 bytes, the size_E that hipsolverDgesvd_bufferSize hands to the
library. -/
theorem gesvd_carved_eq_size_E_witness :
    ∃ E : Nat,
      auxSizes .gesvd .D { args0 with m := 5, n := 3, work := true, lwork := 4096 } = some [E]
        ∧ (E : Int) = 8 * 3
        ∧ gesvd_carved .D { args0 with m := 5, n := 3, work := true, lwork := 4096 }
          = (E : Int) :=
  (gesvd_carved_eq_size_E stubLib .D 1
    { args0 with m := 5, n := 3, work := true, lwork := 4096 } stubWorld ⟨.gesvd, .D, []⟩
    (by decide) (by decide) (by decide) (by decide) rfl).imp
    fun _ hE => ⟨hE.2.1, hE.2.2.1, hE.2.2.2.2.1 (by decide)⟩

/-! ## gesvdj: the carve offsets and the sizes of the size query -/

/-- C2: for hipsolverDn{S,D,C,Z}gesvdj and the Batched variants, every jobz and
econ and 32-bit m, n >= 0 (batch_count >= 0) whose element counts
min(m,n)(*batch_count) and ldv_copy*n(*batch_count) fit in an `int`: the
matching `_bufferSize` (non-null handle and lwork, and ldv >= n for gesvdj)
hands `rocblas_set_optimal_device_memory_size` the dry-run size, size_E and
size_V_copy; with a caller buffer the execute entry point places V_copy at
byte offset size_E and installs the workspace of the underlying routine at
byte offset size_E + size_V_copy, for those same two values. -/
theorem gesvdj_offsets_match_sizes (lib : RocLib σ) (T : Scalar) (h : Nat) (a : Args)
    (w : World σ) (c cb : RoutineCall)
    (hm0 : 0 ≤ a.m) (hm1 : a.m ≤ INT_MAX) (hn0 : 0 ≤ a.n) (hn1 : a.n ≤ INT_MAX) :
    (gesvdj_ldv_copy a * a.n ≤ INT_MAX →
        ∃ E V : Nat,
          (dryRunCalls .gesvdj T a = .ok (c, none) → ¬ a.ldv < a.n →
              ∃ sz, (bufferSize lib .gesvdj T (some h) true a w).world.log
                = w.log ++ [.start_device_memory_size_query, .routine c,
                    .stop_device_memory_size_query, .start_device_memory_size_query,
                    .set_optimal_device_memory_size [sz, E, V],
                    .stop_device_memory_size_query])
            ∧ auxSizes .gesvdj T a = some [E, V]
            ∧ gesvdj_V_copy_offset T a = (E : Int)
            ∧ gesvdj_work_offset T a = ((E + V : Nat) : Int)
            ∧ ∀ (w1 : World σ), a.work = true → a.lwork ≠ 0 →
                ¬ (use_V_copy a.jobz a.m a.n = true ∧ (a.ldv < a.n ∨ a.V = false)) →
                hipsolverDnXgesvdj lib T (some h) a w1
                  = match CHECK_ROCBLAS_ERROR (rocblas_set_workspace lib (some h)
                        (.work ((E + V : Nat) : Int)) (toSizeT a.lwork) w1).1 with
                    | some s => (s, (rocblas_set_workspace lib (some h)
                        (.work ((E + V : Nat) : Int)) (toSizeT a.lwork) w1).2)
                    | none => gesvdj_compute lib T (some h) a (.work 0) (.work (E : Int))
                        (rocblas_set_workspace lib (some h)
                          (.work ((E + V : Nat) : Int)) (toSizeT a.lwork) w1).2)
      ∧ (0 ≤ a.batch_count → a.batch_count ≤ INT_MAX →
          cmin a.m a.n * a.batch_count ≤ INT_MAX →
          gesvdjBatched_ldv_copy a * a.n * a.batch_count ≤ INT_MAX →
        ∃ E V : Nat,
          (dryRunCalls .gesvdjBatched T a = .ok (cb, none) →
              ∃ sz, (bufferSize lib .gesvdjBatched T (some h) true a w).world.log
                = w.log ++ [.start_device_memory_size_query, .routine cb,
                    .stop_device_memory_size_query, .start_device_memory_size_query,
                    .set_optimal_device_memory_size [sz, E, V],
                    .stop_device_memory_size_query])
            ∧ auxSizes .gesvdjBatched T a = some [E, V]
            ∧ gesvdjBatched_V_copy_offset T a = (E : Int)
            ∧ gesvdjBatched_work_offset T a = ((E + V : Nat) : Int)
            ∧ ∀ (w1 : World σ), a.work = true → a.lwork ≠ 0 →
                ¬ (use_V_copy a.jobz a.m a.n = true ∧ (a.ldv < a.n ∨ a.V = false)) →
                hipsolverDnXgesvdjBatched lib T (some h) a w1
                  = match CHECK_ROCBLAS_ERROR (rocblas_set_workspace lib (some h)
                        (.work ((E + V : Nat) : Int)) (toSizeT a.lwork) w1).1 with
                    | some s => (s, (rocblas_set_workspace lib (some h)
                        (.work ((E + V : Nat) : Int)) (toSizeT a.lwork) w1).2)
                    | none => gesvdjBatched_compute lib T (some h) a (.work 0)
                        (.work (E : Int))
                        (rocblas_set_workspace lib (some h)
                          (.work ((E + V : Nat) : Int)) (toSizeT a.lwork) w1).2) := by
  have hold := @gesvdj_offsets_of_sizes σ T a hm0 hm1 hn0 hn1
  constructor
  · intro hfit
    obtain ⟨h1, h2, h3⟩ := hold.1 hfit
    refine ⟨gesvdj_size_E T a.m a.n, gesvdj_size_V_copy T a.jobz a.econ a.m a.n,
      ?_, rfl, h1, h2, ?_⟩
    · intro hc hv
      exact bufferSize_aux_calls lib .gesvdj T h a w c _ (fun hcon => hv hcon.2) hc rfl
    · intro w1 hw hl hrej
      exact h3 lib h w1 hw hl hrej
  · intro hb0 hb1 hfitE hfitV
    obtain ⟨h1, h2, h3⟩ := hold.2 hb0 hb1 hfitE hfitV
    refine ⟨gesvdjBatched_size_E T a.m a.n a.batch_count,
      gesvdjBatched_size_V_copy T a.jobz a.m a.n a.batch_count, ?_, rfl, h1, h2, ?_⟩
    · intro hc
      exact bufferSize_aux_calls lib .gesvdjBatched T h a w cb _ (by simp) hc rfl
    · intro w1 hw hl hrej
      exact h3 lib h w1 hw hl hrej

/-- Witness of `gesvdj_offsets_match_sizes`: for hipsolverDnCgesvdj with jobz =
VECTOR, econ = 1, m = 5, n = 3 the size query hands the library E = 12 and
V = 72 bytes; V_copy is placed at byte 12 and the workspace at byte 84. -/
theorem gesvdj_offsets_match_sizes_witness :
    ∃ E V : Nat,
      auxSizes .gesvdj .C
          { args0 with jobz := .HIPSOLVER_EIG_MODE_VECTOR, econ := 1, m := 5, n := 3, ldv := 3,
                       batch_count := 2, work := true, lwork := 4096 } = some [E, V]
        ∧ gesvdj_V_copy_offset .C
          { args0 with jobz := .HIPSOLVER_EIG_MODE_VECTOR, econ := 1, m := 5, n := 3, ldv := 3,
                       batch_count := 2, work := true, lwork := 4096 } = (E : Int)
        ∧ gesvdj_work_offset .C
          { args0 with jobz := .HIPSOLVER_EIG_MODE_VECTOR, econ := 1, m := 5, n := 3, ldv := 3,
                       batch_count := 2, work := true, lwork := 4096 } = ((E + V : Nat) : Int)
        ∧ E = 12 ∧ V = 72 :=
  ((gesvdj_offsets_match_sizes stubLib .C 1
    { args0 with jobz := .HIPSOLVER_EIG_MODE_VECTOR, econ := 1, m := 5, n := 3, ldv := 3,
                 batch_count := 2, work := true, lwork := 4096 } stubWorld
    ⟨.gesvd, .C, []⟩ ⟨.gesvd, .C, []⟩ (by decide) (by decide) (by decide) (by decide)).1
    (by decide)).imp
    fun _ hE => hE.imp fun _ hV =>
      ⟨hV.2.1, hV.2.2.1, hV.2.2.2.1,
       (List.cons.inj (Option.some.inj hV.2.1)).1.symm,
       (List.cons.inj (List.cons.inj (Option.some.inj hV.2.1)).2).1.symm⟩

/-! ## The svect mode and the leading dimension of V_copy in the entry points -/

end HipSolver
